import Mathlib

/-!
# AliRoot: the HLT ZMQ sink, the HOMER proxy handler and four small modules

A shallow embedding of `HLT/global/AliHLTZMQsink.cxx` and of
`HLT/BASE/AliHLTHOMERProxyHandler.cxx`, followed by the DAQ tables of
`RAW/AliDAQ.cxx`, `IceGOM::GetString`, two pieces of
`STEER/STEER/AliLumiTools.cxx` and `AliHLTSimulationSetup`.  One call of
`AliHLTZMQsink::DoProcessing` is a pure function from the sink object, the
event's blocks and the answers of the outside world (the poll, the clock, the
return codes of `zmq_send`, the run number) to the new sink object and the
ordered list of `zmq_send` calls it issued.

Declarations the sink uses from headers outside the translated sources
(`AliHLTDataTypes.h`, `AliZMQhelpers.h`, libc, ROOT) are gathered in the
structure `Decls`.  The general statements hold for an arbitrary value of it;
the concrete examples are evaluated at `exampleDecls`.
-/

namespace HLT

/-! ## Constants of `zmq.h` and `errno.h` -/

/-- Socket type `ZMQ_PUB` of `zmq.h`. -/
def ZMQ_PUB : Int := 1

/-- Socket type `ZMQ_REP` of `zmq.h`. -/
def ZMQ_REP : Int := 4

/-- Socket type `ZMQ_PUSH` of `zmq.h`. -/
def ZMQ_PUSH : Int := 8

/-- Send flag `ZMQ_DONTWAIT` of `zmq.h`. -/
def ZMQ_DONTWAIT : Nat := 1

/-- Send flag `ZMQ_SNDMORE` of `zmq.h`. -/
def ZMQ_SNDMORE : Nat := 2

/-- Error number `EINVAL` of `errno.h`. -/
def EINVAL : Int := 22

/-! ## Data model -/

/-- The struct `AliHLTComponentDataType`.  The sink only ever looks at `fID`
through a 64-bit load and at `fOrigin` through a 32-bit load
(`reinterpret_cast<const AliHLTUInt64_t*>`, `AliHLTUInt32_t`), so each field is
kept as the word that load yields. -/
structure AliHLTComponentDataType where
  fID : Nat
  fOrigin : Nat
deriving DecidableEq, Repr, Inhabited

/-- The struct `AliHLTComponentBlockData`, reduced to the members the sink
reads.  `fPtr` is the payload as a list of bytes and `fSize` is its length. -/
structure AliHLTComponentBlockData where
  fDataType : AliHLTComponentDataType
  fSpecification : Nat
  fPtr : List Nat
deriving DecidableEq, Repr, Inhabited

/-- Member `fSize` of a block: the number of payload bytes. -/
def AliHLTComponentBlockData.fSize (b : AliHLTComponentBlockData) : Nat :=
  b.fPtr.length

/-- The buffer handed to one `zmq_send` call, by the kind of object the call
site passes. -/
inductive Buf where
  /-- A character buffer: the literal `"INFO"` or `runNumberString.data()`. -/
  | chars (s : String)
  /-- The bytes `fECSparamString.Data()`, `fECSparamString.Length()`. -/
  | tstring (bytes : List Nat)
  /-- An `AliHLTDataTopic` built from a data type, all `sizeof(topic)` bytes. -/
  | topicOfDataType (dt : AliHLTComponentDataType)
  /-- An `AliHLTDataTopic` built from a block (`blockTopic = *inputBlock`). -/
  | topicOfBlock (b : AliHLTComponentBlockData)
  /-- A block payload: `inputBlock->fPtr`, `inputBlock->fSize`. -/
  | payload (bytes : List Nat)
  /-- The null buffer of size zero: `zmq_send(fZMQout, 0, 0, flags)`. -/
  | null
deriving DecidableEq, Repr

/-- One `zmq_send(fZMQout, buf, size, flags)` call. -/
structure Frame where
  buf : Buf
  flags : Nat
deriving DecidableEq, Repr

/-- Whether a frame was sent with the `ZMQ_SNDMORE` bit set. -/
def Frame.sndMore (f : Frame) : Bool :=
  f.flags &&& ZMQ_SNDMORE != 0

/-- Whether a frame was sent with the `ZMQ_DONTWAIT` bit set. -/
def Frame.dontWait (f : Frame) : Bool :=
  f.flags &&& ZMQ_DONTWAIT != 0

/-- Whether a frame carries a block payload. -/
def Frame.isPayload (f : Frame) : Bool :=
  match f.buf with
  | Buf.payload _ => true
  | _ => false

/-- The `HLTWarning` calls of `DoProcessing`. -/
inductive Warning where
  /-- Line 307, `"error sending data frame ..."`, with the loop index. -/
  | dataFrame (iSelectedBlock : Nat)
  /-- Line 324, `"error sending dummy REP topic"`. -/
  | dummyTopic
  /-- Line 327, `"error sending dummy REP data"`. -/
  | dummyData
deriving DecidableEq, Repr

/-- The data members of `AliHLTZMQsink` (the two ZMQ handles apart). -/
structure AliHLTZMQsink where
  fZMQsocketType : Int
  fZMQoutConfig : String
  fZMQpollIn : Bool
  fPushbackDelayPeriod : Int
  fLastPushbackDelayTime : Int
  fIncludePrivateBlocks : Bool
  fZMQneverBlock : Bool
  fSendRunNumber : Bool
  fNskippedErrorMessages : Int
  fZMQerrorMsgSkip : Int
  fSendECSparamString : Bool
  fECSparamString : List Nat
deriving DecidableEq, Repr

/-- Declarations used by the sink whose definitions live outside the
translated sources: constants and helpers of `AliHLTDataTypes.h` and
`AliZMQhelpers.h`, `atoi` of libc and `TString::Atoi` of ROOT. -/
structure Decls where
  /-- Length of the topic buffers, `kAliHLTComponentDataTypeTopicSize`. -/
  kAliHLTComponentDataTypeTopicSize : Nat
  /-- The data type `kAliHLTDataTypeECSParam`. -/
  kAliHLTDataTypeECSParam : AliHLTComponentDataType
  /-- The 32-bit word of `kAliHLTDataOriginPrivate`. -/
  kAliHLTDataOriginPrivate : Nat
  /-- The topic bytes `DataType2Topic(dt, buffer)` writes. -/
  DataType2Topic : AliHLTComponentDataType → List Nat
  /-- The comparison `Topicncmp(topic, reference, topicSize)`. -/
  Topicncmp : List Nat → List Nat → Int → Bool
  /-- The socket type `alizmq_socket_type(config)` parses from a config. -/
  alizmq_socket_type : String → Int
  /-- The libc function `atoi`. -/
  atoi : String → Int
  /-- The ROOT method `TString::Atoi`. -/
  Atoi : String → Int

/-- Modelled from the spec: `Topicncmp` is defined in `AliZMQhelpers.h`, which
is not among the sources.  The spec words it as: the match succeeds if the
requested length is `<= 0` (match-all) or if the first `requestedLen` bytes of
the candidate equal the requested bytes. -/
def Topicncmp (requested candidate : List Nat) (requestedLen : Int) : Bool :=
  decide (requestedLen ≤ 0) ||
    (candidate.take requestedLen.toNat == requested.take requestedLen.toNat)

/-! ## What the outside world answers during one `DoProcessing` call -/

/-- The answers of the environment during one cycle. -/
structure Env where
  /-- Outcome of the zero-timeout `zmq_poll`: `none` when `ZMQ_POLLIN` is not
  reported, otherwise the frames of the pending multipart request (the first
  one and the ones after it). -/
  inbound : Option (List Nat × List (List Nat))
  /-- Value of `TDatime::Get()` read by the gating test (line 201). -/
  clockGate : Nat
  /-- Value of `TDatime::Get()` read when the push time is recorded (line 213). -/
  clockSend : Nat
  /-- Return code of the `n`-th `zmq_send` call of the cycle, counted from 0. -/
  sendRc : Nat → Int
  /-- Value of `GetRunNo()`, a 32-bit word; the member is declared in
  `AliHLTComponent.h`, which is not among the sources. -/
  runNo : Int
  /-- For an ECS parameter block of size zero the test on line 231 reads the
  byte in front of the payload, which is not part of the block.  This is what
  that read leads to for block `iBlock`: `none` when the byte is non-zero (the
  insertion of zero bytes changes nothing), `some str` when it is zero and
  `str` is the C string then found at `fPtr`. -/
  ecsOutOfBounds : Nat → Option (List Nat)

/-- Conversion of a value to `Int_t` (two's complement, 32 bits). -/
def toInt32 (x : Int) : Int :=
  (x + 2 ^ 31) % 2 ^ 32 - 2 ^ 31

/-- The locals `requestTopic`, `requestTopicSize` and `doSendECSparamString`. -/
structure RequestLocals where
  requestTopic : List Nat
  requestTopicSize : Int
  doSendECSparamString : Bool
deriving DecidableEq, Repr

/-- The call `zmq_recv(fZMQout, buffer, len, 0)` on a pending frame `part`:
at most `len` bytes overwrite the front of the buffer and the full size of the
frame is returned. -/
def zmq_recv (buffer part : List Nat) (len : Nat) : List Nat × Int :=
  (part.take len ++ buffer.drop (min part.length len), (part.length : Int))

/-- One pass through the body of the `do ... while (more==1)` loop (lines
179-191) once the topic frame `topicPart` has been taken off the socket. -/
def recvBody (d : Decls) (ecsParamTopic : List Nat) (st : RequestLocals)
    (topicPart : List Nat) : RequestLocals :=
  let r := zmq_recv st.requestTopic topicPart d.kAliHLTComponentDataTypeTopicSize
  { requestTopic := r.1
    requestTopicSize := r.2
    doSendECSparamString :=
      if d.Topicncmp r.1 ecsParamTopic r.2 then true else st.doSendECSparamString }

/-- The loop of lines 177-192 over a pending multipart request: each pass takes
a topic frame and, when `ZMQ_RCVMORE` is set, a request frame; it repeats while
`ZMQ_RCVMORE` is still set after that. -/
def recvRequest (d : Decls) (ecsParamTopic : List Nat) :
    RequestLocals → List Nat → List (List Nat) → RequestLocals
  | st, t, [] => recvBody d ecsParamTopic st t
  | st, t, [_] => recvBody d ecsParamTopic st t
  | st, t, _ :: t2 :: rest => recvRequest d ecsParamTopic (recvBody d ecsParamTopic st t) t2 rest

/-- Lines 229-239: the new value of `fECSparamString` after an ECS parameter
block with payload `payload` was seen. -/
def cacheECSparam (e : Env) (iBlock : Nat) (cached payload : List Nat) : List Nat :=
  match payload.getLast? with
  | none =>
    match e.ecsOutOfBounds iBlock with
    | none => cached
    | some str => str
  | some last =>
    if last ≠ 0 then payload ++ cached
    else payload.takeWhile (fun c => c ≠ 0)

/-- Result of the selection loop: the cached string and `selectedBlockIdx`. -/
structure Selection where
  fECSparamString : List Nat
  selectedBlockIdx : List Nat
deriving DecidableEq, Repr

/-- The selection loop of lines 220-259, started at block index `iBlock` with
the blocks from there on. -/
def selectBlocks (d : Decls) (e : Env) (fIncludePrivateBlocks : Bool) (req : RequestLocals) :
    Nat → List AliHLTComponentBlockData → List Nat → Selection
  | _, [], ecs => { fECSparamString := ecs, selectedBlockIdx := [] }
  | iBlock, inputBlock :: rest, ecs =>
    let isECS : Bool := inputBlock.fDataType.fID == d.kAliHLTDataTypeECSParam.fID
    let ecs1 := if isECS then cacheECSparam e iBlock ecs inputBlock.fPtr else ecs
    let tail := selectBlocks d e fIncludePrivateBlocks req (iBlock + 1) rest ecs1
    if isECS && req.doSendECSparamString then tail
    else if !fIncludePrivateBlocks &&
        inputBlock.fDataType.fOrigin == d.kAliHLTDataOriginPrivate then tail
    else if d.Topicncmp req.requestTopic (d.DataType2Topic inputBlock.fDataType)
        req.requestTopicSize then
      { tail with selectedBlockIdx := iBlock :: tail.selectedBlockIdx }
    else tail

/-- What a stretch of sends leaves behind. -/
structure SendOut where
  frames : List Frame
  nSentBlocks : Int
  fNskippedErrorMessages : Int
  warnings : List Warning
deriving DecidableEq, Repr

/-- The send loop of lines 288-316.  `n` counts the `zmq_send` calls already
made in the cycle, `iSelectedBlock` is the loop index and `nSelected` is
`selectedBlockIdx.size()`. -/
def sendBlocks (fZMQneverBlock : Bool) (fZMQerrorMsgSkip : Int) (sendRc : Nat → Int)
    (blocks : List AliHLTComponentBlockData) (nSelected : Nat) :
    Nat → List Nat → Nat → Int → Int → SendOut
  | _, [], _, nSentBlocks, nSkipped =>
    { frames := [], nSentBlocks := nSentBlocks, fNskippedErrorMessages := nSkipped,
      warnings := [] }
  | iSelectedBlock, idx :: rest, n, nSentBlocks, nSkipped =>
    let inputBlock := blocks.getD idx default
    let flags0 : Nat := 0
    let flags1 : Nat := if fZMQneverBlock then ZMQ_DONTWAIT else flags0
    let flags2 : Nat := if iSelectedBlock < nSelected - 1 then ZMQ_SNDMORE else flags1
    let rc := sendRc (n + 1)
    let warn : Bool := decide (rc < 0) && decide (nSkipped ≥ fZMQerrorMsgSkip)
    let nSkipped1 : Int := if rc < 0 then nSkipped + 1 else nSkipped
    let nSkipped2 : Int := if warn then 0 else nSkipped1
    let nSent1 : Int := if warn then nSentBlocks else nSentBlocks + 1
    let tail := sendBlocks fZMQneverBlock fZMQerrorMsgSkip sendRc blocks nSelected
      (iSelectedBlock + 1) rest (n + 2) nSent1 nSkipped2
    { frames := ⟨Buf.topicOfBlock inputBlock, ZMQ_SNDMORE⟩ ::
        ⟨Buf.payload inputBlock.fPtr, flags2⟩ :: tail.frames
      nSentBlocks := tail.nSentBlocks
      fNskippedErrorMessages := tail.fNskippedErrorMessages
      warnings := (if warn then [Warning.dataFrame iSelectedBlock] else []) ++ tail.warnings }

/-- Lines 264-273: the run-number frames, sent when `fSendRunNumber` is set
and at least one block is selected.  Line 268 prints `GetRunNo()` with `"%i"`,
so the digits are those of the value read as a signed 32-bit integer. -/
def sendInfo (fSendRunNumber : Bool) (nSelectedBlocks : Nat) (e : Env) : List Frame × Int :=
  if fSendRunNumber && decide (nSelectedBlocks > 0) then
    ([⟨Buf.chars "INFO", ZMQ_SNDMORE⟩,
      ⟨Buf.chars ("run=" ++ toString (toInt32 e.runNo)), ZMQ_SNDMORE⟩],
     if e.sendRc 1 ≥ 0 then 1 else 0)
  else ([], 0)

/-- Lines 277-285: the ECS parameter frames, sent when configured or requested;
`n` counts the sends made so far. -/
def sendECS (d : Decls) (e : Env) (doIt : Bool) (ecs : List Nat) (nSelectedBlocks n : Nat)
    (nSentBlocks : Int) : List Frame × Int :=
  if doIt then
    let flags : Nat := if nSelectedBlocks = 0 then 0 else ZMQ_SNDMORE
    ([⟨Buf.topicOfDataType d.kAliHLTDataTypeECSParam, ZMQ_SNDMORE⟩,
      ⟨Buf.tstring ecs, flags⟩],
     if e.sendRc (n + 1) ≥ 0 then nSentBlocks + 1 else nSentBlocks)
  else ([], nSentBlocks)

/-- Lines 320-328: the empty two-part message of the reply socket. -/
def sendDummy (fZMQsocketType : Int) (e : Env) (n : Nat) (nSentBlocks : Int) :
    List Frame × List Warning :=
  if nSentBlocks = 0 ∧ fZMQsocketType = ZMQ_REP then
    ([⟨Buf.null, ZMQ_SNDMORE⟩, ⟨Buf.null, 0⟩],
     (if e.sendRc n < 0 then [Warning.dummyTopic] else []) ++
     (if e.sendRc (n + 1) < 0 then [Warning.dummyData] else []))
  else ([], [])

/-- What one call of `DoProcessing` yields: the sink afterwards, the
`zmq_send` calls in order, the warnings, the return value, the caller's
`outputBlocks` after the call, and the values the locals `doSend` (as tested
on line 207) and `selectedBlockIdx` took. -/
structure Result where
  sink : AliHLTZMQsink
  sent : List Frame
  warnings : List Warning
  retCode : Int
  outputBlocks : List AliHLTComponentBlockData
  doSend : Bool
  selectedBlockIdx : List Nat
deriving DecidableEq, Repr

/-- Lines 168-195: the value of `doSend` and of the request locals after the
polling stage. -/
def pollStage (d : Decls) (s : AliHLTZMQsink) (e : Env) : Bool × RequestLocals :=
  let init : RequestLocals :=
    { requestTopic := List.replicate d.kAliHLTComponentDataTypeTopicSize 42
      requestTopicSize := -1
      doSendECSparamString := false }
  if s.fZMQpollIn then
    match e.inbound with
    | some (t, rest) =>
      (true, recvRequest d (d.DataType2Topic d.kAliHLTDataTypeECSParam) init t rest)
    | none => (false, init)
  else (true, init)

/-- Lines 198-205: the value of `doSend` after the pushback test.  The class
header is not among the sources; `fLastPushbackDelayTime` and
`fPushbackDelayPeriod` are taken to be `Int_t` members, and the `Int_t`
subtraction on line 201 wraps at 32 bits. -/
def gateStage (s : AliHLTZMQsink) (e : Env) (doSend : Bool) : Bool :=
  if s.fPushbackDelayPeriod > 0 then
    if toInt32 (toInt32 e.clockGate - s.fLastPushbackDelayTime) < s.fPushbackDelayPeriod
    then false else doSend
  else doSend

/-- Lines 208-328: the body of `if (doSend)`, with the request locals `req`
as the polling stage left them. -/
def sendStage (d : Decls) (s : AliHLTZMQsink) (e : Env) (req : RequestLocals)
    (blocks : List AliHLTComponentBlockData) : Result :=
  let last : Int :=
    if s.fPushbackDelayPeriod > 0 then toInt32 e.clockSend else s.fLastPushbackDelayTime
  let sel := selectBlocks d e s.fIncludePrivateBlocks req 0 blocks s.fECSparamString
  let nSelectedBlocks := sel.selectedBlockIdx.length
  let info := sendInfo s.fSendRunNumber nSelectedBlocks e
  let ecs := sendECS d e (s.fSendECSparamString || req.doSendECSparamString)
    sel.fECSparamString nSelectedBlocks info.1.length info.2
  let blk := sendBlocks s.fZMQneverBlock s.fZMQerrorMsgSkip e.sendRc blocks nSelectedBlocks
    0 sel.selectedBlockIdx (info.1.length + ecs.1.length) ecs.2 s.fNskippedErrorMessages
  let dummy := sendDummy s.fZMQsocketType e
    (info.1.length + ecs.1.length + blk.frames.length) blk.nSentBlocks
  { sink := { s with
      fLastPushbackDelayTime := last
      fECSparamString := sel.fECSparamString
      fNskippedErrorMessages := blk.fNskippedErrorMessages }
    sent := info.1 ++ ecs.1 ++ blk.frames ++ dummy.1
    warnings := blk.warnings ++ dummy.2
    retCode := 0
    outputBlocks := []
    doSend := true
    selectedBlockIdx := sel.selectedBlockIdx }

/-- The member function `AliHLTZMQsink::DoProcessing` (lines 139-333).  The
caller's list `outputBlocks` is cleared on line 331 on every path, so the
list returned is empty whatever was passed in. -/
def AliHLTZMQsink.DoProcessing (d : Decls) (s : AliHLTZMQsink) (e : Env)
    (blocks _outputBlocks : List AliHLTComponentBlockData) : Result :=
  let polled := pollStage d s e
  let doSend := gateStage s e polled.1
  if doSend then sendStage d s e polled.2 blocks
  else
    { sink := s, sent := [], warnings := [], retCode := 0, outputBlocks := [],
      doSend := false, selectedBlockIdx := [] }

/-! ## Construction and configuration -/

/-- The constructor (lines 30-47).  It has no initialiser for
`fLastPushbackDelayTime`; the value that member happens to hold is the
argument. -/
def AliHLTZMQsink.ctor (fLastPushbackDelayTime : Int) : AliHLTZMQsink :=
  { fZMQsocketType := -1
    fZMQoutConfig := "PUB"
    fZMQpollIn := false
    fPushbackDelayPeriod := -1
    fLastPushbackDelayTime := fLastPushbackDelayTime
    fIncludePrivateBlocks := false
    fZMQneverBlock := true
    fSendRunNumber := true
    fNskippedErrorMessages := 0
    fZMQerrorMsgSkip := 100
    fSendECSparamString := false
    fECSparamString := [] }

/-- Whether the characters `pat` occur in `s` as a contiguous run. -/
def containsChars (pat : List Char) : List Char → Bool
  | [] => pat.isEmpty
  | c :: cs => ((c :: cs).take pat.length == pat) || containsChars pat cs

/-- The ROOT call `value.Contains(pat, TString::kIgnoreCase)`. -/
def containsIgnoreCase (value pat : String) : Bool :=
  containsChars (pat.toList.map Char.toLower) (value.toList.map Char.toLower)

/-- The test `value.EqualTo("0") || value.EqualTo("no") || value.EqualTo("false")`
of lines 363 and 368. -/
def isOff (value : String) : Bool :=
  value == "0" || value == "no" || value == "false"

/-- The member function `AliHLTZMQsink::ProcessOption` (lines 336-396): the
return value and the sink afterwards. -/
def AliHLTZMQsink.ProcessOption (d : Decls) (s : AliHLTZMQsink) (option value : String) :
    Int × AliHLTZMQsink :=
  if option = "out" then
    let s1 := { s with fZMQoutConfig := value, fZMQsocketType := d.alizmq_socket_type value }
    if s1.fZMQsocketType = ZMQ_REP then (1, { s1 with fZMQpollIn := true })
    else if s1.fZMQsocketType = ZMQ_PUSH then (1, { s1 with fZMQpollIn := false })
    else if s1.fZMQsocketType = ZMQ_PUB then (1, { s1 with fZMQpollIn := false })
    else (-EINVAL, s1)
  else if option = "SendRunNumber" then
    (1, { s with fSendRunNumber := if isOff value then false else true })
  else if option = "SendECSparamString" then
    (1, { s with fSendECSparamString := if isOff value then false else true })
  else if option = "pushback-period" then
    (1, { s with fPushbackDelayPeriod := d.atoi value })
  else if option = "IncludePrivateBlocks" then
    (1, { s with fIncludePrivateBlocks := true })
  else if option = "ZMQneverBlock" then
    if value == "0" || value == "no" || containsIgnoreCase value "false" then
      (1, { s with fZMQneverBlock := false })
    else if value == "1" || value == "yes" || containsIgnoreCase value "true" then
      (1, { s with fZMQneverBlock := true })
    else (1, s)
  else if option = "ZMQerrorMsgSkip" then
    (1, { s with fZMQerrorMsgSkip := d.Atoi value })
  else (1, s)

/-! ## Expected framing of a batch of blocks -/

/-- The frames the spec expects for a batch of blocks: each block as a topic
frame followed by its payload frame, every frame with `ZMQ_SNDMORE` except the
payload of the final block, which is sent with `lastFlags`. -/
def expectedBlockFrames (lastFlags : Nat) : List AliHLTComponentBlockData → List Frame
  | [] => []
  | [b] => [⟨Buf.topicOfBlock b, ZMQ_SNDMORE⟩, ⟨Buf.payload b.fPtr, lastFlags⟩]
  | b :: b2 :: rest =>
    ⟨Buf.topicOfBlock b, ZMQ_SNDMORE⟩ :: ⟨Buf.payload b.fPtr, ZMQ_SNDMORE⟩ ::
      expectedBlockFrames lastFlags (b2 :: rest)

/-! ## Concrete data for the examples -/

/-- A value for the outside declarations: topics of 12 bytes, the ECS
parameter type with id word 1 and the private origin word 99, a topic made of
the id and origin words, the comparison `Topicncmp` as worded by the spec, and
a socket-type parser that knows the three sink patterns. -/
def exampleDecls : Decls :=
  { kAliHLTComponentDataTypeTopicSize := 12
    kAliHLTDataTypeECSParam := { fID := 1, fOrigin := 99 }
    kAliHLTDataOriginPrivate := 99
    DataType2Topic := fun dt => [dt.fID, dt.fOrigin]
    Topicncmp := Topicncmp
    alizmq_socket_type := fun v =>
      if v = "REP" then ZMQ_REP else if v = "PUSH" then ZMQ_PUSH
      else if v = "PUB" then ZMQ_PUB else -1
    atoi := fun v => (v.toInt?).getD 0
    Atoi := fun v => (v.toInt?).getD 0 }

/-- An environment with no pending request, clock value `t` at both reads,
every send returning `rc`, and run number `run`. -/
def exampleEnv (t : Nat) (rc : Int) (run : Int) : Env :=
  { inbound := none
    clockGate := t
    clockSend := t
    sendRc := fun _ => rc
    runNo := run
    ecsOutOfBounds := fun _ => none }

/-- A sink in reply pattern: freshly constructed, then `out` set to a `REP`
socket (socket type `ZMQ_REP`, request polling on). -/
def exampleReplySink : AliHLTZMQsink :=
  { AliHLTZMQsink.ctor 0 with fZMQsocketType := ZMQ_REP, fZMQoutConfig := "REP", fZMQpollIn := true }

/-- The reply sink with `pushback-period` 5 and a push recorded at clock
value 100. -/
def exampleReplyPushbackSink : AliHLTZMQsink :=
  { exampleReplySink with fPushbackDelayPeriod := 5, fLastPushbackDelayTime := 100 }

/-- Block of type word `ty`, origin word `origin`, with the given payload. -/
def exampleBlock (ty origin : Nat) (payload : List Nat) : AliHLTComponentBlockData :=
  { fDataType := { fID := ty, fOrigin := origin }, fSpecification := 0, fPtr := payload }

/-- The environment `exampleEnv t rc run` with a pending request made of the
single frame `[10]`: under `exampleDecls` it asks for the blocks whose topic
starts with the byte 10, and not for the ECS parameters. -/
def exampleRequestEnv (t : Nat) (rc : Int) (run : Int) : Env :=
  { exampleEnv t rc run with inbound := some ([10], []) }

/-- A freshly constructed sink whose cached ECS parameter string is `old`. -/
def exampleCachedSink : AliHLTZMQsink :=
  { AliHLTZMQsink.ctor 0 with fECSparamString := [111, 108, 100] }

/-! ## The HOMER proxy handler: data model -/

/-- Modelled from the spec: the enum `HOMERRealms_t` is declared in
`AliHLTHOMERProxyHandler.h`, which is not among the sources.  The spec speaks
of four realm classes, and the table `fgkHOMERProxyNode` lists the primary
nodes in the order HLT, ACR, GPN, KIP, followed by the secondary ones. -/
def kHLT : Int := 0

/-- Modelled from the spec: second realm of `HOMERRealms_t`, see `kHLT`. -/
def kACR : Int := 1

/-- Modelled from the spec: third realm of `HOMERRealms_t`, see `kHLT`. -/
def kGPN : Int := 2

/-- Modelled from the spec: fourth realm of `HOMERRealms_t`, see `kHLT`. -/
def kKIP : Int := 3

/-- Modelled from the spec: the number of realms, last entry of
`HOMERRealms_t`, see `kHLT`. -/
def kHOMERRealmsMax : Int := 4

/-- The table `fgkHOMERProxyNode` (lines 111-120). -/
def fgkHOMERProxyNode : List String :=
  [ "portal-dcs0.internal",
    "alihlt-dcs0.cern.ch",
    "alihlt-vobox0.cern.ch",
    "alihlt-gw0.kip.uni-heidelberg.de",
    "portal-dcs1.internal",
    "alihlt-dcs1.cern.ch",
    "alihlt-vobox1.cern.ch",
    "alihlt-gw1.kip.uni-heidelberg.de" ]

/-- The read `fgkHOMERProxyNode[idx]`: `none` when the index is outside the
table, where the C++ read has no defined value. -/
def proxyNodeAt (idx : Int) : Option String :=
  if idx < 0 then none else fgkHOMERProxyNode[idx.toNat]?

/-- A node of a parsed document as `TXMLNode` shows it: its name, its text and
its children in document order.  `GetNextNode` of a child is the child after
it in the list. -/
inductive TXMLNode where
  | mk (name : String) (text : String) (children : List TXMLNode)

/-- The call `GetNodeName()`. -/
def TXMLNode.GetNodeName : TXMLNode → String
  | TXMLNode.mk name _ _ => name

/-- The call `GetText()`. -/
def TXMLNode.GetText : TXMLNode → String
  | TXMLNode.mk _ text _ => text

/-- The children of a node, first to last. -/
def TXMLNode.children : TXMLNode → List TXMLNode
  | TXMLNode.mk _ _ children => children

/-- The call `GetChildren()`: the first child, `none` for the null pointer. -/
def TXMLNode.GetChildren (n : TXMLNode) : Option TXMLNode :=
  n.children.head?

/-- The call `HasChildren()`. -/
def TXMLNode.HasChildren (n : TXMLNode) : Bool :=
  !n.children.isEmpty

/-- What `AliHLTHOMERSourceDesc::SetService` is given (line 388). -/
structure AliHLTHOMERSourceDesc where
  hostname : String
  port : Int
  dataOrigin : String
  dataType : String
  dataSpecification : String
deriving DecidableEq, Repr

/-- ROOT functions the proxy handler calls. -/
structure ProxyDecls where
  /-- The call `TDOMParser::ParseBuffer`: the return code and the root node of
  the document then held by the parser (`none` for a null pointer). -/
  ParseBuffer : List Char → Int × Option TXMLNode
  /-- The call `TString::IsDigit`. -/
  IsDigit : String → Bool
  /-- The call `TString::Atoi`. -/
  Atoi : String → Int

/-- The data members of `AliHLTHOMERProxyHandler`.  `fSourceList` points to
the caller's list; the member here is the content of that list. -/
structure AliHLTHOMERProxyHandler where
  fRealm : Int
  fXmlRpcResponse : List Char
  fSourceList : List AliHLTHOMERSourceDesc
deriving DecidableEq, Repr

/-- The constructor (lines 50-59); the null `fSourceList` is the empty list. -/
def AliHLTHOMERProxyHandler.ctor : AliHLTHOMERProxyHandler :=
  { fRealm := kHLT, fXmlRpcResponse := [], fSourceList := [] }

/-- The member function `IdentifyRealm` (lines 123-138) for the host address
`hostIP`; `TString::Contains` is the search for a contiguous run. -/
def AliHLTHOMERProxyHandler.IdentifyRealm (h : AliHLTHOMERProxyHandler) (hostIP : String) :
    AliHLTHOMERProxyHandler :=
  if containsChars "10.162.".toList hostIP.toList then { h with fRealm := kHLT }
  else if containsChars "10.160.".toList hostIP.toList ||
      containsChars "10.161.".toList hostIP.toList then { h with fRealm := kACR }
  else if containsChars "129.206.".toList hostIP.toList then { h with fRealm := kKIP }
  else { h with fRealm := kGPN }

/-! ## The HOMER proxy handler: talking to the proxy -/

/-- One call `socket->RecvRaw(&buffer[bufferLength], 1)`: its return value
and, when that is positive, the byte it stored. -/
structure RecvRaw where
  rc : Int
  byte : Char
deriving DecidableEq, Repr

/-- What the network answers during one `RequestXmlRpcResponse` call. -/
structure ProxyEnv where
  /-- Whether the `n`-th `TSocket` created in the call is valid (0 for the
  first one, 1 for the second). -/
  connect : Nat → Bool
  /-- Return value of `SendRaw`. -/
  sendRaw : Int
  /-- The successive `RecvRaw` calls.  Once the list is used up no further
  byte ever arrives and the next `RecvRaw` does not return. -/
  recv : List RecvRaw

/-- The request `reqMsg` (lines 177-183). -/
def reqMsg : String :=
  "PUT / HTTP/1.1\r\nUser-Agent: curl/7.18.0 (x86_64-pc-linux-gnu) libcurl/7.18.0 OpenSSL/0.9.8g zlib/1.2.3.3 libidn/1.1\r\nHost: localhost:10000\r\nAccept: */*\r\nContent-type: text/xml\r\nContent-Length: 68\r\n\r\n<methodCall><methodName>getTcpDumpServices</methodName></methodCall>\r\n"

/-- Size of the line buffer, `bufferSize`. -/
def bufferSize : Nat := 1024

/-- The line feed, character 10. -/
def lineFeed : Char := Char.ofNat 10

/-- The NUL character. -/
def nul : Char := Char.ofNat 0

/-- The test `bufferString.BeginsWith("<?xml")`. -/
def beginsWithXml (bufferString : List Char) : Bool :=
  bufferString.take 5 == "<?xml".toList

/-- The terminator line `"</methodResponse>"`. -/
def methodResponseEnd : List Char := "</methodResponse>".toList

/-- A line as the receive loop can hold it: free of line feeds and of NUL
characters, and short enough for `buffer` together with its terminating NUL. -/
def cLine (l : List Char) : Prop :=
  (∀ c ∈ l, c ≠ lineFeed) ∧ (∀ c ∈ l, c ≠ nul) ∧ l.length < bufferSize

instance (l : List Char) : Decidable (cLine l) := by
  unfold cLine
  infer_instance

/-- What the receive loop leaves: `outcome` is the return value together with
`fXmlRpcResponse`, or `none` when the loop has no defined return; `nRecv` is
the number of `RecvRaw` calls made. -/
structure RecvOut where
  outcome : Option (Int × List Char)
  nRecv : Nat
deriving DecidableEq, Repr

/-- The two nested loops of lines 204-241.  `line` holds the bytes stored in
`buffer` since the last line feed (`bufferLength` is its length), `isXmlRpc`
and `response` are the locals and member of the same name, `n` counts the
`RecvRaw` calls made.  A negative return of `RecvRaw` ends the call with that
value.  There is no defined return when no further byte arrives, when the
byte would be stored past the end of `buffer`, or when `RecvRaw` returns 0 and
the test of line 219 reads a byte that was not received.  At a line feed the
line is turned into `bufferString` through its C string, which ends at the
first NUL. -/
def recvLoop : List RecvRaw → List Char → Bool → List Char → Nat → RecvOut
  | [], _, _, _, n => { outcome := none, nRecv := n }
  | ev :: rest, line, isXmlRpc, response, n =>
    if ev.rc < 0 then { outcome := some (ev.rc, response), nRecv := n + 1 }
    else if bufferSize ≤ line.length then { outcome := none, nRecv := n + 1 }
    else if ev.rc = 0 then { outcome := none, nRecv := n + 1 }
    else if ev.byte = lineFeed then
      let bufferString := line.takeWhile (fun c => c != nul)
      let isXmlRpc1 := isXmlRpc || beginsWithXml bufferString
      let response1 := if isXmlRpc1 then response ++ bufferString else response
      if bufferString = methodResponseEnd then
        { outcome := some (0, response1), nRecv := n + 1 }
      else recvLoop rest [] isXmlRpc1 response1 (n + 1)
    else recvLoop rest (line ++ [ev.byte]) isXmlRpc response (n + 1)

/-- What one call of `RequestXmlRpcResponse` does: the table indices of the
nodes a `TSocket` was created for, in order; whether `SendRaw` was called; the
number of `RecvRaw` calls; and the return value with the handler afterwards,
`none` when the call has no defined return. -/
structure RequestResult where
  attempts : List Int
  sendCalled : Bool
  nRecv : Nat
  outcome : Option (Int × AliHLTHOMERProxyHandler)
deriving DecidableEq, Repr

/-- Lines 174-246 of `RequestXmlRpcResponse`, once a valid socket exists: the
request is sent and the response is read.  `attempts` lists the sockets
created so far. -/
def exchange (h : AliHLTHOMERProxyHandler) (e : ProxyEnv) (attempts : List Int) :
    RequestResult :=
  if e.sendRaw < 1 ∨ e.sendRaw ≠ (reqMsg.length : Int) then
    { attempts := attempts, sendCalled := true, nRecv := 0, outcome := some (e.sendRaw, h) }
  else
    { attempts := attempts, sendCalled := true,
      nRecv := (recvLoop e.recv [] false [] 0).nRecv,
      outcome := (recvLoop e.recv [] false [] 0).outcome.map
        (fun p => (p.1, { h with fXmlRpcResponse := p.2 })) }

/-- The member function `RequestXmlRpcResponse` (lines 147-247). -/
def AliHLTHOMERProxyHandler.RequestXmlRpcResponse (h : AliHLTHOMERProxyHandler)
    (e : ProxyEnv) : RequestResult :=
  if e.connect 0 then exchange h e [h.fRealm]
  else if e.connect 1 then
    exchange { h with fRealm := h.fRealm + kHOMERRealmsMax } e
      [h.fRealm, h.fRealm + kHOMERRealmsMax]
  else
    { attempts := [h.fRealm, h.fRealm + kHOMERRealmsMax], sendCalled := false, nRecv := 0,
      outcome := some (-1, { h with fRealm := -1 }) }

/-! ## The HOMER proxy handler: reading the response -/

/-- The locals of `AddService` (lines 324-336). -/
structure ServiceProps where
  hostname : String
  port : Int
  dataType : String
  dataOrigin : String
  dataSpecification : String
  iResult : Int
deriving DecidableEq, Repr

/-- The body of the loop of lines 340-367 for the node `innerNode`. -/
def readProperty (d : ProxyDecls) (p : ServiceProps) (innerNode : TXMLNode) : ServiceProps :=
  if innerNode.GetNodeName = "text" then p
  else if innerNode.GetNodeName = "address" then { p with hostname := innerNode.GetText }
  else if innerNode.GetNodeName = "port" then
    if d.IsDigit innerNode.GetText then { p with port := d.Atoi innerNode.GetText }
    else { p with iResult := -1 }
  else if innerNode.GetNodeName = "dataorigin" then { p with dataOrigin := innerNode.GetText }
  else if innerNode.GetNodeName = "datatype" then { p with dataType := innerNode.GetText }
  else if innerNode.GetNodeName = "dataspecification" then
    { p with dataSpecification := innerNode.GetText }
  else p

/-- The loop of lines 340-367 from the node `innerNode` on, `next` being the
nodes after it: it goes on while there is a next node and `iResult` is 0. -/
def readProperties (d : ProxyDecls) : ServiceProps → TXMLNode → List TXMLNode → ServiceProps
  | p, innerNode, [] => readProperty d p innerNode
  | p, innerNode, m :: rest =>
    let p1 := readProperty d p innerNode
    if p1.iResult = 0 then readProperties d p1 m rest else p1

/-- The member function `AddService` (lines 321-395), called on the non-null
node `innerNode` followed by the nodes `next`: the return value and the source
it adds to `fSourceList`, if any.  There is no defined result when the table
read of line 374 is outside the table. -/
def AliHLTHOMERProxyHandler.AddService (d : ProxyDecls) (fRealm : Int) (innerNode : TXMLNode)
    (next : List TXMLNode) : Option (Int × Option AliHLTHOMERSourceDesc) :=
  let p := readProperties d
    { hostname := "", port := 0, dataType := "", dataOrigin := "", dataSpecification := "",
      iResult := 0 } innerNode next
  let hostname : Option String :=
    if fRealm ≠ kHLT ∨ fRealm ≠ kHLT + kHOMERRealmsMax then proxyNodeAt fRealm
    else some p.hostname
  match hostname with
  | none => none
  | some hostname =>
    if hostname.isEmpty ∨ p.port = 0 ∨ p.dataOrigin.isEmpty ∨ p.dataType.isEmpty then
      some (-2, none)
    else
      some (p.iResult,
        some { hostname := hostname, port := p.port, dataOrigin := p.dataOrigin,
               dataType := p.dataType, dataSpecification := p.dataSpecification })

/-- The call `AddService( serviceNode->GetChildren() )` of line 307: the
return value and the source added, if any.  There is no defined result when
the service node has no child (`AddService` then works on a null pointer) or
when `AddService` has none. -/
def addService (d : ProxyDecls) (fRealm : Int) (serviceNode : TXMLNode) :
    Option (Int × Option AliHLTHOMERSourceDesc) :=
  match serviceNode.children with
  | [] => none
  | innerNode :: next => AliHLTHOMERProxyHandler.AddService d fRealm innerNode next

/-- The loop of lines 303-309 from the service node `serviceNode` on, `next`
being the service nodes after it and `srcList` the content of the source list
so far: the value of `iResult` after the loop and the source list.  The loop
goes on while there is a next service node and `iResult` is 0. -/
def addServices (d : ProxyDecls) (fRealm : Int) :
    TXMLNode → List TXMLNode → List AliHLTHOMERSourceDesc →
    Option (Int × List AliHLTHOMERSourceDesc)
  | serviceNode, [], srcList =>
    (addService d fRealm serviceNode).map (fun r => (r.1, srcList ++ r.2.toList))
  | serviceNode, m :: rest, srcList =>
    match addService d fRealm serviceNode with
    | none => none
    | some (iResult, added) =>
      if iResult = 0 then addServices d fRealm m rest (srcList ++ added.toList)
      else some (iResult, srcList ++ added.toList)

/-- Where the parsing of lines 258-291 ends. -/
inductive Parsed where
  /-- A `return` with the given value (lines 267, 275, 290). -/
  | failed (iResult : Int)
  /-- A null pointer was dereferenced on the way. -/
  | undefined
  /-- Both buffers were parsed; `root` is the root node of the inner document. -/
  | services (root : TXMLNode)

/-- Lines 258-291 of `ProcessXmlRpcResponse`: the response is parsed, the node
four levels below its root has to be called `string`, and its text is parsed
in turn. -/
def parseResponse (d : ProxyDecls) (fXmlRpcResponse : List Char) : Parsed :=
  let outer := d.ParseBuffer fXmlRpcResponse
  if outer.1 < 0 then Parsed.failed outer.1
  else
    match outer.2 with
    | none => Parsed.undefined
    | some root =>
      match (((root.GetChildren.bind TXMLNode.GetChildren).bind TXMLNode.GetChildren).bind
          TXMLNode.GetChildren) with
      | none => Parsed.undefined
      | some node =>
        if node.GetNodeName ≠ "string" then Parsed.failed (-1)
        else
          let inner := d.ParseBuffer node.GetText.toList
          if inner.1 < 0 then Parsed.failed inner.1
          else
            match inner.2 with
            | none => Parsed.undefined
            | some root2 => Parsed.services root2

/-- The member function `ProcessXmlRpcResponse` (lines 250-312): the return
value and the handler afterwards, `none` when there is no defined result. -/
def AliHLTHOMERProxyHandler.ProcessXmlRpcResponse (d : ProxyDecls)
    (h : AliHLTHOMERProxyHandler) : Option (Int × AliHLTHOMERProxyHandler) :=
  match parseResponse d h.fXmlRpcResponse with
  | Parsed.failed iResult => some (iResult, h)
  | Parsed.undefined => none
  | Parsed.services root =>
    match root.children with
    | [] => some (1, h)
    | serviceNode :: next =>
      (addServices d h.fRealm serviceNode next h.fSourceList).map
        (fun r => (r.1, { h with fSourceList := r.2 }))

/-- The member function `FillSourceList` (lines 85-102), `srcList` being the
content of the caller's list. -/
def AliHLTHOMERProxyHandler.FillSourceList (d : ProxyDecls) (h : AliHLTHOMERProxyHandler)
    (e : ProxyEnv) (srcList : List AliHLTHOMERSourceDesc) :
    Option (Int × AliHLTHOMERProxyHandler) :=
  match (AliHLTHOMERProxyHandler.RequestXmlRpcResponse
      { h with fSourceList := srcList } e).outcome with
  | none => none
  | some (iResult, h1) =>
    if iResult = 0 then AliHLTHOMERProxyHandler.ProcessXmlRpcResponse d h1
    else some (iResult, h1)

/-! ## The HOMER proxy handler: concrete data for the examples -/

/-- A byte received by `RecvRaw`. -/
def received (c : Char) : RecvRaw :=
  { rc := 1, byte := c }

/-- The `RecvRaw` calls that deliver the given lines, each followed by a line
feed. -/
def wire (lines : List (List Char)) : List RecvRaw :=
  lines.flatMap (fun l => l.map received ++ [received lineFeed])

/-- An outer document: `methodResponse`, `params`, `param`, `value`, and a
node `string` holding `content`. -/
def exampleEnvelope (content : String) : TXMLNode :=
  TXMLNode.mk "methodResponse" "" [TXMLNode.mk "params" "" [TXMLNode.mk "param" ""
    [TXMLNode.mk "value" "" [TXMLNode.mk "string" content []]]]]

/-- A service entry with address `cn101`, the given port text, data origin
`TPC`, data type `CLUSTERS` and data specification `0`. -/
def exampleService (port : String) : TXMLNode :=
  TXMLNode.mk "service" ""
    [ TXMLNode.mk "address" "cn101" [],
      TXMLNode.mk "port" port [],
      TXMLNode.mk "dataorigin" "TPC" [],
      TXMLNode.mk "datatype" "CLUSTERS" [],
      TXMLNode.mk "dataspecification" "0" [] ]

/-- A service entry without a `port` element. -/
def exampleServiceNoPort : TXMLNode :=
  TXMLNode.mk "service" ""
    [ TXMLNode.mk "address" "cn102" [],
      TXMLNode.mk "dataorigin" "TPC" [],
      TXMLNode.mk "datatype" "CLUSTERS" [],
      TXMLNode.mk "dataspecification" "0" [] ]

/-- The documents the example parser knows, by their text: three envelopes
and the inner documents they carry, with no service, with an incomplete
service followed by a complete one, and with an incomplete service between
two complete ones. -/
def exampleDocuments : List (String × TXMLNode) :=
  [ ("<?xml?><r>none</r></methodResponse>", exampleEnvelope "none"),
    ("<?xml?><r>bad-good</r></methodResponse>", exampleEnvelope "bad-good"),
    ("<?xml?><r>good-bad-good</r></methodResponse>", exampleEnvelope "good-bad-good"),
    ("none", TXMLNode.mk "services" "" []),
    ("bad-good", TXMLNode.mk "services" "" [exampleServiceNoPort, exampleService "49152"]),
    ("good-bad-good", TXMLNode.mk "services" ""
      [exampleService "49152", exampleServiceNoPort, exampleService "49153"]) ]

/-- A value for the ROOT functions: a parser that knows `exampleDocuments` and
returns -1 on any other buffer, `IsDigit` as "non-empty and all digits", and
`Atoi` as the decimal value of the digits. -/
def exampleProxyDecls : ProxyDecls :=
  { ParseBuffer := fun buf =>
      match exampleDocuments.find? (fun p => p.1.toList == buf) with
      | some p => (0, some p.2)
      | none => (-1, none)
    IsDigit := fun s => !s.toList.isEmpty && s.toList.all Char.isDigit
    Atoi := fun s => s.toList.foldl (fun acc c => acc * 10 + ((c.toNat : Int) - 48)) 0 }

/-- A network on which the first connection succeeds, the request is sent in
full and the given lines arrive. -/
def exampleLinesEnv (lines : List (List Char)) : ProxyEnv :=
  { connect := fun _ => true
    sendRaw := reqMsg.length
    recv := wire lines }

/-- The network `exampleLinesEnv` for lines written as strings. -/
def exampleProxyEnv (lines : List String) : ProxyEnv :=
  exampleLinesEnv (lines.map String.toList)

/-- A handler in the given realm that has stored the given response and
points to a list with the given sources. -/
def exampleHandler (response : String) (fRealm : Int)
    (srcList : List AliHLTHOMERSourceDesc) : AliHLTHOMERProxyHandler :=
  { fRealm := fRealm, fXmlRpcResponse := response.toList, fSourceList := srcList }

/-- The source added for `exampleService port` when the hostname is `hostname`. -/
def exampleSource (hostname : String) (port : Int) : AliHLTHOMERSourceDesc :=
  { hostname := hostname, port := port, dataOrigin := "TPC", dataType := "CLUSTERS",
    dataSpecification := "0" }

/-- A line that begins with `<?xml` and holds a NUL character further on. -/
def exampleNulLine : List Char :=
  "<?xml".toList ++ [nul] ++ "junk".toList

/-- A network on which the `n`-th connection attempt succeeds exactly when
`ok n`, and nothing else happens. -/
def exampleConnectEnv (ok : Nat → Bool) : ProxyEnv :=
  { connect := ok, sendRaw := reqMsg.length, recv := [] }

/-! ## Helpers for the statements on error logging -/

/-- The number of failed payload sends among the first `k` passes of the send
loop, when `n` sends were made before the loop: pass `j` sends its topic as
call `n + 2 * j` and its payload as call `n + 2 * j + 1`, and line 304 tests
the return code of the payload send only. -/
def failedPayloadSends (sendRc : Nat → Int) : Nat → Nat → Nat
  | _, 0 => 0
  | n, k + 1 => (if sendRc (n + 1) < 0 then 1 else 0) + failedPayloadSends sendRc (n + 2) k

/-- A sink in publish pattern, freshly constructed, with `ZMQerrorMsgSkip` 2. -/
def exampleSkipSink : AliHLTZMQsink :=
  { AliHLTZMQsink.ctor 0 with fZMQsocketType := ZMQ_PUB, fZMQerrorMsgSkip := 2 }

end HLT

/-! # The DAQ tables: `RAW/AliDAQ.cxx` -/

namespace AliDAQ

/-- Modelled from the spec: the enumerator `kNDetectors` is declared in
`AliDAQ.h`, which is not among the sources.  It is the size of the tables of
the class, each of which has 20 initialisers. -/
def kNDetectors : Int := 20

/-- The table `fgkDetectorName` (lines 46-67), indexed by the detector ID. -/
def fgkDetectorName : List String :=
  ["ITSSPD", "ITSSDD", "ITSSSD", "TPC", "TRD", "TOF", "RICH", "PHOS", "CPV", "PMD",
   "MUONTRK", "MUONTRG", "FMD", "START", "VZERO", "ZDC", "CRT", "TRG", "EMCAL", "HLT"]

/-- The table `fgkNumberOfDdls` (lines 69-90), indexed by the detector ID. -/
def fgkNumberOfDdls : List Int :=
  [20, 24, 16, 216, 18, 72, 20, 20, 10, 6, 20, 2, 3, 1, 1, 1, 1, 1, 24, 10]

/-- The comparison `TString::CompareTo(cs2, TString::kIgnoreCase)` of the ROOT library on
the characters of the two strings: the first position where the lower-cased characters
differ decides the sign, otherwise the lengths do. -/
def CompareToIgnoreCase : List Char → List Char → Int
  | [], [] => 0
  | _ :: _, [] => 1
  | [], _ :: _ => -1
  | c1 :: cs1, c2 :: cs2 =>
    if c1.toLower ≠ c2.toLower then (if c1.toLower > c2.toLower then 1 else -1)
    else CompareToIgnoreCase cs1 cs2

/-- The `for` loop of `DetectorID`: `iDet` runs over the remaining table entries and
the loop breaks at the first entry equal to `detStr` ignoring case; its value is the
final `iDet`. -/
def detectorLoop (detStr : String) : List String → Int → Int
  | [], iDet => iDet
  | name :: rest, iDet =>
    if CompareToIgnoreCase detStr.toList name.toList = 0 then iDet
    else detectorLoop detStr rest (iDet + 1)

/-- `AliDAQ::DetectorID(const char *detectorName)` (lines 128-145). -/
def DetectorID (detectorName : String) : Int :=
  let iDet := detectorLoop detectorName fgkDetectorName 0
  if iDet = kNDetectors then -1 else iDet

/-- `AliDAQ::DetectorName(Int_t detectorID)` (lines 147-156). -/
def DetectorName (detectorID : Int) : String :=
  if detectorID < 0 ∨ detectorID ≥ kNDetectors then ""
  else fgkDetectorName.getD detectorID.toNat ""

/-- `AliDAQ::DdlIDOffset(Int_t detectorID)` (lines 169-179). -/
def DdlIDOffset (detectorID : Int) : Int :=
  if detectorID < 0 ∨ detectorID ≥ kNDetectors then -1
  else detectorID <<< (8 : Int)

/-- `AliDAQ::DetectorIDFromDdlID(Int_t ddlID)` (lines 192-208).  The mask
`ddlID & 0xFF` is only reached with `ddlID >> 8` in range, so on a non-negative
`ddlID`. -/
def DetectorIDFromDdlID (ddlID : Int) : Int :=
  let detectorID := ddlID >>> (8 : Nat)
  if detectorID < 0 ∨ detectorID ≥ kNDetectors then -1
  else
    let ddlIndex := Int.land ddlID 0xFF
    if ddlIndex ≥ fgkNumberOfDdls.getD detectorID.toNat 0 then -1
    else detectorID

/-- `AliDAQ::DdlID(Int_t detectorID, Int_t ddlIndex)` (lines 222-239).  The
sum on line 237 stays within `Int_t`: the offset is at most `19 << 8` and the
index is below 216 there. -/
def DdlID (detectorID ddlIndex : Int) : Int :=
  let ddlID := DdlIDOffset detectorID
  if ddlID < 0 then -1
  else if ddlIndex ≥ fgkNumberOfDdls.getD detectorID.toNat 0 then -1
  else ddlID + ddlIndex

/-- `AliDAQ::NumberOfDdls(Int_t detectorID)` (lines 252-261). -/
def NumberOfDdls (detectorID : Int) : Int :=
  if detectorID < 0 ∨ detectorID ≥ kNDetectors then -1
  else fgkNumberOfDdls.getD detectorID.toNat 0

/-- The loop of `DetectorID` as a function of the lower-cased characters of the
name alone; `detectorLoop` is shown to agree with it. -/
def detectorLoopLower (lower : List Char) : List String → Int → Int
  | [], iDet => iDet
  | name :: rest, iDet =>
    if lower = name.toList.map Char.toLower then iDet
    else detectorLoopLower lower rest (iDet + 1)

end AliDAQ

/-! # String numbers of optical modules: `RALICE/icepack/IceGOM.cxx` -/

namespace IceGOM

/-- The conversion `Int_t omid=GetUniqueID()`: `TObject::GetUniqueID` returns
the `UInt_t` word `fUniqueID`, which is converted to `Int_t` (two's complement,
32 bits). -/
def omidOf (fUniqueID : Nat) : Int :=
  if fUniqueID % 2 ^ 32 < 2 ^ 31 then (fUniqueID % 2 ^ 32 : Nat)
  else ((fUniqueID % 2 ^ 32 : Nat) : Int) - 2 ^ 32

/-- `IceGOM::GetString` (lines 133-172) for a module with unique ID word
`fUniqueID`; `inheritsFromIceAOM` is the value of `InheritsFrom("IceAOM")`. -/
def GetString (fUniqueID : Nat) (inheritsFromIceAOM : Bool) : Int :=
  let omid := omidOf fUniqueID
  if omid ≤ 0 then 0
  else if omid = 681 then -18
  else
    let string : Int := 0
    if inheritsFromIceAOM then
      if omid ≤ 20 then -1
      else if omid ≥ 21 ∧ omid ≤ 40 then -2
      else if omid ≥ 41 ∧ omid ≤ 60 then -3
      else if omid ≥ 61 ∧ omid ≤ 86 then -4
      else if omid ≥ 87 ∧ omid ≤ 122 then -5
      else if omid ≥ 123 ∧ omid ≤ 158 then -6
      else if omid ≥ 159 ∧ omid ≤ 194 then -7
      else if omid ≥ 195 ∧ omid ≤ 230 then -8
      else if omid ≥ 231 ∧ omid ≤ 266 then -9
      else if omid ≥ 267 ∧ omid ≤ 302 then -10
      else if omid ≥ 303 ∧ omid ≤ 344 then -11
      else if omid ≥ 345 ∧ omid ≤ 386 then -12
      else if omid ≥ 387 ∧ omid ≤ 428 then -13
      else if omid ≥ 429 ∧ omid ≤ 470 then -14
      else if omid ≥ 471 ∧ omid ≤ 512 then -15
      else if omid ≥ 513 ∧ omid ≤ 554 then -16
      else if omid ≥ 555 ∧ omid ≤ 596 then -17
      else if omid ≥ 597 ∧ omid ≤ 638 then -18
      else if omid ≥ 639 ∧ omid ≤ 680 then -19
      else string
    else Int.tdiv omid 100

end IceGOM

/-! # Luminosity tools: `STEER/STEER/AliLumiTools.cxx` -/

namespace AliLumiTools

/-- The if-chain of lines 208-273 of `GetLumiCTPRefClass`: the values of
`refSigma` and `refClass` after it, which are the initial `-1` and `""` when no
row applies. -/
def lumiRefTable (run : Int) : ℚ × String :=
  if run ≤ 118501 then (62, "CINT1B-ABCE-NOPF-ALL")
  else if run ≥ 118502 ∧ run ≤ 118561 then (47, "CINT1B-ABCE-NOPF-ALL")
  else if run ≥ 118903 ∧ run ≤ 120829 then (62, "CINT1B-ABCE-NOPF-ALL")
  else if run ≥ 121039 ∧ run ≤ 121040 then (47, "CINT1B-ABCE-NOPF-ALL")
  else if run ≥ 121041 ∧ run ≤ 126437 then (62, "CINT1B-ABCE-NOPF-ALL")
  else if run ≥ 126438 ∧ run ≤ 127718 then (62, "CINT1-B-NOPF-ALLNOTRD")
  else if run ≥ 127719 ∧ run ≤ 127730 then (62, "CINT1B-ABCE-NOPF-ALL")
  else if run ≥ 127731 ∧ run ≤ 136848 then (62, "CINT1-B-NOPF-ALLNOTRD")
  else if run ≥ 136849 ∧ run ≤ 139316 then (5970, "C0SMH-B-NOPF-ALL")
  else if run ≥ 139328 ∧ run ≤ 139517 then (5970, "C0SMH-B-NOPF-ALLNOTRD")
  else if run ≥ 145289 ∧ run ≤ 146860 then (57, "CINT1-B-NOPF-ALLNOTRD")
  else if run ≥ 146808 ∧ run ≤ 146814 then (57, "CINT1-B-NOPF-ALL")
  else if run ≥ 145815 ∧ run ≤ 146856 then (57, "CINT1-B-NOPF-ALLNOTRD")
  else if run ≥ 146857 ∧ run ≤ 146857 then (57, "CINT1-B-NOPF-ALL")
  else if run ≥ 146858 ∧ run ≤ 146860 then (57, "CINT1-B-NOPF-ALLNOTRD")
  else if run ≥ 148370 ∧ run ≤ 157078 then (54, "CVBAND-B-NOPF-ALLNOTRD")
  else if run ≥ 157079 ∧ run ≤ 165746 then (24, "C0TVX-B-NOPF-ALLNOTRD")
  else if run ≥ 166477 ∧ run ≤ 170593 then (4100, "CVLN-B-NOPF-ALLNOTRD")
  else if run ≥ 176658 ∧ run ≤ 177143 then (25, "C0TVX-B-NOPF-ALLNOTRD")
  else if run ≥ 177146 ∧ run ≤ 177147 then (25, "C0TVX-B-NOPF-CENTNOTRD")
  else if run ≥ 177148 ∧ run ≤ 177149 then (25, "C0TVX-B-NOPF-ALLNOTRD")
  else if run ≥ 177150 ∧ run ≤ 177165 then (25, "C0TVX-B-NOPF-CENTNOTRD")
  else if run ≥ 177166 ∧ run ≤ 177166 then (25, "C0TVX-B-NOPF-ALLNOTRD")
  else if run ≥ 177167 ∧ run ≤ 177167 then (25, "C0TVX-B-NOPF-CENTNOTRD")
  else if run ≥ 177168 ∧ run ≤ 177168 then (25, "C0TVX-B-NOPF-ALLNOTRD")
  else if run ≥ 177169 ∧ run ≤ 177172 then (25, "C0TVX-B-NOPF-CENTNOTRD")
  else if run ≥ 177173 ∧ run ≤ 177173 then (25, "C0TVX-B-NOPF-ALLNOTRD")
  else if run ≥ 177174 ∧ run ≤ 177506 then (25, "C0TVX-B-NOPF-CENTNOTRD")
  else if run ≥ 177507 ∧ run ≤ 178017 then (25, "C0TVX-B-NOPF-ALLNOTRD")
  else if run ≥ 178018 ∧ run ≤ 178029 then (67, "CINT1-B-NOPF-ALLNOTRD")
  else if run ≥ 178030 ∧ run ≤ 178053 then (25, "C0TVX-B-NOPF-ALLNOTRD")
  else if run ≥ 178055 ∧ run ≤ 178062 then (25, "C0TVX-B-NOPF-ALL")
  else if run ≥ 178062 ∧ run ≤ 178220 then (25, "C0TVX-B-NOPF-ALLNOTRD")
  else if run ≥ 179444 ∧ run ≤ 180715 then (25, "C0TVX-S-NOPF-ALLNOTRD")
  else if run ≥ 180716 ∧ run ≤ 180720 then (56, "CINT7-S-NOPF-ALLNOTRD")
  else if run ≥ 180721 ∧ run ≤ 184844 then (25, "C0TVX-S-NOPF-ALLNOTRD")
  else if run ≥ 184845 ∧ run ≤ 184990 then (25, "C0TVX-B-NOPF-ALLNOTRD")
  else if run ≥ 184991 ∧ run ≤ 188229 then (25, "C0TVX-S-NOPF-ALLNOTRD")
  else if run ≥ 188230 ∧ run ≤ 188366 then (1590, "C0TVX-B-NOPF-ALLNOTRD")
  else if run ≥ 188367 ∧ run ≤ 193692 then (25, "C0TVX-S-NOPF-ALLNOTRD")
  else if run ≥ 193693 ∧ run ≤ 193766 then (25, "C0TVX-B-NOPF-ALLNOTRD")
  else if run ≥ 195344 ∧ run ≤ 197388 then (1590, "C0TVX-B-NOPF-ALLNOTRD")
  else if run ≥ 197470 ∧ run ≤ 197692 then (18, "C0TVX-B-NOPF-ALLNOTRD")
  else if run ≥ 221835 ∧ run ≤ 223669 then (16.8, "CADAND-B-NOPF-ALLNOTRD")
  else if run ≥ 221670 ∧ run ≤ 223983 then (30.0, "C0TVX-B-NOPF-ALLNOTRD")
  else if run ≥ 223984 ∧ run ≤ 223984 then (50.0, "CADAND-B-NOPF-ALLNOTRD")
  else if run ≥ 223985 ∧ run ≤ 226110 then (30.0, "C0TVX-B-NOPF-ALLNOTRD")
  else if run ≥ 226111 ∧ run ≤ 226115 then (30.0, "C0TVX-B-NOPF-CENTNOTRD")
  else if run ≥ 226116 ∧ run ≤ 228909 then (30.0, "C0TVX-B-NOPF-ALLNOTRD")
  else if run ≥ 228910 ∧ run ≤ 229376 then (30.0, "C0TVX-B-NOPF-CENTNOTRD")
  else if run ≥ 229386 ∧ run ≤ 229398 then (30.0, "C0TVX-B-NOPF-MUON")
  else if run ≥ 229409 ∧ run ≤ 229410 then (30.0, "C0TVX-B-NOPF-CENTNOTRD")
  else if run ≥ 229416 ∧ run ≤ 229893 then (30.0, "C0TVX-B-NOPF-MUON")
  else if run ≥ 229894 ∧ run ≤ 229899 then (30.0, "C0TVX-B-NOPF-ALLNOTRD")
  else if run ≥ 229942 ∧ run ≤ 231321 then (30.0, "C0TVX-B-NOPF-MUON")
  else if run ≥ 232914 ∧ run ≤ 233858 then (30.0, "C0TVX-B-NOPF-CENT")
  else if run ≥ 233910 ∧ run ≤ 234050 then (30.0, "C0TVX-B-NOPF-ALLNOTRD")
  else if run ≥ 234051 ∧ run ≤ 238669 then (30.0, "C0TVX-B-NOPF-CENT")
  else if run ≥ 238670 ∧ run ≤ 240150 then (30.0, "C0TVX-B-NOPF-CENTNOTRD")
  else if run ≥ 240151 ∧ run ≤ 240151 then (30.0, "C0TVX-B-NOPF-MUON")
  else if run ≥ 240152 ∧ run ≤ 243373 then (30.0, "C0TVX-B-NOPF-CENTNOTRD")
  else if run ≥ 243374 ∧ run ≤ 243398 then (21.0, "C0TVX-B-NOPF-CENTNOTRD")
  else if run ≥ 243399 ∧ run ≤ 243984 then (6700, "C0TVX-B-NOPF-CENTNOTRD")
  else if run ≥ 243985 ∧ run ≤ 244912 then (21.0, "C0TVX-B-NOPF-CENTNOTRD")
  else if run ≥ 244913 ∧ run ≤ 246994 then (4600, "C0V0M-B-NOPF-CENTNOTRD")
  else if run ≥ 246995 then (30.0, "C0TVX-B-NOPF-CENTNOTRD")
  else (-1, "")

/-- `AliLumiTools::GetLumiCTPRefClass(run, refClass, refSigma)` (lines 202-280):
the return value and the two reference parameters after the call. -/
def GetLumiCTPRefClass (run : Int) : Bool × String × ℚ :=
  let r := lumiRefTable run
  if r.2.isEmpty ∨ r.1 < 1 then (false, r.2, r.1) else (true, r.2, r.1)

/-- Subtraction of two `UInt_t` values: it wraps at 32 bits. -/
def subUInt (a b : Nat) : Nat := (a + 2 ^ 32 - b % 2 ^ 32) % 2 ^ 32

/-- Addition of two `UInt_t` values: it wraps at 32 bits. -/
def addUInt (a b : Nat) : Nat := (a + b) % 2 ^ 32

/-- Line 172 of `GetLumiFromCTP`:
`refCounts = (counts2>counts1) ? counts2-counts1 : counts2+(0xffffffff-counts1)+1`
on `UInt_t` operands. -/
def refCounts (counts1 counts2 : Nat) : Nat :=
  if counts2 > counts1 then subUInt counts2 counts1
  else addUInt (addUInt counts2 (subUInt 0xffffffff counts1)) 1

end AliLumiTools

/-! # Setup of the HLT simulation: `HLT/sim/AliHLTSimulation.cxx` -/

namespace AliHLTSimulation

/-- The libc function `strstr(haystack, needle)` on C strings: the tail of
`haystack` that starts at the first occurrence of `needle`, or `none` (the null
pointer) when there is none. -/
def strstr : List Char → List Char → Option (List Char)
  | [], needle => if needle = [] then some [] else none
  | c :: cs, needle =>
    if needle.isPrefixOf (c :: cs) then some (c :: cs) else strstr cs needle

/-- The array `entries` of `AliHLTSimulationSetup`, up to its `NULL` end mark. -/
def entries : List String :=
  ["HLT/ConfigHLT/SolenoidBz", "HLT/ConfigHLT/esdLayout"]

/-- The body of the `for` loop of lines 358-366 for one entry: whether
`SetSpecificStorage` is called for it (`false` is the `continue`). -/
def setsStorage (specificObjects : Option String) (entry : String) : Bool :=
  let pObject : Option (List Char) :=
    match specificObjects with
    | some s => strstr s.toList entry.toList
    | none => none
  match pObject with
  | some p =>
    match p.drop entry.length with
    | [] => false
    | c :: _ => if c = ' ' then false else true
  | none => true

/-- The function `AliHLTSimulationSetup(pHLTSim, pSim, specificObjects)` (lines
340-371).  `pSim` is `none` for the null pointer and otherwise the list of
`SetSpecificStorage(path, uri)` calls the simulation object has received;
`pwd` is the value of `gSystem->pwd()`.  The result is the return value and
the simulation object afterwards. -/
def AliHLTSimulationSetup (pwd : String) (pSim : Option (List (String × String)))
    (specificObjects : Option String) : Int × Option (List (String × String)) :=
  match pSim with
  | none => (-HLT.EINVAL, none)
  | some calls =>
    let specificStorage := "local://" ++ pwd
    (0, some (calls ++ (entries.filter (setsStorage specificObjects)).map
      (fun entry => (entry, specificStorage))))

/-- The blank-separated items of a list of object paths, as the claim reads
`specificObjects`. -/
def blankSeparatedItems (specificObjects : Option String) : List (List Char) :=
  match specificObjects with
  | some s => s.toList.splitOn ' '
  | none => []

end AliHLTSimulation

namespace HLT

open AliHLTZMQsink

/-! ## Auxiliary facts -/

theorem toInt32_of_range (x : Int) (h1 : -2 ^ 31 ≤ x) (h2 : x < 2 ^ 31) : toInt32 x = x := by
  unfold toInt32
  omega

theorem gateStage_false (s : AliHLTZMQsink) (e : Env) : gateStage s e false = false := by
  unfold gateStage
  split
  · split <;> rfl
  · rfl

theorem DoProcessing_of_not_doSend (d : Decls) (s : AliHLTZMQsink) (e : Env)
    (blocks out : List AliHLTComponentBlockData)
    (h : gateStage s e (pollStage d s e).1 = false) :
    DoProcessing d s e blocks out =
      { sink := s, sent := [], warnings := [], retCode := 0, outputBlocks := [],
        doSend := false, selectedBlockIdx := [] } := by
  simp only [DoProcessing, h]
  rfl

theorem DoProcessing_of_doSend (d : Decls) (s : AliHLTZMQsink) (e : Env)
    (blocks out : List AliHLTComponentBlockData)
    (h : gateStage s e (pollStage d s e).1 = true) :
    DoProcessing d s e blocks out = sendStage d s e (pollStage d s e).2 blocks := by
  simp only [DoProcessing, h]
  rfl

theorem DoProcessing_doSend (d : Decls) (s : AliHLTZMQsink) (e : Env)
    (blocks out : List AliHLTComponentBlockData) :
    (DoProcessing d s e blocks out).doSend = gateStage s e (pollStage d s e).1 := by
  cases h : gateStage s e (pollStage d s e).1
  · rw [DoProcessing_of_not_doSend d s e blocks out h]
  · rw [DoProcessing_of_doSend d s e blocks out h]
    rfl

theorem selectBlocks_mem (d : Decls) (e : Env) (inc : Bool) (req : RequestLocals) :
    ∀ (bs : List AliHLTComponentBlockData) (i : Nat) (ecs : List Nat) (idx : Nat),
      idx ∈ (selectBlocks d e inc req i bs ecs).selectedBlockIdx →
      ∃ b, i ≤ idx ∧ bs[idx - i]? = some b ∧
        (inc = false → b.fDataType.fOrigin ≠ d.kAliHLTDataOriginPrivate) := by
  intro bs
  induction bs with
  | nil => intro i ecs idx h; simp [selectBlocks] at h
  | cons b rest ih =>
    intro i ecs idx h
    have step : ∀ ecs1, idx ∈ (selectBlocks d e inc req (i + 1) rest ecs1).selectedBlockIdx →
        ∃ b0, i ≤ idx ∧ (b :: rest)[idx - i]? = some b0 ∧
          (inc = false → b0.fDataType.fOrigin ≠ d.kAliHLTDataOriginPrivate) := by
      intro ecs1 h1
      obtain ⟨b0, hle, hget, hpriv⟩ := ih (i + 1) ecs1 idx h1
      refine ⟨b0, by omega, ?_, hpriv⟩
      have : idx - i = (idx - (i + 1)) + 1 := by omega
      rw [this]
      simpa using hget
    simp only [selectBlocks] at h
    generalize (if (b.fDataType.fID == d.kAliHLTDataTypeECSParam.fID) = true
      then cacheECSparam e i ecs b.fPtr else ecs) = ecs1 at h
    split_ifs at h with h1 h2 h3
    · exact step _ h
    · exact step _ h
    · simp only [List.mem_cons] at h
      rcases h with h | h
      · subst h
        refine ⟨b, le_refl _, by simp, ?_⟩
        intro hinc
        subst hinc
        simpa using h2
      · exact step _ h
    · exact step _ h

theorem sendBlocks_frames_mem (nb : Bool) (skip : Int) (rc : Nat → Int)
    (blocks : List AliHLTComponentBlockData) (nSel : Nat) :
    ∀ (sel : List Nat) (iSel n : Nat) (nSent nSk : Int) (f : Frame),
      f ∈ (sendBlocks nb skip rc blocks nSel iSel sel n nSent nSk).frames →
      ∃ idx ∈ sel, f.buf = Buf.topicOfBlock (blocks.getD idx default) ∨
        f.buf = Buf.payload (blocks.getD idx default).fPtr := by
  intro sel
  induction sel with
  | nil => intro iSel n nSent nSk f h; simp [sendBlocks] at h
  | cons idx rest ih =>
    intro iSel n nSent nSk f h
    simp only [sendBlocks, List.mem_cons] at h
    rcases h with h | h | h
    · exact ⟨idx, List.mem_cons_self _ _, Or.inl (by rw [h])⟩
    · exact ⟨idx, List.mem_cons_self _ _, Or.inr (by rw [h])⟩
    · obtain ⟨j, hj, hf⟩ := ih _ _ _ _ f h
      exact ⟨j, List.mem_cons_of_mem _ hj, hf⟩

theorem sendBlocks_payloads (nb : Bool) (skip : Int) (rc : Nat → Int)
    (blocks : List AliHLTComponentBlockData) (nSel : Nat) :
    ∀ (sel : List Nat) (iSel n : Nat) (nSent nSk : Int),
      ((sendBlocks nb skip rc blocks nSel iSel sel n nSent nSk).frames.filter
        Frame.isPayload).map Frame.buf =
      sel.map (fun idx => Buf.payload (blocks.getD idx default).fPtr) := by
  intro sel
  induction sel with
  | nil => intro iSel n nSent nSk; simp [sendBlocks]
  | cons idx rest ih =>
    intro iSel n nSent nSk
    simp only [sendBlocks, List.map_cons]
    rw [List.filter_cons_of_neg (by simp [Frame.isPayload]),
      List.filter_cons_of_pos (by simp [Frame.isPayload])]
    simp only [List.map_cons]
    rw [ih]

theorem sendInfo_fst (run : Bool) (nSel : Nat) (e : Env) :
    (sendInfo run nSel e).1 =
      if (run && decide (nSel > 0)) = true then
        [⟨Buf.chars "INFO", ZMQ_SNDMORE⟩, ⟨Buf.chars ("run=" ++ toString (toInt32 e.runNo)), ZMQ_SNDMORE⟩]
      else [] := by
  unfold sendInfo
  split <;> rfl

theorem sendECS_fst (d : Decls) (e : Env) (doIt : Bool) (ecs : List Nat) (nSel n : Nat)
    (nSent : Int) :
    (sendECS d e doIt ecs nSel n nSent).1 =
      if doIt = true then
        [⟨Buf.topicOfDataType d.kAliHLTDataTypeECSParam, ZMQ_SNDMORE⟩,
          ⟨Buf.tstring ecs, if nSel = 0 then 0 else ZMQ_SNDMORE⟩]
      else [] := by
  unfold sendECS
  split <;> rfl

theorem sendDummy_fst (t : Int) (e : Env) (n : Nat) (nSent : Int) :
    (sendDummy t e n nSent).1 =
      if nSent = 0 ∧ t = ZMQ_REP then [⟨Buf.null, ZMQ_SNDMORE⟩, ⟨Buf.null, 0⟩] else [] := by
  unfold sendDummy
  split <;> rfl

theorem sendInfo_frames (run : Bool) (nSel : Nat) (e : Env) (f : Frame)
    (h : f ∈ (sendInfo run nSel e).1) : ∃ str, f.buf = Buf.chars str := by
  rw [sendInfo_fst] at h
  split at h
  · simp only [List.mem_cons, List.mem_singleton, List.not_mem_nil, or_false] at h
    rcases h with h | h
    · exact ⟨_, by rw [h]⟩
    · exact ⟨_, by rw [h]⟩
  · simp at h

theorem sendECS_frames (d : Decls) (e : Env) (doIt : Bool) (ecs : List Nat) (nSel n : Nat)
    (nSent : Int) (f : Frame) (h : f ∈ (sendECS d e doIt ecs nSel n nSent).1) :
    f.buf = Buf.topicOfDataType d.kAliHLTDataTypeECSParam ∨ f.buf = Buf.tstring ecs := by
  rw [sendECS_fst] at h
  split at h
  · simp only [List.mem_cons, List.mem_singleton, List.not_mem_nil, or_false] at h
    rcases h with h | h
    · exact Or.inl (by rw [h])
    · exact Or.inr (by rw [h])
  · simp at h

theorem sendDummy_frames (t : Int) (e : Env) (n : Nat) (nSent : Int) (f : Frame)
    (h : f ∈ (sendDummy t e n nSent).1) : f.buf = Buf.null := by
  rw [sendDummy_fst] at h
  split at h
  · simp only [List.mem_cons, List.mem_singleton, List.not_mem_nil, or_false] at h
    rcases h with h | h
    · rw [h]
    · rw [h]
  · simp at h

theorem sendStage_sent (d : Decls) (s : AliHLTZMQsink) (e : Env) (req : RequestLocals)
    (blocks : List AliHLTComponentBlockData) :
    ∃ (n1 n2 n3 : Nat) (c1 c2 c3 : Int),
      (sendStage d s e req blocks).sent =
        (sendInfo s.fSendRunNumber (sendStage d s e req blocks).selectedBlockIdx.length e).1 ++
        (sendECS d e (s.fSendECSparamString || req.doSendECSparamString)
          (sendStage d s e req blocks).sink.fECSparamString
          (sendStage d s e req blocks).selectedBlockIdx.length n1 c1).1 ++
        (sendBlocks s.fZMQneverBlock s.fZMQerrorMsgSkip e.sendRc blocks
          (sendStage d s e req blocks).selectedBlockIdx.length 0
          (sendStage d s e req blocks).selectedBlockIdx n2 c2 s.fNskippedErrorMessages).frames ++
        (sendDummy s.fZMQsocketType e n3 c3).1 :=
  ⟨_, _, _, _, _, _, rfl⟩

theorem sendStage_selected (d : Decls) (s : AliHLTZMQsink) (e : Env) (req : RequestLocals)
    (blocks : List AliHLTComponentBlockData) :
    (sendStage d s e req blocks).selectedBlockIdx =
      (selectBlocks d e s.fIncludePrivateBlocks req 0 blocks s.fECSparamString).selectedBlockIdx :=
  rfl

theorem sendStage_block_frames (d : Decls) (s : AliHLTZMQsink) (e : Env) (req : RequestLocals)
    (blocks : List AliHLTComponentBlockData) (f : Frame)
    (hf : f ∈ (sendStage d s e req blocks).sent)
    (hk : f.isPayload = true ∨ ∃ b, f.buf = Buf.topicOfBlock b) :
    ∃ idx ∈ (sendStage d s e req blocks).selectedBlockIdx,
      f.buf = Buf.topicOfBlock (blocks.getD idx default) ∨
      f.buf = Buf.payload (blocks.getD idx default).fPtr := by
  obtain ⟨n1, n2, n3, c1, c2, c3, hs⟩ := sendStage_sent d s e req blocks
  rw [hs] at hf
  simp only [List.mem_append] at hf
  rcases hf with ((hf | hf) | hf) | hf
  · obtain ⟨str, h⟩ := sendInfo_frames _ _ _ _ hf
    rcases hk with hk | ⟨b, hk⟩
    · simp [Frame.isPayload, h] at hk
    · rw [h] at hk; cases hk
  · rcases sendECS_frames _ _ _ _ _ _ _ _ hf with h | h
    · rcases hk with hk | ⟨b, hk⟩
      · simp [Frame.isPayload, h] at hk
      · rw [h] at hk; cases hk
    · rcases hk with hk | ⟨b, hk⟩
      · simp [Frame.isPayload, h] at hk
      · rw [h] at hk; cases hk
  · exact sendBlocks_frames_mem _ _ _ _ _ _ _ _ _ _ f hf
  · have h := sendDummy_frames _ _ _ _ _ hf
    rcases hk with hk | ⟨b, hk⟩
    · simp [Frame.isPayload, h] at hk
    · rw [h] at hk; cases hk

theorem selectBlocks_all (d : Decls) (e : Env) (inc : Bool) (req : RequestLocals)
    (hwild : ∀ topic, d.Topicncmp req.requestTopic topic req.requestTopicSize = true) :
    ∀ (bs : List AliHLTComponentBlockData) (i : Nat) (ecs : List Nat),
      (∀ b ∈ bs, b.fDataType.fOrigin ≠ d.kAliHLTDataOriginPrivate ∧
        b.fDataType.fID ≠ d.kAliHLTDataTypeECSParam.fID) →
      selectBlocks d e inc req i bs ecs =
        { fECSparamString := ecs, selectedBlockIdx := List.range' i bs.length } := by
  intro bs
  induction bs with
  | nil => intro i ecs _; simp [selectBlocks]
  | cons b rest ih =>
    intro i ecs hall
    have hb := hall b (List.mem_cons_self _ _)
    have hrest : ∀ b0 ∈ rest, b0.fDataType.fOrigin ≠ d.kAliHLTDataOriginPrivate ∧
        b0.fDataType.fID ≠ d.kAliHLTDataTypeECSParam.fID :=
      fun b0 h0 => hall b0 (List.mem_cons_of_mem _ h0)
    simp only [selectBlocks]
    have h1 : (b.fDataType.fID == d.kAliHLTDataTypeECSParam.fID) = false := by
      simpa using hb.2
    have h2 : (b.fDataType.fOrigin == d.kAliHLTDataOriginPrivate) = false := by
      simpa using hb.1
    simp [h1, h2, hwild, ih (i + 1) ecs hrest, List.range'_succ]

theorem sendBlocks_frames_all (nb : Bool) (skip : Int) (rc : Nat → Int) :
    ∀ (bs pre : List AliHLTComponentBlockData) (iSel n : Nat) (nSent nSk : Int),
      (sendBlocks nb skip rc (pre ++ bs) (iSel + bs.length) iSel
        (List.range' pre.length bs.length) n nSent nSk).frames =
      expectedBlockFrames (if nb then ZMQ_DONTWAIT else 0) bs := by
  intro bs
  induction bs with
  | nil => intro pre iSel n nSent nSk; simp [sendBlocks, expectedBlockFrames]
  | cons b rest ih =>
    intro pre iSel n nSent nSk
    have hget : (pre ++ b :: rest).getD pre.length default = b := by
      rw [List.getD_eq_getElem _ _ (by simp)]
      exact List.getElem_of_append rfl rfl
    have e1 : pre ++ b :: rest = (pre ++ [b]) ++ rest := by simp
    have e2 : iSel + (b :: rest).length = (iSel + 1) + rest.length := by
      simp only [List.length_cons]; omega
    have e3 : pre.length + 1 = (pre ++ [b]).length := by simp
    rw [List.length_cons, List.range'_succ]
    simp only [sendBlocks, hget]
    rw [← List.length_cons b rest, e2, e3, e1, ih (pre ++ [b]) (iSel + 1)]
    cases rest with
    | nil => simp [expectedBlockFrames]
    | cons b2 r =>
      simp [expectedBlockFrames]
      intro h
      omega

theorem sendBlocks_nSent_ge (nb : Bool) (skip : Int) (rc : Nat → Int)
    (blocks : List AliHLTComponentBlockData) (nSel : Nat) :
    ∀ (sel : List Nat) (iSel n : Nat) (nSent nSk : Int),
      nSent ≤ (sendBlocks nb skip rc blocks nSel iSel sel n nSent nSk).nSentBlocks := by
  intro sel
  induction sel with
  | nil => intro iSel n nSent nSk; simp [sendBlocks]
  | cons idx rest ih =>
    intro iSel n nSent nSk
    simp only [sendBlocks]
    refine le_trans ?_ (ih _ _ _ _)
    split_ifs <;> omega

theorem sndMore_mk (b : Buf) : (⟨b, ZMQ_SNDMORE⟩ : Frame).sndMore = true := by
  simp [Frame.sndMore, ZMQ_SNDMORE]

theorem expectedBlockFrames_eq (lastFlags : Nat) :
    ∀ (bs : List AliHLTComponentBlockData) (hne : bs ≠ []),
      expectedBlockFrames lastFlags bs =
        bs.dropLast.flatMap (fun b =>
          [(⟨Buf.topicOfBlock b, ZMQ_SNDMORE⟩ : Frame), ⟨Buf.payload b.fPtr, ZMQ_SNDMORE⟩]) ++
        [⟨Buf.topicOfBlock (bs.getLast hne), ZMQ_SNDMORE⟩,
          ⟨Buf.payload (bs.getLast hne).fPtr, lastFlags⟩] := by
  intro bs
  induction bs with
  | nil => intro hne; exact absurd rfl hne
  | cons b rest ih =>
    intro hne
    cases rest with
    | nil => simp [expectedBlockFrames]
    | cons b2 r =>
      have h := ih (List.cons_ne_nil b2 r)
      simp only [expectedBlockFrames, h, List.dropLast_cons₂, List.flatMap_cons,
        List.getLast_cons_cons, List.cons_append, List.nil_append]

theorem sendStage_all_selected (d : Decls) (s : AliHLTZMQsink) (e : Env) (req : RequestLocals)
    (blocks : List AliHLTComponentBlockData)
    (hrun : s.fSendRunNumber = true)
    (hecs : (s.fSendECSparamString || req.doSendECSparamString) = false)
    (hne : blocks ≠ [])
    (hblocks : ∀ b ∈ blocks, b.fDataType.fOrigin ≠ d.kAliHLTDataOriginPrivate ∧
      b.fDataType.fID ≠ d.kAliHLTDataTypeECSParam.fID)
    (hsend : ∀ n, 0 ≤ e.sendRc n)
    (hwild : ∀ topic, d.Topicncmp req.requestTopic topic req.requestTopicSize = true) :
    (sendStage d s e req blocks).sent =
      ⟨Buf.chars "INFO", ZMQ_SNDMORE⟩ ::
      ⟨Buf.chars ("run=" ++ toString (toInt32 e.runNo)), ZMQ_SNDMORE⟩ ::
      expectedBlockFrames (if s.fZMQneverBlock then ZMQ_DONTWAIT else 0) blocks := by
  have hsel := selectBlocks_all d e s.fIncludePrivateBlocks req hwild blocks 0
    s.fECSparamString hblocks
  have hpos : 0 < blocks.length := List.length_pos.mpr hne
  have hinfo : sendInfo s.fSendRunNumber blocks.length e =
      ([⟨Buf.chars "INFO", ZMQ_SNDMORE⟩,
        ⟨Buf.chars ("run=" ++ toString (toInt32 e.runNo)), ZMQ_SNDMORE⟩], 1) := by
    unfold sendInfo
    simp [hrun, hpos, hsend 1]
  have hE : ∀ ecs nSel n c, sendECS d e (s.fSendECSparamString || req.doSendECSparamString)
      ecs nSel n c = ([], c) := by
    intro ecs nSel n c
    unfold sendECS
    simp [hecs]
  have hB : ∀ n c k, (sendBlocks s.fZMQneverBlock s.fZMQerrorMsgSkip e.sendRc blocks
      blocks.length 0 (List.range' 0 blocks.length) n c k).frames =
      expectedBlockFrames (if s.fZMQneverBlock then ZMQ_DONTWAIT else 0) blocks := by
    intro n c k
    have h := sendBlocks_frames_all s.fZMQneverBlock s.fZMQerrorMsgSkip e.sendRc blocks [] 0 n c k
    simpa using h
  have hD : ∀ m n k, (sendDummy s.fZMQsocketType e m
      (sendBlocks s.fZMQneverBlock s.fZMQerrorMsgSkip e.sendRc blocks
        blocks.length 0 (List.range' 0 blocks.length) n 1 k).nSentBlocks).1 = [] := by
    intro m n k
    rw [sendDummy_fst, if_neg]
    intro h
    have := sendBlocks_nSent_ge s.fZMQneverBlock s.fZMQerrorMsgSkip e.sendRc blocks
      blocks.length (List.range' 0 blocks.length) 0 n 1 k
    omega
  simp only [sendStage, hsel, List.length_range', hinfo, hE, hB]
  simp only [List.length_cons, List.length_nil, List.append_nil, Nat.add_zero]
  rw [hD]
  simp

/-! ## The spec's end-to-end example (C1) -/

/-- C1, as stated, fails: at the void run number 4294967295 (all 32 bits set)
the frame after `"INFO"` is `"run=-1"`, not `"run=4294967295"`; the rest of
the frames are as the claim says. -/
theorem DoProcessing_void_run_number :
    (exampleEnv 0 0 4294967295).runNo = 4294967295 ∧
    (DoProcessing exampleDecls (ctor 0) (exampleEnv 0 0 4294967295)
      [exampleBlock 10 7 [97], exampleBlock 11 7 [98]] []).sent =
      [⟨Buf.chars "INFO", ZMQ_SNDMORE⟩,
        ⟨Buf.chars "run=-1", ZMQ_SNDMORE⟩,
        ⟨Buf.topicOfBlock (exampleBlock 10 7 [97]), ZMQ_SNDMORE⟩,
        ⟨Buf.payload [97], ZMQ_SNDMORE⟩,
        ⟨Buf.topicOfBlock (exampleBlock 11 7 [98]), ZMQ_SNDMORE⟩,
        ⟨Buf.payload [98], ZMQ_DONTWAIT⟩] := by
  set_option maxRecDepth 10000 in decide

/-- C1, amended: publish pattern (no request polling), no pushback period,
`SendRunNumber` on, `SendECSparamString` off.  For a non-empty event whose
blocks are all non-private and none an ECS parameter block, with every send
succeeding and a topic comparison that accepts everything for a request
length `≤ 0`, the sends are exactly `"INFO"`, `"run="` followed by the decimal
digits of the run number read as a signed 32-bit integer, then for each input
block in order its topic and its payload; every frame but the last carries
`ZMQ_SNDMORE` and the last, the final block's payload, does not.  For a run
number from `-2^31` to `2^31 - 1` the signed reading is the run number itself,
so the second frame is `"run=<N>"`. -/
theorem DoProcessing_publish_frames (d : Decls) (s : AliHLTZMQsink) (e : Env)
    (blocks out : List AliHLTComponentBlockData)
    (hpoll : s.fZMQpollIn = false) (hgate : s.fPushbackDelayPeriod ≤ 0)
    (hrun : s.fSendRunNumber = true) (hecs : s.fSendECSparamString = false)
    (hne : blocks ≠ [])
    (hblocks : ∀ b ∈ blocks, b.fDataType.fOrigin ≠ d.kAliHLTDataOriginPrivate ∧
      b.fDataType.fID ≠ d.kAliHLTDataTypeECSParam.fID)
    (hsend : ∀ n, 0 ≤ e.sendRc n)
    (hwild : ∀ req topic n, n ≤ 0 → d.Topicncmp req topic n = true) :
    (DoProcessing d s e blocks out).sent =
      [⟨Buf.chars "INFO", ZMQ_SNDMORE⟩,
        ⟨Buf.chars ("run=" ++ toString (toInt32 e.runNo)), ZMQ_SNDMORE⟩] ++
      blocks.dropLast.flatMap (fun b =>
        [(⟨Buf.topicOfBlock b, ZMQ_SNDMORE⟩ : Frame), ⟨Buf.payload b.fPtr, ZMQ_SNDMORE⟩]) ++
      [⟨Buf.topicOfBlock (blocks.getLast hne), ZMQ_SNDMORE⟩,
        ⟨Buf.payload (blocks.getLast hne).fPtr,
          if s.fZMQneverBlock then ZMQ_DONTWAIT else 0⟩] ∧
    (∀ f ∈ (DoProcessing d s e blocks out).sent.dropLast, f.sndMore = true) ∧
    (∀ f ∈ (DoProcessing d s e blocks out).sent.getLast?, f.sndMore = false) ∧
    (-2 ^ 31 ≤ e.runNo → e.runNo < 2 ^ 31 → toInt32 e.runNo = e.runNo) := by
  have hp : pollStage d s e =
      (true, { requestTopic := List.replicate d.kAliHLTComponentDataTypeTopicSize 42
               requestTopicSize := -1
               doSendECSparamString := false }) := by
    simp [pollStage, hpoll]
  have hg : gateStage s e (pollStage d s e).1 = true := by
    rw [hp]
    unfold gateStage
    rw [if_neg (not_lt.mpr hgate)]
  have hsent : (DoProcessing d s e blocks out).sent =
      [⟨Buf.chars "INFO", ZMQ_SNDMORE⟩,
        ⟨Buf.chars ("run=" ++ toString (toInt32 e.runNo)), ZMQ_SNDMORE⟩] ++
      blocks.dropLast.flatMap (fun b =>
        [(⟨Buf.topicOfBlock b, ZMQ_SNDMORE⟩ : Frame), ⟨Buf.payload b.fPtr, ZMQ_SNDMORE⟩]) ++
      [⟨Buf.topicOfBlock (blocks.getLast hne), ZMQ_SNDMORE⟩,
        ⟨Buf.payload (blocks.getLast hne).fPtr,
          if s.fZMQneverBlock then ZMQ_DONTWAIT else 0⟩] := by
    rw [DoProcessing_of_doSend d s e blocks out hg, hp]
    rw [sendStage_all_selected d s e _ blocks hrun (by simp [hecs]) hne hblocks hsend
      (fun topic => hwild _ topic (-1) (by decide))]
    rw [expectedBlockFrames_eq _ blocks hne]
    simp
  refine ⟨hsent, ?_, ?_, toInt32_of_range e.runNo⟩
  · rw [hsent]
    intro f hf
    rw [show ∀ (l : List Frame) (x y : Frame), l ++ [x, y] = (l ++ [x]) ++ [y] from by simp,
      List.dropLast_concat] at hf
    simp only [List.mem_append, List.mem_cons, List.mem_singleton, List.not_mem_nil, or_false,
      List.mem_flatMap] at hf
    rcases hf with ((hf | hf) | ⟨b, _, hf | hf⟩) | hf <;> rw [hf] <;> exact sndMore_mk _
  · rw [hsent]
    intro f hf
    rw [show ∀ (l : List Frame) (x y : Frame), l ++ [x, y] = (l ++ [x]) ++ [y] from by simp,
      List.getLast?_concat] at hf
    simp only [Option.mem_def, Option.some.injEq] at hf
    rw [← hf]
    cases s.fZMQneverBlock <;> simp [Frame.sndMore, ZMQ_SNDMORE, ZMQ_DONTWAIT]

/-- C1, amended, at the spec's example: blocks A with payload `"a"` and B with
payload `"b"`, run number 42, on a freshly constructed (publish) sink. -/
theorem DoProcessing_publish_frames_witness :
    (DoProcessing exampleDecls (ctor 0) (exampleEnv 0 0 42)
      [exampleBlock 10 7 [97], exampleBlock 11 7 [98]] []).sent =
      [⟨Buf.chars "INFO", ZMQ_SNDMORE⟩,
        ⟨Buf.chars "run=42", ZMQ_SNDMORE⟩,
        ⟨Buf.topicOfBlock (exampleBlock 10 7 [97]), ZMQ_SNDMORE⟩,
        ⟨Buf.payload [97], ZMQ_SNDMORE⟩,
        ⟨Buf.topicOfBlock (exampleBlock 11 7 [98]), ZMQ_SNDMORE⟩,
        ⟨Buf.payload [98], ZMQ_DONTWAIT⟩] ∧
    (∀ f ∈ (DoProcessing exampleDecls (ctor 0) (exampleEnv 0 0 42)
      [exampleBlock 10 7 [97], exampleBlock 11 7 [98]] []).sent.dropLast, f.sndMore = true) ∧
    (∀ f ∈ (DoProcessing exampleDecls (ctor 0) (exampleEnv 0 0 42)
      [exampleBlock 10 7 [97], exampleBlock 11 7 [98]] []).sent.getLast?, f.sndMore = false) ∧
    toInt32 (exampleEnv 0 0 42).runNo = 42 :=
  have h := DoProcessing_publish_frames exampleDecls (ctor 0) (exampleEnv 0 0 42)
    [exampleBlock 10 7 [97], exampleBlock 11 7 [98]] [] rfl (by decide) rfl rfl (by simp)
    (by decide) (fun _ => le_refl _)
    (fun _ _ n hn => by simp [exampleDecls, Topicncmp, hn])
  ⟨h.1, h.2.1, h.2.2.1, h.2.2.2 (by decide) (by decide)⟩

/-! ## Reply pattern without a request (C2) -/

/-- C2: in reply pattern (request polling on), when the zero-timeout poll
reports no inbound request, the cycle does not reach the sending stage and
issues no `zmq_send` call at all, for every event and every configuration. -/
theorem DoProcessing_reply_without_request_sends_nothing (d : Decls) (s : AliHLTZMQsink)
    (e : Env) (blocks out : List AliHLTComponentBlockData)
    (hpoll : s.fZMQpollIn = true) (hreq : e.inbound = none) :
    (DoProcessing d s e blocks out).sent = [] ∧
      (DoProcessing d s e blocks out).doSend = false := by
  have h : gateStage s e (pollStage d s e).1 = false := by
    have hp : (pollStage d s e).1 = false := by simp [pollStage, hpoll, hreq]
    rw [hp]
    exact gateStage_false s e
  rw [DoProcessing_of_not_doSend d s e blocks out h]
  exact ⟨rfl, rfl⟩

/-- C2 at a concrete reply sink with one block in the event and no request. -/
theorem DoProcessing_reply_without_request_sends_nothing_witness :
    (DoProcessing exampleDecls exampleReplySink (exampleEnv 0 0 42)
        [exampleBlock 10 7 [97]] []).sent = [] ∧
      (DoProcessing exampleDecls exampleReplySink (exampleEnv 0 0 42)
        [exampleBlock 10 7 [97]] []).doSend = false :=
  DoProcessing_reply_without_request_sends_nothing exampleDecls exampleReplySink
    (exampleEnv 0 0 42) [exampleBlock 10 7 [97]] [] rfl rfl

/-! ## Pushback period (C3) -/

/-- C4: with the include-private-blocks flag off, for every event, request and
topic comparison, every selected index is that of a block whose origin is not
the private origin, and every block frame sent (a block topic or a block
payload) is the topic or payload of such a selected block. -/
theorem DoProcessing_private_blocks_never_framed (d : Decls) (s : AliHLTZMQsink) (e : Env)
    (blocks out : List AliHLTComponentBlockData) (hinc : s.fIncludePrivateBlocks = false) :
    (∀ idx ∈ (DoProcessing d s e blocks out).selectedBlockIdx,
      ∃ b, blocks[idx]? = some b ∧ b.fDataType.fOrigin ≠ d.kAliHLTDataOriginPrivate) ∧
    (∀ f ∈ (DoProcessing d s e blocks out).sent,
      (f.isPayload = true ∨ ∃ b, f.buf = Buf.topicOfBlock b) →
      ∃ idx b, idx ∈ (DoProcessing d s e blocks out).selectedBlockIdx ∧
        blocks[idx]? = some b ∧ b.fDataType.fOrigin ≠ d.kAliHLTDataOriginPrivate ∧
        (f.buf = Buf.topicOfBlock b ∨ f.buf = Buf.payload b.fPtr)) := by
  cases hg : gateStage s e (pollStage d s e).1
  · rw [DoProcessing_of_not_doSend d s e blocks out hg]
    exact ⟨by simp, by simp⟩
  · rw [DoProcessing_of_doSend d s e blocks out hg]
    have hsel : ∀ idx ∈ (sendStage d s e (pollStage d s e).2 blocks).selectedBlockIdx,
        ∃ b, blocks[idx]? = some b ∧ b.fDataType.fOrigin ≠ d.kAliHLTDataOriginPrivate := by
      intro idx hidx
      rw [sendStage_selected] at hidx
      obtain ⟨b, _, hget, hpriv⟩ := selectBlocks_mem d e _ _ blocks 0 _ idx hidx
      exact ⟨b, by simpa using hget, hpriv hinc⟩
    refine ⟨hsel, ?_⟩
    intro f hf hk
    obtain ⟨idx, hidx, hbuf⟩ := sendStage_block_frames d s e _ blocks f hf hk
    obtain ⟨b, hget, hpriv⟩ := hsel idx hidx
    have hD : blocks.getD idx default = b := by simp [List.getD, hget]
    rw [hD] at hbuf
    exact ⟨idx, b, hidx, hget, hpriv, hbuf⟩

/-- C4 at a freshly constructed sink and an event made of a private block
followed by a public one. -/
theorem DoProcessing_private_blocks_never_framed_witness :
    (∀ idx ∈ (DoProcessing exampleDecls (ctor 0) (exampleEnv 0 0 42)
        [exampleBlock 10 99 [97], exampleBlock 11 7 [98]] []).selectedBlockIdx,
      ∃ b, [exampleBlock 10 99 [97], exampleBlock 11 7 [98]][idx]? = some b ∧
        b.fDataType.fOrigin ≠ exampleDecls.kAliHLTDataOriginPrivate) ∧
    (∀ f ∈ (DoProcessing exampleDecls (ctor 0) (exampleEnv 0 0 42)
        [exampleBlock 10 99 [97], exampleBlock 11 7 [98]] []).sent,
      (f.isPayload = true ∨ ∃ b, f.buf = Buf.topicOfBlock b) →
      ∃ idx b, idx ∈ (DoProcessing exampleDecls (ctor 0) (exampleEnv 0 0 42)
          [exampleBlock 10 99 [97], exampleBlock 11 7 [98]] []).selectedBlockIdx ∧
        [exampleBlock 10 99 [97], exampleBlock 11 7 [98]][idx]? = some b ∧
        b.fDataType.fOrigin ≠ exampleDecls.kAliHLTDataOriginPrivate ∧
        (f.buf = Buf.topicOfBlock b ∨ f.buf = Buf.payload b.fPtr)) :=
  DoProcessing_private_blocks_never_framed exampleDecls (ctor 0) (exampleEnv 0 0 42)
    [exampleBlock 10 99 [97], exampleBlock 11 7 [98]] [] rfl

/-! ## The option `IncludePrivateBlocks` (C5) -/

/-- C5, refuted as stated: on a freshly constructed sink, whose
include-private-blocks flag is off, `ProcessOption("IncludePrivateBlocks",
"false")` turns the flag on, and the sink so configured frames a block of
private origin. -/
theorem ProcessOption_IncludePrivateBlocks_false_sets_flag :
    (ctor 0).fIncludePrivateBlocks = false ∧
    (ProcessOption exampleDecls (ctor 0) "IncludePrivateBlocks" "false").2.fIncludePrivateBlocks
      = true ∧
    (exampleBlock 10 99 [97]).fDataType.fOrigin = exampleDecls.kAliHLTDataOriginPrivate ∧
    (DoProcessing exampleDecls
      (ProcessOption exampleDecls (ctor 0) "IncludePrivateBlocks" "false").2
      (exampleEnv 0 0 42) [exampleBlock 10 99 [97]] []).sent =
      [⟨Buf.chars "INFO", ZMQ_SNDMORE⟩,
        ⟨Buf.chars "run=42", ZMQ_SNDMORE⟩,
        ⟨Buf.topicOfBlock (exampleBlock 10 99 [97]), ZMQ_SNDMORE⟩,
        ⟨Buf.payload [97], ZMQ_DONTWAIT⟩] := by
  refine ⟨rfl, rfl, rfl, ?_⟩
  decide

/-- C5, amended: the include-private-blocks flag is off on a freshly
constructed sink; `ProcessOption("IncludePrivateBlocks", v)` returns 1 and
sets the flag on for every value `v`, changing nothing else; and every other
option leaves the flag as it was. -/
theorem ProcessOption_IncludePrivateBlocks (d : Decls) (s : AliHLTZMQsink) (t : Int) :
    (ctor t).fIncludePrivateBlocks = false ∧
    (∀ v, ProcessOption d s "IncludePrivateBlocks" v =
      (1, { s with fIncludePrivateBlocks := true })) ∧
    (∀ option v, option ≠ "IncludePrivateBlocks" →
      (ProcessOption d s option v).2.fIncludePrivateBlocks = s.fIncludePrivateBlocks) := by
  refine ⟨rfl, fun v => ?_, fun option v hne => ?_⟩
  · simp [ProcessOption]
  · unfold ProcessOption
    simp only [hne, if_false]
    split_ifs <;> rfl

/-! ## The empty reply (C6) -/

/-- C6 at its failing input: a reply sink that received a request, one public
block in the event, and every `zmq_send` returning -1.  The cycle reaches the
sending stage, all four sends fail, and no empty frame is sent: the failed
payload send is counted in `nSentBlocks` by the `else` branch of line 311. -/
theorem DoProcessing_reply_all_sends_fail_no_reply :
    exampleReplySink.fZMQpollIn = true ∧ exampleReplySink.fZMQsocketType = ZMQ_REP ∧
    (∀ n, (exampleRequestEnv 0 (-1) 42).sendRc n < 0) ∧
    (DoProcessing exampleDecls exampleReplySink (exampleRequestEnv 0 (-1) 42)
      [exampleBlock 10 7 [97]] []).doSend = true ∧
    (DoProcessing exampleDecls exampleReplySink (exampleRequestEnv 0 (-1) 42)
      [exampleBlock 10 7 [97]] []).sent =
      [⟨Buf.chars "INFO", ZMQ_SNDMORE⟩,
        ⟨Buf.chars "run=42", ZMQ_SNDMORE⟩,
        ⟨Buf.topicOfBlock (exampleBlock 10 7 [97]), ZMQ_SNDMORE⟩,
        ⟨Buf.payload [97], ZMQ_DONTWAIT⟩] ∧
    (DoProcessing exampleDecls exampleReplySink (exampleRequestEnv 0 (-1) 42)
      [exampleBlock 10 7 [97]] []).warnings = [] := by
  refine ⟨rfl, rfl, fun _ => (by decide : (-1 : Int) < 0), ?_, ?_, ?_⟩ <;> decide

/-! ## The run-number frames (C7) -/

/-- C7: the frame `"INFO"` is among the sends of a cycle exactly when
`SendRunNumber` is on and at least one block was selected; in that case the
sends start with `"INFO"`, `"run=<run number>"` (the digits of the run number
read as a signed 32-bit integer), both with `ZMQ_SNDMORE`, and otherwise no
character-buffer frame is sent at all, whatever else is sent. -/
theorem DoProcessing_info_frame_iff (d : Decls) (s : AliHLTZMQsink) (e : Env)
    (blocks out : List AliHLTComponentBlockData) :
    ((⟨Buf.chars "INFO", ZMQ_SNDMORE⟩ : Frame) ∈ (DoProcessing d s e blocks out).sent ↔
      (s.fSendRunNumber = true ∧ (DoProcessing d s e blocks out).selectedBlockIdx ≠ [])) ∧
    ((s.fSendRunNumber = true ∧ (DoProcessing d s e blocks out).selectedBlockIdx ≠ []) →
      ∃ rest, (DoProcessing d s e blocks out).sent =
        ⟨Buf.chars "INFO", ZMQ_SNDMORE⟩ ::
        ⟨Buf.chars ("run=" ++ toString (toInt32 e.runNo)), ZMQ_SNDMORE⟩ :: rest) ∧
    (¬ (s.fSendRunNumber = true ∧ (DoProcessing d s e blocks out).selectedBlockIdx ≠ []) →
      ∀ f ∈ (DoProcessing d s e blocks out).sent, ∀ str, f.buf ≠ Buf.chars str) := by
  cases hg : gateStage s e (pollStage d s e).1
  · rw [DoProcessing_of_not_doSend d s e blocks out hg]
    simp
  · rw [DoProcessing_of_doSend d s e blocks out hg]
    obtain ⟨n1, n2, n3, c1, c2, c3, hs⟩ := sendStage_sent d s e (pollStage d s e).2 blocks
    have hrest : ∀ f : Frame,
        (f ∈ (sendECS d e (s.fSendECSparamString || (pollStage d s e).2.doSendECSparamString)
          (sendStage d s e (pollStage d s e).2 blocks).sink.fECSparamString
          (sendStage d s e (pollStage d s e).2 blocks).selectedBlockIdx.length n1 c1).1 ∨
        f ∈ (sendBlocks s.fZMQneverBlock s.fZMQerrorMsgSkip e.sendRc blocks
          (sendStage d s e (pollStage d s e).2 blocks).selectedBlockIdx.length 0
          (sendStage d s e (pollStage d s e).2 blocks).selectedBlockIdx n2 c2
          s.fNskippedErrorMessages).frames ∨
        f ∈ (sendDummy s.fZMQsocketType e n3 c3).1) → ∀ str, f.buf ≠ Buf.chars str := by
      intro f hf str hc
      rcases hf with hf | hf | hf
      · rcases sendECS_frames _ _ _ _ _ _ _ _ hf with h | h <;> rw [h] at hc <;> cases hc
      · obtain ⟨idx, _, h | h⟩ := sendBlocks_frames_mem _ _ _ _ _ _ _ _ _ _ f hf <;>
          rw [h] at hc <;> cases hc
      · rw [sendDummy_frames _ _ _ _ _ hf] at hc
        cases hc
    by_cases hc : s.fSendRunNumber = true ∧
        (sendStage d s e (pollStage d s e).2 blocks).selectedBlockIdx ≠ []
    · have hinfo : (sendInfo s.fSendRunNumber
          (sendStage d s e (pollStage d s e).2 blocks).selectedBlockIdx.length e).1 =
          [⟨Buf.chars "INFO", ZMQ_SNDMORE⟩,
            ⟨Buf.chars ("run=" ++ toString (toInt32 e.runNo)), ZMQ_SNDMORE⟩] := by
        rw [sendInfo_fst, if_pos]
        simp [hc.1, List.length_pos, hc.2]
      rw [hinfo] at hs
      refine ⟨⟨fun _ => hc, fun _ => ?_⟩, fun _ => ⟨_, by rw [hs]; simp only [List.cons_append, List.nil_append, List.append_assoc]; rfl⟩, fun h => absurd hc h⟩
      rw [hs]
      simp
    · have hinfo : (sendInfo s.fSendRunNumber
          (sendStage d s e (pollStage d s e).2 blocks).selectedBlockIdx.length e).1 = [] := by
        rw [sendInfo_fst, if_neg]
        simp only [Bool.and_eq_true, decide_eq_true_eq, gt_iff_lt, List.length_pos]
        exact hc
      rw [hinfo] at hs
      have hno : ∀ f ∈ (sendStage d s e (pollStage d s e).2 blocks).sent,
          ∀ str, f.buf ≠ Buf.chars str := by
        intro f hf
        rw [hs] at hf
        simp only [List.nil_append, List.mem_append] at hf
        apply hrest f
        tauto
      refine ⟨⟨fun hmem => absurd rfl (hno _ hmem "INFO"), fun h => absurd h hc⟩,
        fun h => absurd h hc, fun _ => hno⟩

/-! ## Pushback period in reply pattern (C8) -/

/-- C8, refuted as stated: a reply sink with `pushback-period` 5 whose last
push was recorded at clock value 100 receives a request at clock value 102;
the cycle does not reach the sending stage and sends nothing. -/
theorem DoProcessing_reply_request_gated :
    exampleReplyPushbackSink.fZMQpollIn = true ∧
    (exampleRequestEnv 102 0 42).inbound.isSome = true ∧
    (DoProcessing exampleDecls exampleReplyPushbackSink (exampleRequestEnv 102 0 42)
      [exampleBlock 10 7 [97]] []).doSend = false ∧
    (DoProcessing exampleDecls exampleReplyPushbackSink (exampleRequestEnv 102 0 42)
      [exampleBlock 10 7 [97]] []).sent = [] := by
  refine ⟨rfl, rfl, ?_, ?_⟩ <;> decide

/-- C8, amended: in reply pattern, in a cycle in which a request was received,
the sending stage is reached exactly when the pushback test does not fire,
that is unless a period `P > 0` is configured and the clock difference is
below `P`; when it fires nothing is sent. -/
theorem DoProcessing_reply_request_doSend_iff (d : Decls) (s : AliHLTZMQsink) (e : Env)
    (blocks out : List AliHLTComponentBlockData)
    (hpoll : s.fZMQpollIn = true) (hreq : e.inbound.isSome = true) :
    ((DoProcessing d s e blocks out).doSend = true ↔
      ¬ (0 < s.fPushbackDelayPeriod ∧
        toInt32 (toInt32 e.clockGate - s.fLastPushbackDelayTime) < s.fPushbackDelayPeriod)) ∧
    ((0 < s.fPushbackDelayPeriod ∧
        toInt32 (toInt32 e.clockGate - s.fLastPushbackDelayTime) < s.fPushbackDelayPeriod) →
      (DoProcessing d s e blocks out).sent = []) := by
  have hp : (pollStage d s e).1 = true := by
    obtain ⟨req, hr⟩ := Option.isSome_iff_exists.mp hreq
    simp [pollStage, hpoll, hr]
  have hgate : gateStage s e (pollStage d s e).1 = true ↔
      ¬ (0 < s.fPushbackDelayPeriod ∧
        toInt32 (toInt32 e.clockGate - s.fLastPushbackDelayTime) < s.fPushbackDelayPeriod) := by
    rw [hp]
    unfold gateStage
    split_ifs <;> simp_all
  refine ⟨by rw [DoProcessing_doSend]; exact hgate, fun h => ?_⟩
  have hg : gateStage s e (pollStage d s e).1 = false := by
    cases hc : gateStage s e (pollStage d s e).1
    · rfl
    · exact absurd h (hgate.mp hc)
  rw [DoProcessing_of_not_doSend d s e blocks out hg]

/-- C8 amended, at the reply sink without pushback period and a request. -/
theorem DoProcessing_reply_request_doSend_iff_witness :
    ((DoProcessing exampleDecls exampleReplySink (exampleRequestEnv 102 0 42)
        [exampleBlock 10 7 [97]] []).doSend = true ↔
      ¬ (0 < exampleReplySink.fPushbackDelayPeriod ∧
        toInt32 (toInt32 (exampleRequestEnv 102 0 42).clockGate -
          exampleReplySink.fLastPushbackDelayTime) < exampleReplySink.fPushbackDelayPeriod)) ∧
    ((0 < exampleReplySink.fPushbackDelayPeriod ∧
        toInt32 (toInt32 (exampleRequestEnv 102 0 42).clockGate -
          exampleReplySink.fLastPushbackDelayTime) < exampleReplySink.fPushbackDelayPeriod) →
      (DoProcessing exampleDecls exampleReplySink (exampleRequestEnv 102 0 42)
        [exampleBlock 10 7 [97]] []).sent = []) :=
  DoProcessing_reply_request_doSend_iff exampleDecls exampleReplySink
    (exampleRequestEnv 102 0 42) [exampleBlock 10 7 [97]] [] rfl rfl

/-! ## Send failures (C9) -/

/-- C9: whatever the return codes of the sends, the call returns 0 with an
empty output block list, every selected index is a valid block index, and the
payload sends issued are exactly those of the selected blocks, one each and in
order: a failed send does not stop the loop. -/
theorem DoProcessing_send_failures_not_fatal (d : Decls) (s : AliHLTZMQsink) (e : Env)
    (blocks out : List AliHLTComponentBlockData) :
    (DoProcessing d s e blocks out).retCode = 0 ∧
    (DoProcessing d s e blocks out).outputBlocks = [] ∧
    (∀ idx ∈ (DoProcessing d s e blocks out).selectedBlockIdx, idx < blocks.length) ∧
    ((DoProcessing d s e blocks out).sent.filter Frame.isPayload).map Frame.buf =
      (DoProcessing d s e blocks out).selectedBlockIdx.map
        (fun idx => Buf.payload (blocks.getD idx default).fPtr) := by
  cases hg : gateStage s e (pollStage d s e).1
  · rw [DoProcessing_of_not_doSend d s e blocks out hg]
    simp
  · rw [DoProcessing_of_doSend d s e blocks out hg]
    refine ⟨rfl, rfl, ?_, ?_⟩
    · intro idx hidx
      rw [sendStage_selected] at hidx
      obtain ⟨b, _, hget, _⟩ := selectBlocks_mem d e _ _ blocks 0 _ idx hidx
      simp only [Nat.sub_zero] at hget
      by_contra hlt
      rw [List.getElem?_eq_none (by omega)] at hget
      cases hget
    · obtain ⟨n1, n2, n3, c1, c2, c3, hs⟩ := sendStage_sent d s e (pollStage d s e).2 blocks
      rw [hs]
      simp only [List.filter_append, List.map_append]
      have h1 : ∀ (run : Bool) (nSel : Nat), (sendInfo run nSel e).1.filter Frame.isPayload = [] := by
        intro run nSel
        rw [List.filter_eq_nil_iff]
        intro f hf
        obtain ⟨str, h⟩ := sendInfo_frames _ _ _ _ hf
        simp [Frame.isPayload, h]
      have h2 : ∀ (doIt : Bool) (ecs : List Nat) (nSel n : Nat) (c : Int),
          (sendECS d e doIt ecs nSel n c).1.filter Frame.isPayload = [] := by
        intro doIt ecs nSel n c
        rw [List.filter_eq_nil_iff]
        intro f hf
        rcases sendECS_frames _ _ _ _ _ _ _ _ hf with h | h <;> simp [Frame.isPayload, h]
      have h3 : ∀ (t : Int) (n : Nat) (c : Int),
          (sendDummy t e n c).1.filter Frame.isPayload = [] := by
        intro t n c
        rw [List.filter_eq_nil_iff]
        intro f hf
        have h := sendDummy_frames _ _ _ _ _ hf
        simp [Frame.isPayload, h]
      rw [h1, h2, h3, sendBlocks_payloads]
      simp

/-! ## The option `out` (C10) -/

/-- C10: `ProcessOption("out", v)` returns `-EINVAL` (a negative value) exactly
when the socket type parsed from `v` is none of `ZMQ_REP`, `ZMQ_PUSH`,
`ZMQ_PUB`; otherwise it returns 1, and request polling is on afterwards exactly
when the type is `ZMQ_REP`. -/
theorem ProcessOption_out (d : Decls) (s : AliHLTZMQsink) (v : String) :
    ((ProcessOption d s "out" v).1 = -EINVAL ↔
      (d.alizmq_socket_type v ≠ ZMQ_REP ∧ d.alizmq_socket_type v ≠ ZMQ_PUSH ∧
        d.alizmq_socket_type v ≠ ZMQ_PUB)) ∧
    ((ProcessOption d s "out" v).1 < 0 ↔
      (d.alizmq_socket_type v ≠ ZMQ_REP ∧ d.alizmq_socket_type v ≠ ZMQ_PUSH ∧
        d.alizmq_socket_type v ≠ ZMQ_PUB)) ∧
    ((d.alizmq_socket_type v = ZMQ_REP ∨ d.alizmq_socket_type v = ZMQ_PUSH ∨
        d.alizmq_socket_type v = ZMQ_PUB) →
      (ProcessOption d s "out" v).1 = 1 ∧
      ((ProcessOption d s "out" v).2.fZMQpollIn = true ↔ d.alizmq_socket_type v = ZMQ_REP)) := by
  simp only [ZMQ_REP, ZMQ_PUSH, ZMQ_PUB, EINVAL, ProcessOption]
  by_cases h1 : d.alizmq_socket_type v = 4
  · simp [h1]
  · by_cases h2 : d.alizmq_socket_type v = 8
    · simp [h2]
    · by_cases h3 : d.alizmq_socket_type v = 1
      · simp [h3]
      · simp [h1, h2, h3]

/-! ## The cached ECS parameter string (C20) -/

/-- C20 at its failing input: the sink has `old` cached and the event holds
one ECS parameter block with the payload `new`, not NUL-terminated.  After the
cycle the cached string is `newold`: line 233 inserts the payload in front of
what was cached.  With the payload `new` followed by a NUL, the branch of line
238 replaces the cached string by `new`. -/
theorem DoProcessing_ecs_cache_prepends :
    (DoProcessing exampleDecls exampleCachedSink (exampleEnv 0 0 42)
      [exampleBlock 1 99 [110, 101, 119]] []).doSend = true ∧
    (DoProcessing exampleDecls exampleCachedSink (exampleEnv 0 0 42)
      [exampleBlock 1 99 [110, 101, 119]] []).sink.fECSparamString =
      [110, 101, 119, 111, 108, 100] ∧
    (DoProcessing exampleDecls exampleCachedSink (exampleEnv 0 0 42)
      [exampleBlock 1 99 [110, 101, 119, 0]] []).sink.fECSparamString =
      [110, 101, 119] := by
  decide

/-! ## Lemmas on the send loop -/

theorem skipped_step_emod (N c0 F : Int) (f0 : Prop) [Decidable f0] (h1 : c0 ≤ N) :
    ((if (decide f0 && decide (c0 ≥ N)) = true then 0 else if f0 then c0 + 1 else c0) + F) % (N + 1)
      = (c0 + ((if f0 then 1 else 0 : Nat) : Int) + F) % (N + 1) := by
  by_cases hf : f0
  · by_cases hc : c0 ≥ N
    · have : c0 = N := le_antisymm h1 hc
      subst this
      simp only [hf, decide_True, ge_iff_le, le_refl, Bool.and_self, if_true, Nat.cast_one]
      have : c0 + 1 + F = 0 + F + (c0 + 1) * 1 := by ring
      rw [this, Int.add_mul_emod_self_left]
    · simp [hf, hc]
  · simp [hf]

theorem skipped_step_warn (N c0 : Int) (f0 : Prop) [Decidable f0] (h0 : 0 ≤ c0) (h1 : c0 ≤ N) :
    (decide f0 && decide (c0 ≥ N)) = true ↔
      f0 ∧ (c0 + ((if f0 then 1 else 0 : Nat) : Int)) % (N + 1) = 0 := by
  by_cases hf : f0
  · by_cases hc : c0 ≥ N
    · have : c0 = N := le_antisymm h1 hc
      subst this
      simp [hf]
    · have h2 : (c0 + 1) % (N + 1) = c0 + 1 := Int.emod_eq_of_lt (by omega) (by omega)
      simp only [hf, hc, decide_True, decide_False, Bool.and_false, if_true, Nat.cast_one, h2,
        true_and]
      constructor
      · intro h; cases h
      · intro h; omega
  · simp [hf]

theorem sendBlocks_warnings_index (nb : Bool) (N : Int) (rc : Nat → Int)
    (blocks : List AliHLTComponentBlockData) (nSel : Nat) :
    ∀ (sel : List Nat) (iSel n : Nat) (nSent c0 : Int),
      ∀ w ∈ (sendBlocks nb N rc blocks nSel iSel sel n nSent c0).warnings,
        ∃ j, j < sel.length ∧ w = Warning.dataFrame (iSel + j) := by
  intro sel
  induction sel with
  | nil => intro iSel n nSent c0 w hw; simp [sendBlocks] at hw
  | cons idx rest ih =>
    intro iSel n nSent c0 w hw
    simp only [sendBlocks, List.mem_append] at hw
    rcases hw with hw | hw
    · refine ⟨0, by simp, ?_⟩
      split_ifs at hw
      · simpa using hw
      · simp at hw
    · obtain ⟨j, hj, rfl⟩ := ih _ _ _ _ w hw
      exact ⟨j + 1, by simp [hj], by congr 1; omega⟩

theorem sendBlocks_skipped (nb : Bool) (N : Int) (rc : Nat → Int)
    (blocks : List AliHLTComponentBlockData) (nSel : Nat) (hN : 0 ≤ N) :
    ∀ (sel : List Nat) (iSel n : Nat) (nSent c0 : Int), 0 ≤ c0 → c0 ≤ N →
      (sendBlocks nb N rc blocks nSel iSel sel n nSent c0).fNskippedErrorMessages =
        (c0 + (failedPayloadSends rc n sel.length : Nat)) % (N + 1) ∧
      (∀ j, j < sel.length →
        (Warning.dataFrame (iSel + j) ∈ (sendBlocks nb N rc blocks nSel iSel sel n nSent c0).warnings ↔
          rc (n + 2 * j + 1) < 0 ∧ (c0 + (failedPayloadSends rc n (j + 1) : Nat)) % (N + 1) = 0)) := by
  intro sel
  induction sel with
  | nil =>
    intro iSel n nSent c0 h0 h1
    refine ⟨?_, ?_⟩
    · simp only [sendBlocks, failedPayloadSends, List.length_nil, Nat.cast_zero, add_zero]
      rw [Int.emod_eq_of_lt h0 (by omega)]
    · intro j hj; simp at hj
  | cons idx rest ih =>
    intro iSel n nSent c0 h0 h1
    have hc' : ∀ (f0 : Prop) [Decidable f0],
        0 ≤ (if (decide f0 && decide (c0 ≥ N)) = true then 0 else if f0 then c0 + 1 else c0) ∧
        (if (decide f0 && decide (c0 ≥ N)) = true then 0 else if f0 then c0 + 1 else c0) ≤ N := by
      intro f0 _
      by_cases hf : f0 <;> by_cases hc : c0 ≥ N <;> simp [hf, hc] <;> omega
    have hstep : sendBlocks nb N rc blocks nSel iSel (idx :: rest) n nSent c0 =
        { frames := ⟨Buf.topicOfBlock (blocks.getD idx default), ZMQ_SNDMORE⟩ ::
            ⟨Buf.payload (blocks.getD idx default).fPtr,
              if iSel < nSel - 1 then ZMQ_SNDMORE else if nb then ZMQ_DONTWAIT else 0⟩ ::
            (sendBlocks nb N rc blocks nSel (iSel + 1) rest (n + 2)
              (if (decide (rc (n + 1) < 0) && decide (c0 ≥ N)) = true then nSent else nSent + 1)
              (if (decide (rc (n + 1) < 0) && decide (c0 ≥ N)) = true then 0
                else if rc (n + 1) < 0 then c0 + 1 else c0)).frames
          nSentBlocks := (sendBlocks nb N rc blocks nSel (iSel + 1) rest (n + 2)
              (if (decide (rc (n + 1) < 0) && decide (c0 ≥ N)) = true then nSent else nSent + 1)
              (if (decide (rc (n + 1) < 0) && decide (c0 ≥ N)) = true then 0
                else if rc (n + 1) < 0 then c0 + 1 else c0)).nSentBlocks
          fNskippedErrorMessages := (sendBlocks nb N rc blocks nSel (iSel + 1) rest (n + 2)
              (if (decide (rc (n + 1) < 0) && decide (c0 ≥ N)) = true then nSent else nSent + 1)
              (if (decide (rc (n + 1) < 0) && decide (c0 ≥ N)) = true then 0
                else if rc (n + 1) < 0 then c0 + 1 else c0)).fNskippedErrorMessages
          warnings := (if (decide (rc (n + 1) < 0) && decide (c0 ≥ N)) = true
              then [Warning.dataFrame iSel] else []) ++
            (sendBlocks nb N rc blocks nSel (iSel + 1) rest (n + 2)
              (if (decide (rc (n + 1) < 0) && decide (c0 ≥ N)) = true then nSent else nSent + 1)
              (if (decide (rc (n + 1) < 0) && decide (c0 ≥ N)) = true then 0
                else if rc (n + 1) < 0 then c0 + 1 else c0)).warnings } := rfl
    obtain ⟨ih1, ih3⟩ := ih (iSel + 1) (n + 2)
      (if (decide (rc (n + 1) < 0) && decide (c0 ≥ N)) = true then nSent else nSent + 1)
      (if (decide (rc (n + 1) < 0) && decide (c0 ≥ N)) = true then 0
        else if rc (n + 1) < 0 then c0 + 1 else c0)
      (hc' (rc (n + 1) < 0)).1 (hc' (rc (n + 1) < 0)).2
    have hmod := fun F => skipped_step_emod N c0 F (rc (n + 1) < 0) h1
    have hF : ∀ k, ((failedPayloadSends rc n (k + 1) : Nat) : Int) =
        ((if rc (n + 1) < 0 then 1 else 0 : Nat) : Int) + (failedPayloadSends rc (n + 2) k : Nat) := by
      intro k; simp only [failedPayloadSends]; push_cast; rfl
    rw [hstep]
    refine ⟨?_, ?_⟩
    · show (sendBlocks nb N rc blocks nSel (iSel + 1) rest (n + 2) _ _).fNskippedErrorMessages = _
      rw [ih1, hmod, List.length_cons, hF, add_assoc]
    · intro j hj
      simp only [List.mem_append]
      cases j with
      | zero =>
        have hnot : ∀ nS c, Warning.dataFrame iSel ∉
            (sendBlocks nb N rc blocks nSel (iSel + 1) rest (n + 2) nS c).warnings := by
          intro nS c hmem
          obtain ⟨j, _, hj⟩ := sendBlocks_warnings_index nb N rc blocks nSel rest _ _ _ _ _ hmem
          injection hj with hj
          omega
        simp only [Nat.mul_zero, Nat.add_zero, hnot, or_false]
        have hF0 : ((failedPayloadSends rc n (0 + 1) : Nat) : Int) =
            ((if rc (n + 1) < 0 then 1 else 0 : Nat) : Int) := by
          simp [failedPayloadSends]
        rw [hF0, ← skipped_step_warn N c0 (rc (n + 1) < 0) h0 h1]
        split_ifs with hw <;> simp [hw]
      | succ j =>
        have hne : Warning.dataFrame (iSel + (j + 1)) ∉
            (if (decide (rc (n + 1) < 0) && decide (c0 ≥ N)) = true
              then [Warning.dataFrame iSel] else []) := by
          split_ifs <;> simp
        have hj2 : j < rest.length := by simpa using hj
        have e1 : iSel + (j + 1) = iSel + 1 + j := by omega
        have e2 : n + 2 * (j + 1) + 1 = n + 2 + 2 * j + 1 := by omega
        simp only [hne, false_or]
        rw [e1, e2, ih3 j hj2, hmod, hF (j + 1), add_assoc c0]

theorem sendBlocks_frames_shape (nb : Bool) (skip : Int) (rc : Nat → Int)
    (blocks : List AliHLTComponentBlockData) (nSel : Nat) :
    ∀ (sel : List Nat) (iSel n : Nat) (nSent nSk : Int) (hne : sel ≠ []),
      nSel = iSel + sel.length →
      ∃ pre, (sendBlocks nb skip rc blocks nSel iSel sel n nSent nSk).frames =
          pre ++ [⟨Buf.payload (blocks.getD (sel.getLast hne) default).fPtr,
            if nb then ZMQ_DONTWAIT else 0⟩] ∧
        ∀ f ∈ pre, f.sndMore = true := by
  intro sel
  induction sel with
  | nil => intro _ _ _ _ hne; exact absurd rfl hne
  | cons idx rest ih =>
    intro iSel n nSent nSk hne hlen
    cases rest with
    | nil =>
      refine ⟨[⟨Buf.topicOfBlock (blocks.getD idx default), ZMQ_SNDMORE⟩], ?_, ?_⟩
      · have h1 : ¬ iSel < nSel - 1 := by simp at hlen; omega
        simp [sendBlocks, h1]
      · intro f hf
        rw [List.mem_singleton] at hf
        subst hf
        exact sndMore_mk _
    | cons idx2 rest2 =>
      have h1 : iSel < nSel - 1 := by simp at hlen; omega
      obtain ⟨pre, hpre, hmore⟩ := ih (iSel + 1) (n + 2)
        (if (decide (rc (n + 1) < 0) && decide (nSk ≥ skip)) = true then nSent else nSent + 1)
        (if (decide (rc (n + 1) < 0) && decide (nSk ≥ skip)) = true then 0
          else if rc (n + 1) < 0 then nSk + 1 else nSk)
        (List.cons_ne_nil _ _) (by simp at hlen ⊢; omega)
      refine ⟨⟨Buf.topicOfBlock (blocks.getD idx default), ZMQ_SNDMORE⟩ ::
        ⟨Buf.payload (blocks.getD idx default).fPtr, ZMQ_SNDMORE⟩ :: pre, ?_, ?_⟩
      · rw [sendBlocks]
        simp only [h1, if_true, hpre, List.cons_append]
        rfl
      · intro f hf
        simp only [List.mem_cons] at hf
        rcases hf with rfl | rfl | hf
        · exact sndMore_mk _
        · exact sndMore_mk _
        · exact hmore f hf

theorem sendBlocks_nSent_succ (nb : Bool) (skip : Int) (rc : Nat → Int)
    (blocks : List AliHLTComponentBlockData) (nSel : Nat) (hrc : ∀ n, 0 ≤ rc n) :
    ∀ (sel : List Nat) (iSel n : Nat) (nSent nSk : Int), sel ≠ [] →
      nSent + 1 ≤ (sendBlocks nb skip rc blocks nSel iSel sel n nSent nSk).nSentBlocks := by
  intro sel iSel n nSent nSk hne
  cases sel with
  | nil => exact absurd rfl hne
  | cons idx rest =>
    have h1 : ¬ rc (n + 1) < 0 := not_lt.mpr (hrc _)
    rw [sendBlocks]
    simp only [h1, decide_False, Bool.false_and, if_false]
    exact sendBlocks_nSent_ge nb skip rc blocks nSel rest _ _ _ _

theorem sendInfo_sndMore (run : Bool) (nSel : Nat) (e : Env) :
    ∀ f ∈ (sendInfo run nSel e).1, f.sndMore = true := by
  intro f hf
  rw [sendInfo_fst] at hf
  split_ifs at hf
  · simp only [List.mem_cons, List.mem_singleton, List.not_mem_nil, or_false] at hf
    rcases hf with rfl | rfl <;> exact sndMore_mk _
  · simp at hf

theorem sendInfo_snd_nonneg (run : Bool) (nSel : Nat) (e : Env) : 0 ≤ (sendInfo run nSel e).2 := by
  unfold sendInfo
  split_ifs <;> simp

theorem sendECS_snd_ge (d : Decls) (e : Env) (doIt : Bool) (ecs : List Nat) (nSel n : Nat)
    (nSent : Int) : nSent ≤ (sendECS d e doIt ecs nSel n nSent).2 := by
  unfold sendECS
  split_ifs <;> simp

theorem sndMore_zero (b : Buf) : (⟨b, 0⟩ : Frame).sndMore = false := by
  simp [Frame.sndMore]

theorem sndMore_dontWait (b : Buf) : (⟨b, ZMQ_DONTWAIT⟩ : Frame).sndMore = false := by
  simp [Frame.sndMore, ZMQ_SNDMORE, ZMQ_DONTWAIT]

theorem sendStage_multipart (d : Decls) (s : AliHLTZMQsink) (e : Env) (req : RequestLocals)
    (blocks : List AliHLTComponentBlockData) (hsend : ∀ n, 0 ≤ e.sendRc n)
    (hne : (sendStage d s e req blocks).sent ≠ []) :
    ∃ pre last, (sendStage d s e req blocks).sent = pre ++ [last] ∧
      (∀ f ∈ pre, f.sndMore = true) ∧ last.sndMore = false ∧
      last.buf =
        match (sendStage d s e req blocks).selectedBlockIdx.getLast? with
        | some idx => Buf.payload (blocks.getD idx default).fPtr
        | none =>
          if (s.fSendECSparamString || req.doSendECSparamString) = true then
            Buf.tstring (sendStage d s e req blocks).sink.fECSparamString
          else Buf.null := by
  have hflag : ∀ b : Buf, (⟨b, if s.fZMQneverBlock then ZMQ_DONTWAIT else 0⟩ : Frame).sndMore = false := by
    intro b
    cases s.fZMQneverBlock
    · exact sndMore_zero b
    · exact sndMore_dontWait b
  revert hne
  simp only [sendStage]
  generalize selectBlocks d e s.fIncludePrivateBlocks req 0 blocks s.fECSparamString = sel
  generalize (s.fSendECSparamString || req.doSendECSparamString) = doIt
  intro hne
  by_cases hsel : sel.selectedBlockIdx = []
  · have hinfo : sendInfo s.fSendRunNumber 0 e = ([], 0) := by
      simp [sendInfo]
    simp only [hsel, List.length_nil, hinfo, List.nil_append, sendBlocks, List.getLast?_nil,
      Nat.zero_add, Nat.add_zero] at hne ⊢
    cases doIt with
    | true =>
      have h1 : e.sendRc (0 + 1) ≥ 0 := hsend _
      refine ⟨[⟨Buf.topicOfDataType d.kAliHLTDataTypeECSParam, ZMQ_SNDMORE⟩],
        ⟨Buf.tstring sel.fECSparamString, 0⟩, ?_, ?_, sndMore_zero _, ?_⟩
      · simp [sendECS, sendDummy, h1]
      · intro f hf
        rw [List.mem_singleton] at hf
        subst hf
        exact sndMore_mk _
      · simp
    | false =>
      by_cases hrep : s.fZMQsocketType = ZMQ_REP
      · refine ⟨[⟨Buf.null, ZMQ_SNDMORE⟩], ⟨Buf.null, 0⟩, ?_, ?_, sndMore_zero _, ?_⟩
        · simp [sendECS, sendDummy, hrep]
        · intro f hf
          rw [List.mem_singleton] at hf
          subst hf
          exact sndMore_mk _
        · simp
      · exfalso
        apply hne
        simp [sendECS, sendDummy, hrep]
  · have h3 := sendInfo_snd_nonneg s.fSendRunNumber sel.selectedBlockIdx.length e
    have hI := sendInfo_sndMore s.fSendRunNumber sel.selectedBlockIdx.length e
    revert h3 hI
    generalize sendInfo s.fSendRunNumber sel.selectedBlockIdx.length e = info
    intro h3 hI
    have h2 := sendECS_snd_ge d e doIt sel.fECSparamString sel.selectedBlockIdx.length
      info.1.length info.2
    have hlen : sel.selectedBlockIdx.length ≠ 0 := by
      intro h; exact hsel (List.length_eq_zero.mp h)
    have hE : ∀ f ∈ (sendECS d e doIt sel.fECSparamString sel.selectedBlockIdx.length
        info.1.length info.2).1, f.sndMore = true := by
      intro f hf
      rw [sendECS_fst] at hf
      split_ifs at hf
      · simp only [List.mem_cons, List.mem_singleton, List.not_mem_nil, or_false] at hf
        rcases hf with rfl | rfl
        · exact sndMore_mk _
        · exact sndMore_mk _
      · simp at hf
    revert h2 hE
    generalize sendECS d e doIt sel.fECSparamString sel.selectedBlockIdx.length
      info.1.length info.2 = ecs
    intro h2 hE
    obtain ⟨pre, hpre, hmore⟩ := sendBlocks_frames_shape s.fZMQneverBlock s.fZMQerrorMsgSkip
      e.sendRc blocks sel.selectedBlockIdx.length sel.selectedBlockIdx 0
      (info.1.length + ecs.1.length) ecs.2 s.fNskippedErrorMessages hsel (by simp)
    have hnS := sendBlocks_nSent_succ s.fZMQneverBlock s.fZMQerrorMsgSkip
      e.sendRc blocks sel.selectedBlockIdx.length hsend sel.selectedBlockIdx 0
      (info.1.length + ecs.1.length) ecs.2 s.fNskippedErrorMessages hsel
    revert hpre hnS hne
    generalize sendBlocks s.fZMQneverBlock s.fZMQerrorMsgSkip
      e.sendRc blocks sel.selectedBlockIdx.length 0 sel.selectedBlockIdx
      (info.1.length + ecs.1.length) ecs.2 s.fNskippedErrorMessages = blk
    intro hne hpre hnS
    have hD : ∀ m, (sendDummy s.fZMQsocketType e m blk.nSentBlocks).1 = [] := by
      intro m
      rw [sendDummy_fst, if_neg]
      intro h
      omega
    refine ⟨info.1 ++ ecs.1 ++ pre,
      ⟨Buf.payload (blocks.getD (sel.selectedBlockIdx.getLast hsel) default).fPtr,
        if s.fZMQneverBlock then ZMQ_DONTWAIT else 0⟩, ?_, ?_, hflag _, ?_⟩
    · rw [hpre, hD]
      simp only [List.append_nil, List.append_assoc]
    · intro f hf
      simp only [List.mem_append] at hf
      rcases hf with (hf | hf) | hf
      · exact hI f hf
      · exact hE f hf
      · exact hmore f hf
    · rw [List.getLast?_eq_getLast _ hsel]

/-! ## Bounded error logging (C24) -/

/-- C24, as stated, fails: for a publish sink with `ZMQerrorMsgSkip` 2 and the
counter at 0, an event of two blocks whose sends all fail logs nothing and
leaves the counter at 2, so the second failure is not logged; with three
blocks the only warning is the one of the third failure (loop index 2). -/
theorem DoProcessing_second_failure_not_logged :
    exampleSkipSink.fZMQerrorMsgSkip = 2 ∧ exampleSkipSink.fNskippedErrorMessages = 0 ∧
    (DoProcessing exampleDecls exampleSkipSink (exampleEnv 0 (-1) 42)
      [exampleBlock 10 7 [97], exampleBlock 11 7 [98]] []).warnings = [] ∧
    (DoProcessing exampleDecls exampleSkipSink (exampleEnv 0 (-1) 42)
      [exampleBlock 10 7 [97], exampleBlock 11 7 [98]] []).sink.fNskippedErrorMessages = 2 ∧
    (DoProcessing exampleDecls exampleSkipSink (exampleEnv 0 (-1) 42)
      [exampleBlock 10 7 [97], exampleBlock 11 7 [98], exampleBlock 12 7 [99]] []).warnings =
      [Warning.dataFrame 2] ∧
    (DoProcessing exampleDecls exampleSkipSink (exampleEnv 0 (-1) 42)
      [exampleBlock 10 7 [97], exampleBlock 11 7 [98], exampleBlock 12 7 [99]]
      []).sink.fNskippedErrorMessages = 0 := by
  set_option maxRecDepth 10000 in decide

/-- C24, amended: in the send loop with skip count `N ≥ 0` and the counter
starting at `c0` with `0 ≤ c0 ≤ N`, pass `j` logs a warning exactly when its
payload send fails and `c0` plus the number of failed payload sends up to and
including pass `j` is a multiple of `N + 1`; the counter after the loop is
`c0` plus the number of failed payload sends, modulo `N + 1`; every warning of
the loop belongs to one of its passes.  With `c0 = 0` the failures logged are
the ones numbered `N + 1`, `2 (N + 1)`, ..., the counter is 0 after each of
them, and a successful send neither logs nor changes the counter. -/
theorem sendBlocks_warns_after_skipping (nb : Bool) (N : Int) (rc : Nat → Int)
    (blocks : List AliHLTComponentBlockData) (nSel : Nat) (sel : List Nat) (iSel n : Nat)
    (nSent c0 : Int) (hN : 0 ≤ N) (h0 : 0 ≤ c0) (h1 : c0 ≤ N) :
    (sendBlocks nb N rc blocks nSel iSel sel n nSent c0).fNskippedErrorMessages =
      (c0 + (failedPayloadSends rc n sel.length : Nat)) % (N + 1) ∧
    (∀ w ∈ (sendBlocks nb N rc blocks nSel iSel sel n nSent c0).warnings,
      ∃ j, j < sel.length ∧ w = Warning.dataFrame (iSel + j)) ∧
    (∀ j, j < sel.length →
      (Warning.dataFrame (iSel + j) ∈
          (sendBlocks nb N rc blocks nSel iSel sel n nSent c0).warnings ↔
        rc (n + 2 * j + 1) < 0 ∧
          (c0 + (failedPayloadSends rc n (j + 1) : Nat)) % (N + 1) = 0)) :=
  ⟨(sendBlocks_skipped nb N rc blocks nSel hN sel iSel n nSent c0 h0 h1).1,
    sendBlocks_warnings_index nb N rc blocks nSel sel iSel n nSent c0,
    (sendBlocks_skipped nb N rc blocks nSel hN sel iSel n nSent c0 h0 h1).2⟩

/-- C24, amended, at skip count 2 with six failing sends from counter 0: the
counter ends at 0, the third failure (loop index 2) is logged and the second
(loop index 1) is not. -/
theorem sendBlocks_warns_after_skipping_witness :
    (sendBlocks true 2 (fun _ => -1) [] 6 0 [0, 1, 2, 3, 4, 5] 0 0 0).fNskippedErrorMessages = 0 ∧
    Warning.dataFrame 2 ∈
      (sendBlocks true 2 (fun _ => -1) [] 6 0 [0, 1, 2, 3, 4, 5] 0 0 0).warnings ∧
    Warning.dataFrame 1 ∉
      (sendBlocks true 2 (fun _ => -1) [] 6 0 [0, 1, 2, 3, 4, 5] 0 0 0).warnings :=
  have h := sendBlocks_warns_after_skipping true 2 (fun _ => -1) [] 6 [0, 1, 2, 3, 4, 5] 0 0 0 0
    (by decide) (by decide) (by decide)
  ⟨h.1.trans (by decide), (h.2.2 2 (by decide)).2 (by decide),
    fun hm => absurd ((h.2.2 1 (by decide)).1 hm).2 (by decide)⟩

/-! ## Multipart framing (C25) -/

/-- C25: in a cycle in which every send succeeds and at least one frame is
emitted, the frames are `pre ++ [last]` where every frame of `pre` carries
`ZMQ_SNDMORE` and `last` does not; `last` is the payload of the last selected
block, or, when no block is selected, the ECS parameter payload if the ECS
frames are sent and the second part of the empty reply otherwise. -/
theorem DoProcessing_multipart_well_formed (d : Decls) (s : AliHLTZMQsink) (e : Env)
    (blocks out : List AliHLTComponentBlockData) (hsend : ∀ n, 0 ≤ e.sendRc n)
    (hne : (DoProcessing d s e blocks out).sent ≠ []) :
    ∃ pre last, (DoProcessing d s e blocks out).sent = pre ++ [last] ∧
      (∀ f ∈ pre, f.sndMore = true) ∧ last.sndMore = false ∧
      last.buf =
        match (DoProcessing d s e blocks out).selectedBlockIdx.getLast? with
        | some idx => Buf.payload (blocks.getD idx default).fPtr
        | none =>
          if (s.fSendECSparamString || (pollStage d s e).2.doSendECSparamString) = true then
            Buf.tstring (DoProcessing d s e blocks out).sink.fECSparamString
          else Buf.null := by
  by_cases h : gateStage s e (pollStage d s e).1 = true
  · rw [DoProcessing_of_doSend d s e blocks out h] at hne ⊢
    exact sendStage_multipart d s e _ blocks hsend hne
  · rw [DoProcessing_of_not_doSend d s e blocks out (by simpa using h)] at hne
    exact absurd rfl hne

/-- C25 on the two-block publish example: five frames with `ZMQ_SNDMORE`, then
the payload of the last block without it. -/
theorem DoProcessing_multipart_well_formed_witness :
    ∃ pre last, (DoProcessing exampleDecls (ctor 0) (exampleEnv 0 0 42)
        [exampleBlock 10 7 [97], exampleBlock 11 7 [98]] []).sent = pre ++ [last] ∧
      (∀ f ∈ pre, f.sndMore = true) ∧ last.sndMore = false ∧
      last.buf = Buf.payload [98] :=
  have h := DoProcessing_multipart_well_formed exampleDecls (ctor 0) (exampleEnv 0 0 42)
    [exampleBlock 10 7 [97], exampleBlock 11 7 [98]] [] (fun _ => le_refl _) (by decide)
  h

/-! ## Non-blocking sends (C26) -/

/-- C26: a freshly constructed sink has `ZMQneverBlock` on, and for an event of
two blocks the payload of the first, non-final block is sent with
`ZMQ_SNDMORE` alone: line 302 overwrites the `ZMQ_DONTWAIT` that line 301 put
into `flags`.  Only the payload of the final block carries `ZMQ_DONTWAIT`. -/
theorem DoProcessing_neverBlock_nonfinal_payload :
    (ctor 0).fZMQneverBlock = true ∧
    (DoProcessing exampleDecls (ctor 0) (exampleEnv 0 0 42)
      [exampleBlock 10 7 [97], exampleBlock 11 7 [98]] []).sent.filter Frame.isPayload =
      [⟨Buf.payload [97], ZMQ_SNDMORE⟩, ⟨Buf.payload [98], ZMQ_DONTWAIT⟩] ∧
    ((DoProcessing exampleDecls (ctor 0) (exampleEnv 0 0 42)
      [exampleBlock 10 7 [97], exampleBlock 11 7 [98]] []).sent.filter Frame.isPayload).map
      Frame.dontWait = [false, true] := by
  set_option maxRecDepth 10000 in decide

end HLT

namespace HLT

open AliHLTHOMERProxyHandler

/-! ## The receive loop -/

theorem recvLoop_cons (ev : RecvRaw) (rest : List RecvRaw) (line : List Char)
    (isXmlRpc : Bool) (response : List Char) (n : Nat) :
    recvLoop (ev :: rest) line isXmlRpc response n =
      if ev.rc < 0 then { outcome := some (ev.rc, response), nRecv := n + 1 }
      else if bufferSize ≤ line.length then { outcome := none, nRecv := n + 1 }
      else if ev.rc = 0 then { outcome := none, nRecv := n + 1 }
      else if ev.byte = lineFeed then
        if line.takeWhile (fun c => c != nul) = methodResponseEnd then
          { outcome := some (0,
              if (isXmlRpc || beginsWithXml (line.takeWhile (fun c => c != nul))) = true
              then response ++ line.takeWhile (fun c => c != nul) else response),
            nRecv := n + 1 }
        else recvLoop rest [] (isXmlRpc || beginsWithXml (line.takeWhile (fun c => c != nul)))
          (if (isXmlRpc || beginsWithXml (line.takeWhile (fun c => c != nul))) = true
            then response ++ line.takeWhile (fun c => c != nul) else response) (n + 1)
      else recvLoop rest (line ++ [ev.byte]) isXmlRpc response (n + 1) := by
  rfl

theorem recvLoop_chars (rest : List RecvRaw) (isXmlRpc : Bool) (response : List Char) :
    ∀ (cs line : List Char) (n : Nat),
      (∀ c ∈ cs, c ≠ lineFeed) → line.length + cs.length ≤ bufferSize →
      recvLoop (cs.map received ++ rest) line isXmlRpc response n =
        recvLoop rest (line ++ cs) isXmlRpc response (n + cs.length) := by
  intro cs
  induction cs with
  | nil => intro line n _ _; simp
  | cons c cs ih =>
    intro line n hlf hlen
    have hc : c ≠ lineFeed := hlf c (List.mem_cons_self _ _)
    have hcs : ∀ c0 ∈ cs, c0 ≠ lineFeed := fun c0 h0 => hlf c0 (List.mem_cons_of_mem _ h0)
    simp only [List.length_cons] at hlen
    have h1 : ¬ bufferSize ≤ line.length := by omega
    rw [List.map_cons, List.cons_append, recvLoop_cons]
    simp only [received]
    rw [if_neg (by decide), if_neg h1, if_neg (by decide), if_neg hc]
    rw [ih (line ++ [c]) (n + 1) hcs (by simp only [List.length_append, List.length_singleton]; omega)]
    simp only [List.append_assoc, List.singleton_append, List.length_cons]
    congr 1
    omega

theorem recvLoop_line (rest : List RecvRaw) (isXmlRpc : Bool) (response l : List Char)
    (n : Nat) (hl : cLine l) :
    recvLoop (wire [l] ++ rest) [] isXmlRpc response n =
      if l = methodResponseEnd then
        { outcome := some (0, if (isXmlRpc || beginsWithXml l) = true then response ++ l
            else response),
          nRecv := n + l.length + 1 }
      else recvLoop rest [] (isXmlRpc || beginsWithXml l)
        (if (isXmlRpc || beginsWithXml l) = true then response ++ l else response)
        (n + l.length + 1) := by
  obtain ⟨hlf, hnul, hlen⟩ := hl
  have htake : l.takeWhile (fun c => c != nul) = l := by
    rw [List.takeWhile_eq_self_iff]
    intro c hc
    simpa using hnul c hc
  have hb : ¬ bufferSize ≤ l.length := by omega
  simp only [wire, List.flatMap_cons, List.flatMap_nil, List.append_nil, List.append_assoc]
  rw [recvLoop_chars _ isXmlRpc response l [] n hlf (by simp only [List.length_nil]; omega)]
  rw [List.singleton_append, recvLoop_cons]
  simp only [received, List.nil_append, htake]
  rw [if_neg (by decide), if_neg hb, if_neg (by decide), if_pos trivial]

theorem wire_cons (l : List Char) (ls : List (List Char)) : wire (l :: ls) = wire [l] ++ wire ls := by
  simp [wire]

theorem wire_append (ls ms : List (List Char)) : wire (ls ++ ms) = wire ls ++ wire ms := by
  simp [wire]

theorem wire_singleton_length (l : List Char) : (wire [l]).length = l.length + 1 := by
  simp [wire]

theorem beginsWithXml_ne_end (l : List Char) (h : beginsWithXml l = true) :
    l ≠ methodResponseEnd := by
  intro he
  rw [he] at h
  revert h
  decide

theorem recvLoop_skip (rest : List RecvRaw) :
    ∀ (pre : List (List Char)) (n : Nat),
      (∀ l ∈ pre, cLine l ∧ beginsWithXml l = false ∧ l ≠ methodResponseEnd) →
      recvLoop (wire pre ++ rest) [] false [] n =
        recvLoop rest [] false [] (n + (wire pre).length) := by
  intro pre
  induction pre with
  | nil => intro n _; simp [wire]
  | cons l ls ih =>
    intro n h
    obtain ⟨hl, hx, he⟩ := h l (List.mem_cons_self _ _)
    rw [wire_cons, List.append_assoc, recvLoop_line _ _ _ _ _ hl, if_neg he]
    simp only [hx, Bool.or_false, Bool.false_eq_true, if_false]
    rw [ih _ (fun l0 h0 => h l0 (List.mem_cons_of_mem _ h0))]
    simp only [List.length_append, wire_singleton_length]
    congr 1
    omega

theorem recvLoop_accumulate (rest : List RecvRaw) :
    ∀ (mid : List (List Char)) (response : List Char) (n : Nat),
      (∀ l ∈ mid, cLine l ∧ l ≠ methodResponseEnd) →
      recvLoop (wire mid ++ rest) [] true response n =
        recvLoop rest [] true (response ++ mid.flatten) (n + (wire mid).length) := by
  intro mid
  induction mid with
  | nil => intro response n _; simp [wire]
  | cons l ls ih =>
    intro response n h
    obtain ⟨hl, he⟩ := h l (List.mem_cons_self _ _)
    rw [wire_cons, List.append_assoc, recvLoop_line _ _ _ _ _ hl, if_neg he]
    simp only [Bool.true_or, if_true]
    rw [ih _ _ (fun l0 h0 => h l0 (List.mem_cons_of_mem _ h0))]
    simp only [List.length_append, wire_singleton_length, List.flatten_cons, List.append_assoc]
    congr 1
    omega

theorem recvLoop_envelope (rest : List RecvRaw) (pre mid : List (List Char)) (x : List Char)
    (hpre : ∀ l ∈ pre, cLine l ∧ beginsWithXml l = false ∧ l ≠ methodResponseEnd)
    (hx : cLine x ∧ beginsWithXml x = true)
    (hmid : ∀ l ∈ mid, cLine l ∧ l ≠ methodResponseEnd) :
    recvLoop (wire (pre ++ x :: mid ++ [methodResponseEnd]) ++ rest) [] false [] 0 =
      { outcome := some (0, x ++ mid.flatten ++ methodResponseEnd),
        nRecv := (wire (pre ++ x :: mid ++ [methodResponseEnd])).length } := by
  have hend : cLine methodResponseEnd := by decide
  have e1 : wire (pre ++ x :: mid ++ [methodResponseEnd]) ++ rest =
      wire pre ++ (wire [x] ++ (wire mid ++ (wire [methodResponseEnd] ++ rest))) := by
    rw [show pre ++ x :: mid ++ [methodResponseEnd] = pre ++ ([x] ++ (mid ++ [methodResponseEnd]))
      from by simp]
    simp only [wire_append, List.append_assoc]
  have e2 : (wire (pre ++ x :: mid ++ [methodResponseEnd])).length =
      (wire pre).length + (x.length + 1) + (wire mid).length + (methodResponseEnd.length + 1) := by
    rw [show pre ++ x :: mid ++ [methodResponseEnd] = pre ++ ([x] ++ (mid ++ [methodResponseEnd]))
      from by simp]
    simp only [wire_append, List.length_append, wire_singleton_length]
    omega
  rw [e1, recvLoop_skip _ pre 0 hpre, recvLoop_line _ _ _ _ _ hx.1,
    if_neg (beginsWithXml_ne_end x hx.2)]
  simp only [hx.2, Bool.or_true, if_true, List.nil_append]
  rw [recvLoop_accumulate _ mid x _ hmid, recvLoop_line _ _ _ _ _ hend, if_pos rfl, e2]
  simp only [Bool.true_or, if_true, Nat.zero_add]
  congr 1

theorem reqMsg_length : (reqMsg.length : Int) = 269 := by
  set_option maxRecDepth 10000 in decide

theorem exchange_of_sent (h : AliHLTHOMERProxyHandler) (e : ProxyEnv) (attempts : List Int)
    (hsend : e.sendRaw = reqMsg.length) :
    exchange h e attempts =
      { attempts := attempts, sendCalled := true,
        nRecv := (recvLoop e.recv [] false [] 0).nRecv,
        outcome := (recvLoop e.recv [] false [] 0).outcome.map
          (fun p => (p.1, { h with fXmlRpcResponse := p.2 })) } := by
  have hs : ¬ (e.sendRaw < 1 ∨ e.sendRaw ≠ (reqMsg.length : Int)) := by
    rw [hsend, reqMsg_length]
    decide
  unfold exchange
  rw [if_neg hs]

theorem RequestXmlRpcResponse_of_connected (h : AliHLTHOMERProxyHandler) (e : ProxyEnv)
    (hconn : e.connect 0 = true ∨ e.connect 1 = true) (hsend : e.sendRaw = reqMsg.length) :
    ∃ fRealm : Int,
      (RequestXmlRpcResponse h e).outcome =
        (recvLoop e.recv [] false [] 0).outcome.map
          (fun p => (p.1, { h with fRealm := fRealm, fXmlRpcResponse := p.2 })) ∧
      (RequestXmlRpcResponse h e).nRecv = (recvLoop e.recv [] false [] 0).nRecv := by
  cases h0 : e.connect 0
  · have h1 : e.connect 1 = true := by
      rcases hconn with hc | hc
      · rw [h0] at hc; cases hc
      · exact hc
    refine ⟨h.fRealm + kHOMERRealmsMax, ?_, ?_⟩ <;>
      simp only [RequestXmlRpcResponse, h0, h1, if_true, Bool.false_eq_true, if_false,
        exchange_of_sent _ e _ hsend]
  · refine ⟨h.fRealm, ?_, ?_⟩ <;>
      simp only [RequestXmlRpcResponse, h0, if_true, exchange_of_sent _ e _ hsend]

theorem recvLoop_outcome_count :
    ∀ (evs : List RecvRaw) (line : List Char) (isXmlRpc : Bool) (response : List Char)
      (n m : Nat),
      (recvLoop evs line isXmlRpc response n).outcome =
        (recvLoop evs line isXmlRpc response m).outcome := by
  intro evs
  induction evs with
  | nil => intro line isXmlRpc response n m; rfl
  | cons ev rest ih =>
    intro line isXmlRpc response n m
    rw [recvLoop_cons, recvLoop_cons]
    split_ifs <;> first | rfl | exact ih _ _ _ _ _

theorem recvLoop_lines (rest : List RecvRaw) :
    ∀ (lines : List (List Char)) (isXmlRpc : Bool) (response : List Char) (n : Nat),
      (∀ l ∈ lines, cLine l ∧ l ≠ methodResponseEnd) →
      ∃ (isXmlRpc1 : Bool) (response1 : List Char),
        recvLoop (wire lines ++ rest) [] isXmlRpc response n =
          recvLoop rest [] isXmlRpc1 response1 (n + (wire lines).length) := by
  intro lines
  induction lines with
  | nil => intro isXmlRpc response n _; exact ⟨isXmlRpc, response, by simp [wire]⟩
  | cons l ls ih =>
    intro isXmlRpc response n h
    obtain ⟨hl, he⟩ := h l (List.mem_cons_self _ _)
    obtain ⟨x1, r1, h1⟩ := ih (isXmlRpc || beginsWithXml l)
      (if (isXmlRpc || beginsWithXml l) = true then response ++ l else response)
      (n + l.length + 1) (fun l0 h0 => h l0 (List.mem_cons_of_mem _ h0))
    refine ⟨x1, r1, ?_⟩
    rw [wire_cons, List.append_assoc, recvLoop_line _ _ _ _ _ hl, if_neg he, h1]
    simp only [List.length_append, wire_singleton_length]
    congr 1
    omega

theorem RequestXmlRpcResponse_fSourceList (h : AliHLTHOMERProxyHandler) (e : ProxyEnv)
    (r : Int) (h1 : AliHLTHOMERProxyHandler)
    (hr : (RequestXmlRpcResponse h e).outcome = some (r, h1)) :
    h1.fSourceList = h.fSourceList := by
  unfold RequestXmlRpcResponse exchange at hr
  split_ifs at hr
  all_goals first
    | (simp only [Option.some.injEq, Prod.mk.injEq] at hr
       rw [← hr.2])
    | (simp only [Option.map_eq_some', Prod.mk.injEq] at hr
       obtain ⟨p, _, _, hp⟩ := hr
       rw [← hp])

theorem RequestXmlRpcResponse_outcome_congr (h : AliHLTHOMERProxyHandler) (e e0 : ProxyEnv)
    (hc : e.connect = e0.connect) (hs : e.sendRaw = e0.sendRaw)
    (hr : (recvLoop e.recv [] false [] 0).outcome = (recvLoop e0.recv [] false [] 0).outcome) :
    (RequestXmlRpcResponse h e).outcome = (RequestXmlRpcResponse h e0).outcome := by
  unfold RequestXmlRpcResponse exchange
  rw [hc, hs, hr]
  split_ifs <;> rfl

/-! ## Connection attempts (C15) -/

/-- C15: one call of `RequestXmlRpcResponse` creates at most two sockets: the
first to the table entry `fRealm`, and only when that one is not valid a
second one to the entry `fRealm + kHOMERRealmsMax`.  When both are invalid
the call returns -1 without sending the request or reading anything.  For
each of the four realms both table entries exist. -/
theorem RequestXmlRpcResponse_connection_attempts (h : AliHLTHOMERProxyHandler)
    (e : ProxyEnv) :
    (RequestXmlRpcResponse h e).attempts.length ≤ 2 ∧
    (e.connect 0 = true → (RequestXmlRpcResponse h e).attempts = [h.fRealm]) ∧
    (e.connect 0 = false →
      (RequestXmlRpcResponse h e).attempts = [h.fRealm, h.fRealm + kHOMERRealmsMax]) ∧
    (e.connect 0 = false → e.connect 1 = false →
      (RequestXmlRpcResponse h e).outcome = some (-1, { h with fRealm := -1 }) ∧
      (RequestXmlRpcResponse h e).sendCalled = false ∧
      (RequestXmlRpcResponse h e).nRecv = 0) ∧
    (∀ realm ∈ [kHLT, kACR, kGPN, kKIP],
      (proxyNodeAt realm).isSome = true ∧
      (proxyNodeAt (realm + kHOMERRealmsMax)).isSome = true) := by
  have hatt : ∀ (h0 : AliHLTHOMERProxyHandler) (a : List Int), (exchange h0 e a).attempts = a := by
    intro h0 a
    unfold exchange
    split_ifs <;> rfl
  refine ⟨?_, ?_, ?_, ?_, by decide⟩
  · unfold RequestXmlRpcResponse
    split_ifs
    · rw [hatt]; simp
    · rw [hatt]; simp
    · simp
  · intro h0
    unfold RequestXmlRpcResponse
    rw [if_pos h0, hatt]
  · intro h0
    unfold RequestXmlRpcResponse
    rw [if_neg (by simp [h0])]
    split_ifs
    · rw [hatt]
    · rfl
  · intro h0 h1
    unfold RequestXmlRpcResponse
    rw [if_neg (by simp [h0]), if_neg (by simp [h1])]
    exact ⟨rfl, rfl, rfl⟩

/-! ## Response accumulation (C16) -/

/-- C16, refuted as stated: the lines `<?xml`, NUL, `junk` and
`</methodResponse>` are received; the stored response is
`<?xml</methodResponse>`, which is not the concatenation of the two lines. -/
theorem RequestXmlRpcResponse_line_with_nul :
    beginsWithXml exampleNulLine = true ∧
    (RequestXmlRpcResponse ctor (exampleLinesEnv [exampleNulLine, methodResponseEnd])).outcome =
      some (0, { ctor with fXmlRpcResponse := "<?xml</methodResponse>".toList }) ∧
    "<?xml</methodResponse>".toList ≠ exampleNulLine ++ methodResponseEnd := by
  set_option maxRecDepth 10000 in decide

/-- C16, amended: the received lines are free of NUL characters and fit the
line buffer.  If they are some lines that neither begin with `<?xml` nor equal
`</methodResponse>`, then a line beginning with `<?xml`, then lines other than
`</methodResponse>`, then the line `</methodResponse>`, the call returns 0, the
stored response is the concatenation of the lines from the `<?xml` line to the
terminator line, and exactly the bytes of these lines were read. -/
theorem RequestXmlRpcResponse_accumulates (h : AliHLTHOMERProxyHandler) (e : ProxyEnv)
    (pre mid : List (List Char)) (x : List Char) (rest : List RecvRaw)
    (hconn : e.connect 0 = true ∨ e.connect 1 = true)
    (hsend : e.sendRaw = reqMsg.length)
    (hrecv : e.recv = wire (pre ++ x :: mid ++ [methodResponseEnd]) ++ rest)
    (hpre : ∀ l ∈ pre, cLine l ∧ beginsWithXml l = false ∧ l ≠ methodResponseEnd)
    (hx : cLine x ∧ beginsWithXml x = true)
    (hmid : ∀ l ∈ mid, cLine l ∧ l ≠ methodResponseEnd) :
    (∃ h1, (RequestXmlRpcResponse h e).outcome = some (0, h1) ∧
      h1.fXmlRpcResponse = x ++ mid.flatten ++ methodResponseEnd) ∧
    (RequestXmlRpcResponse h e).nRecv =
      (wire (pre ++ x :: mid ++ [methodResponseEnd])).length := by
  obtain ⟨fRealm, ho, hn⟩ := RequestXmlRpcResponse_of_connected h e hconn hsend
  rw [hrecv, recvLoop_envelope rest pre mid x hpre hx hmid] at ho hn
  exact ⟨⟨_, ho, rfl⟩, hn⟩

/-- C16 amended, at a response with an HTTP status line in front of a
three-line envelope, followed by bytes that are not read. -/
theorem RequestXmlRpcResponse_accumulates_witness :
    (∃ h1, (RequestXmlRpcResponse ctor
        { connect := fun _ => true, sendRaw := reqMsg.length,
          recv := wire (["HTTP/1.1 200 OK".toList] ++ "<?xml?>".toList ::
            ["<r>none</r>".toList] ++ [methodResponseEnd]) ++ [received lineFeed] }).outcome =
          some (0, h1) ∧
      h1.fXmlRpcResponse = "<?xml?>".toList ++ ["<r>none</r>".toList].flatten ++
        methodResponseEnd) ∧
    (RequestXmlRpcResponse ctor
        { connect := fun _ => true, sendRaw := reqMsg.length,
          recv := wire (["HTTP/1.1 200 OK".toList] ++ "<?xml?>".toList ::
            ["<r>none</r>".toList] ++ [methodResponseEnd]) ++ [received lineFeed] }).nRecv =
      (wire (["HTTP/1.1 200 OK".toList] ++ "<?xml?>".toList ::
        ["<r>none</r>".toList] ++ [methodResponseEnd])).length :=
  RequestXmlRpcResponse_accumulates ctor _ ["HTTP/1.1 200 OK".toList] ["<r>none</r>".toList]
    "<?xml?>".toList [received lineFeed] (Or.inl rfl) rfl rfl
    (by set_option maxRecDepth 10000 in decide)
    (by set_option maxRecDepth 10000 in decide)
    (by set_option maxRecDepth 10000 in decide)

theorem FillSourceList_eq (d : ProxyDecls) (h : AliHLTHOMERProxyHandler) (e : ProxyEnv)
    (src : List AliHLTHOMERSourceDesc) (r : Int) (h1 : AliHLTHOMERProxyHandler)
    (hreq : (RequestXmlRpcResponse { h with fSourceList := src } e).outcome = some (r, h1)) :
    FillSourceList d h e src =
      if r = 0 then ProcessXmlRpcResponse d h1 else some (r, h1) := by
  unfold FillSourceList
  rw [hreq]

/-! ## Malformed responses (C17) -/

/-- C17, refuted as stated: the first line received is `HTTP/1.1 200 OK`, which
is not an envelope start; it is skipped, the envelope that follows is read and
`FillSourceList` returns 1, not a negative value. -/
theorem FillSourceList_first_line_not_envelope :
    beginsWithXml "HTTP/1.1 200 OK".toList = false ∧
    FillSourceList exampleProxyDecls ctor
      (exampleProxyEnv ["HTTP/1.1 200 OK", "<?xml?><r>none</r>", "</methodResponse>"]) [] =
      some (1, { ctor with
        fXmlRpcResponse := "<?xml?><r>none</r></methodResponse>".toList }) := by
  set_option maxRecDepth 10000 in decide

/-- C17, amended: if a read from the proxy returns a negative value before a
line `</methodResponse>` has been read, `FillSourceList` returns that value
and the source list is as the caller passed it.  A line in front of the
response that does not begin with `<?xml` is no error: it is skipped, and the
result is that of the lines after it. -/
theorem FillSourceList_read_error (d : ProxyDecls) (h : AliHLTHOMERProxyHandler)
    (e : ProxyEnv) (src : List AliHLTHOMERSourceDesc) (lines : List (List Char))
    (part : List Char) (rc : Int) (c : Char) (rest : List RecvRaw)
    (hconn : e.connect 0 = true ∨ e.connect 1 = true)
    (hsend : e.sendRaw = reqMsg.length)
    (hrecv : e.recv = wire lines ++ (part.map received ++ { rc := rc, byte := c } :: rest))
    (hrc : rc < 0)
    (hlines : ∀ l ∈ lines, cLine l ∧ l ≠ methodResponseEnd)
    (hpart : (∀ c0 ∈ part, c0 ≠ lineFeed) ∧ part.length ≤ bufferSize) :
    (∃ h1, FillSourceList d h e src = some (rc, h1) ∧ h1.fSourceList = src) ∧
    (∀ (l0 : List Char) (e0 : ProxyEnv),
      cLine l0 → beginsWithXml l0 = false → l0 ≠ methodResponseEnd →
      FillSourceList d h { e0 with recv := wire [l0] ++ e0.recv } src =
        FillSourceList d h e0 src) := by
  constructor
  · obtain ⟨fRealm, ho, _⟩ :=
      RequestXmlRpcResponse_of_connected { h with fSourceList := src } e hconn hsend
    obtain ⟨x1, r1, hl⟩ := recvLoop_lines (part.map received ++ { rc := rc, byte := c } :: rest)
      lines false [] 0 hlines
    rw [hrecv, hl, recvLoop_chars _ _ _ part [] _ hpart.1 (by simpa using hpart.2),
      recvLoop_cons, if_pos hrc] at ho
    have hne : rc ≠ 0 := by omega
    simp only [Option.map_some'] at ho
    exact ⟨_, by rw [FillSourceList_eq d h e src _ _ ho, if_neg hne], rfl⟩
  · intro l0 e0 hl0 hx0 he0
    have hout : (RequestXmlRpcResponse { h with fSourceList := src }
        { e0 with recv := wire [l0] ++ e0.recv }).outcome =
        (RequestXmlRpcResponse { h with fSourceList := src } e0).outcome := by
      refine RequestXmlRpcResponse_outcome_congr _ { e0 with recv := wire [l0] ++ e0.recv } e0
        rfl rfl ?_
      show (recvLoop (wire [l0] ++ e0.recv) [] false [] 0).outcome = _
      rw [recvLoop_line _ _ _ _ _ hl0, if_neg he0]
      simp only [hx0, Bool.or_false, Bool.false_eq_true, if_false]
      exact recvLoop_outcome_count _ _ _ _ _ _
    unfold FillSourceList
    rw [hout]

/-- C17 amended, at a response that breaks off with a read error (-1) in the
middle of its second line. -/
theorem FillSourceList_read_error_witness :
    (∃ h1, FillSourceList exampleProxyDecls ctor
        { connect := fun _ => true, sendRaw := reqMsg.length,
          recv := wire ["<?xml?>".toList] ++
            ("<r>no".toList.map received ++ { rc := -1, byte := nul } :: []) } [] =
          some (-1, h1) ∧ h1.fSourceList = []) ∧
    (∀ (l0 : List Char) (e0 : ProxyEnv),
      cLine l0 → beginsWithXml l0 = false → l0 ≠ methodResponseEnd →
      FillSourceList exampleProxyDecls ctor { e0 with recv := wire [l0] ++ e0.recv } [] =
        FillSourceList exampleProxyDecls ctor e0 []) :=
  FillSourceList_read_error exampleProxyDecls ctor _ [] ["<?xml?>".toList] "<r>no".toList
    (-1) nul [] (Or.inl rfl) rfl rfl (by decide)
    (by set_option maxRecDepth 10000 in decide)
    (by set_option maxRecDepth 10000 in decide)

/-! ## The service loop -/

theorem addServices_cons (d : ProxyDecls) (fRealm : Int) (s m : TXMLNode)
    (rest : List TXMLNode) (src : List AliHLTHOMERSourceDesc) :
    addServices d fRealm s (m :: rest) src =
      match addService d fRealm s with
      | none => none
      | some (iResult, added) =>
        if iResult = 0 then addServices d fRealm m rest (src ++ added.toList)
        else some (iResult, src ++ added.toList) := rfl

theorem addServices_nil (d : ProxyDecls) (fRealm : Int) (s : TXMLNode)
    (src : List AliHLTHOMERSourceDesc) :
    addServices d fRealm s [] src =
      (addService d fRealm s).map (fun r => (r.1, src ++ r.2.toList)) := rfl

theorem addServices_failing (d : ProxyDecls) (fRealm : Int) (bad : TXMLNode)
    (post : List TXMLNode) (src : List AliHLTHOMERSourceDesc) (r : Int)
    (o : Option AliHLTHOMERSourceDesc)
    (hbad : addService d fRealm bad = some (r, o)) (hr : r ≠ 0) :
    addServices d fRealm bad post src = some (r, src ++ o.toList) := by
  cases post with
  | nil => rw [addServices_nil, hbad]; rfl
  | cons m rest => rw [addServices_cons, hbad]; simp only [if_neg hr]

theorem addServices_stops (d : ProxyDecls) (fRealm : Int) (bad : TXMLNode)
    (post : List TXMLNode) (r : Int) (o : Option AliHLTHOMERSourceDesc)
    (hbad : addService d fRealm bad = some (r, o)) (hr : r ≠ 0) :
    ∀ (pre : List TXMLNode) (s : TXMLNode) (next : List TXMLNode)
      (src : List AliHLTHOMERSourceDesc),
      s :: next = pre ++ bad :: post →
      (∀ p ∈ pre, ∃ a, addService d fRealm p = some (0, a)) →
      addServices d fRealm s next src =
        some (r, src ++ pre.filterMap (fun p => (addService d fRealm p).bind Prod.snd) ++
          o.toList) := by
  intro pre
  induction pre with
  | nil =>
    intro s next src heq _
    simp only [List.nil_append, List.cons.injEq] at heq
    rw [heq.1, heq.2, addServices_failing d fRealm bad post src r o hbad hr]
    simp
  | cons p pre ih =>
    intro s next src heq hpre
    simp only [List.cons_append, List.cons.injEq] at heq
    obtain ⟨a, ha⟩ := hpre p (List.mem_cons_self _ _)
    have hnext : ∃ m rest, next = m :: rest ∧ m :: rest = pre ++ bad :: post := by
      rw [heq.2]
      cases pre with
      | nil => exact ⟨bad, post, rfl, rfl⟩
      | cons q qs => exact ⟨q, qs ++ bad :: post, rfl, rfl⟩
    obtain ⟨m, rest, hn, hm⟩ := hnext
    rw [heq.1, hn, addServices_cons, ha]
    simp only [if_true]
    rw [ih m rest _ hm (fun q hq => hpre q (List.mem_cons_of_mem _ hq))]
    simp only [List.filterMap_cons, ha, Option.bind_some]
    cases a <;> simp

theorem addServices_extends (d : ProxyDecls) (fRealm : Int) :
    ∀ (next : List TXMLNode) (s : TXMLNode) (src : List AliHLTHOMERSourceDesc) (r : Int)
      (l : List AliHLTHOMERSourceDesc),
      addServices d fRealm s next src = some (r, l) → ∃ added, l = src ++ added := by
  intro next
  induction next with
  | nil =>
    intro s src r l h
    rw [addServices_nil] at h
    simp only [Option.map_eq_some', Prod.mk.injEq] at h
    obtain ⟨p, _, _, hp⟩ := h
    exact ⟨_, hp.symm⟩
  | cons m rest ih =>
    intro s src r l h
    rw [addServices_cons] at h
    cases ha : addService d fRealm s with
    | none => rw [ha] at h; cases h
    | some p =>
      obtain ⟨i, a⟩ := p
      rw [ha] at h
      simp only at h
      split_ifs at h
      · obtain ⟨added, hadd⟩ := ih m _ r l h
        exact ⟨a.toList ++ added, by rw [hadd, List.append_assoc]⟩
      · simp only [Option.some.injEq, Prod.mk.injEq] at h
        exact ⟨_, h.2.symm⟩

theorem ProcessXmlRpcResponse_of_services (d : ProxyDecls) (h : AliHLTHOMERProxyHandler)
    (root s : TXMLNode) (next : List TXMLNode)
    (hparse : parseResponse d h.fXmlRpcResponse = Parsed.services root)
    (hch : root.children = s :: next) :
    ProcessXmlRpcResponse d h =
      (addServices d h.fRealm s next h.fSourceList).map
        (fun r => (r.1, { h with fSourceList := r.2 })) := by
  unfold ProcessXmlRpcResponse
  rw [hparse]
  simp only [hch]

theorem ProcessXmlRpcResponse_extends (d : ProxyDecls) (h h1 : AliHLTHOMERProxyHandler)
    (r : Int) (hp : ProcessXmlRpcResponse d h = some (r, h1)) :
    ∃ added, h1.fSourceList = h.fSourceList ++ added := by
  unfold ProcessXmlRpcResponse at hp
  split at hp
  · simp only [Option.some.injEq, Prod.mk.injEq] at hp
    exact ⟨[], by rw [← hp.2]; simp⟩
  · cases hp
  · split at hp
    · simp only [Option.some.injEq, Prod.mk.injEq] at hp
      exact ⟨[], by rw [← hp.2]; simp⟩
    · simp only [Option.map_eq_some', Prod.mk.injEq] at hp
      obtain ⟨p, hadd, _, hh⟩ := hp
      obtain ⟨added, ha⟩ := addServices_extends d _ _ _ _ p.1 p.2 hadd
      exact ⟨added, by rw [← hh]; exact ha⟩

theorem readProperty_iResult (d : ProxyDecls) (p : ServiceProps) (n : TXMLNode)
    (hp : p.iResult = 0 ∨ p.iResult = -1) :
    (readProperty d p n).iResult = 0 ∨ (readProperty d p n).iResult = -1 := by
  unfold readProperty
  split_ifs <;> first | exact hp | exact Or.inr rfl

theorem readProperties_iResult (d : ProxyDecls) :
    ∀ (next : List TXMLNode) (p : ServiceProps) (n : TXMLNode),
      (p.iResult = 0 ∨ p.iResult = -1) →
      ((readProperties d p n next).iResult = 0 ∨ (readProperties d p n next).iResult = -1) := by
  intro next
  induction next with
  | nil => intro p n hp; exact readProperty_iResult d p n hp
  | cons m rest ih =>
    intro p n hp
    simp only [readProperties]
    split_ifs
    · exact ih _ _ (readProperty_iResult d p n hp)
    · exact readProperty_iResult d p n hp

theorem AddService_adds_iff (d : ProxyDecls) (fRealm : Int) (innerNode : TXMLNode)
    (next : List TXMLNode) (r : Int) (o : Option AliHLTHOMERSourceDesc)
    (h : AddService d fRealm innerNode next = some (r, o)) :
    (o.isSome = true ↔ r ≠ -2) ∧ (r = 0 ∨ r = -1 ∨ r = -2) := by
  unfold AddService at h
  simp only at h
  split at h
  · cases h
  · split_ifs at h
    · simp only [Option.some.injEq, Prod.mk.injEq] at h
      rw [← h.1, ← h.2]
      simp
    · simp only [Option.some.injEq, Prod.mk.injEq] at h
      have hi := readProperties_iResult d next
        { hostname := "", port := 0, dataType := "", dataOrigin := "", dataSpecification := "",
          iResult := 0 } innerNode (Or.inl rfl)
      rw [h.1] at hi
      rw [← h.2]
      refine ⟨by simp; omega, by omega⟩

/-! ## Incomplete service entries (C11) -/

/-- C11, refuted as stated: the response lists a service without a port and
after it a complete service.  The complete one alone would be added with
return value 0, but `FillSourceList` returns -2 and the source list stays
empty: the loop stops at the incomplete entry. -/
theorem FillSourceList_incomplete_then_complete :
    addService exampleProxyDecls kHLT (exampleService "49152") =
      some (0, some { hostname := "portal-dcs0.internal", port := 49152, dataOrigin := "TPC",
                      dataType := "CLUSTERS", dataSpecification := "0" }) ∧
    FillSourceList exampleProxyDecls ctor
      (exampleProxyEnv ["<?xml?><r>bad-good</r>", "</methodResponse>"]) [] =
      some (-2, { ctor with
        fXmlRpcResponse := "<?xml?><r>bad-good</r></methodResponse>".toList }) := by
  set_option maxRecDepth 10000 in decide

/-- C11, amended: `ProcessXmlRpcResponse` stops at the first service entry for
which `AddService` returns a non-zero value, as it does with -2 for an entry
without a usable port.  It returns that value; the sources of the entries
before it, for which `AddService` returned 0, and the one of the failing
entry, if it added one, are in the list, and no entry after it is looked
at, complete or not. -/
theorem ProcessXmlRpcResponse_stops_at_first_failure (d : ProxyDecls)
    (h : AliHLTHOMERProxyHandler) (root bad : TXMLNode) (pre post : List TXMLNode) (r : Int)
    (o : Option AliHLTHOMERSourceDesc)
    (hparse : parseResponse d h.fXmlRpcResponse = Parsed.services root)
    (hch : root.children = pre ++ bad :: post)
    (hpre : ∀ p ∈ pre, ∃ a, addService d h.fRealm p = some (0, a))
    (hbad : addService d h.fRealm bad = some (r, o)) (hr : r ≠ 0) :
    ProcessXmlRpcResponse d h =
      some (r, { h with fSourceList := (h.fSourceList ++
        pre.filterMap (fun p => (addService d h.fRealm p).bind Prod.snd) ++ o.toList) }) := by
  have hne : ∃ s next, pre ++ bad :: post = s :: next := by
    cases pre with
    | nil => exact ⟨bad, post, rfl⟩
    | cons q qs => exact ⟨q, qs ++ bad :: post, rfl⟩
  obtain ⟨s, next, hs⟩ := hne
  rw [ProcessXmlRpcResponse_of_services d h root s next hparse (by rw [hch, hs]),
    addServices_stops d h.fRealm bad post r o hbad hr pre s next h.fSourceList hs.symm hpre]
  rfl

/-- C11 amended, at a response with a complete service, one without a port,
and a complete one again: -2 is returned with the first source only. -/
theorem ProcessXmlRpcResponse_stops_at_first_failure_witness :
    ProcessXmlRpcResponse exampleProxyDecls
      (exampleHandler "<?xml?><r>good-bad-good</r></methodResponse>" kHLT []) =
      some (-2, exampleHandler "<?xml?><r>good-bad-good</r></methodResponse>" kHLT
        [exampleSource "portal-dcs0.internal" 49152]) :=
  ProcessXmlRpcResponse_stops_at_first_failure exampleProxyDecls
    (exampleHandler "<?xml?><r>good-bad-good</r></methodResponse>" kHLT [])
    (TXMLNode.mk "services" ""
      [exampleService "49152", exampleServiceNoPort, exampleService "49153"])
    exampleServiceNoPort [exampleService "49152"] [exampleService "49153"] (-2) none
    (by set_option maxRecDepth 10000 in rfl) rfl
    (fun p hp => by
      rw [List.mem_singleton] at hp
      subst hp
      exact ⟨_, rfl⟩)
    (by set_option maxRecDepth 10000 in decide) (by decide)

/-! ## No active service (C12) -/

/-- C12: when the request succeeds and the response parses to an inner
document whose root has no children, `ProcessXmlRpcResponse` and with it
`FillSourceList` return 1, which is neither 0 nor negative, and the handler
and the source list are as they were. -/
theorem FillSourceList_no_services (d : ProxyDecls) (h h1 : AliHLTHOMERProxyHandler)
    (e : ProxyEnv) (src : List AliHLTHOMERSourceDesc) (root : TXMLNode)
    (hreq : (RequestXmlRpcResponse { h with fSourceList := src } e).outcome = some (0, h1))
    (hparse : parseResponse d h1.fXmlRpcResponse = Parsed.services root)
    (hnone : root.HasChildren = false) :
    ProcessXmlRpcResponse d h1 = some (1, h1) ∧
    FillSourceList d h e src = some (1, h1) ∧
    h1.fSourceList = src ∧ (1 : Int) ≠ 0 ∧ ¬ ((1 : Int) < 0) := by
  have hch : root.children = [] := by
    unfold TXMLNode.HasChildren at hnone
    cases hc : root.children with
    | nil => rfl
    | cons a l => rw [hc] at hnone; simp at hnone
  have hp : ProcessXmlRpcResponse d h1 = some (1, h1) := by
    unfold ProcessXmlRpcResponse
    rw [hparse]
    simp only [hch]
  refine ⟨hp, ?_, ?_, by decide, by decide⟩
  · rw [FillSourceList_eq d h e src 0 h1 hreq, if_pos rfl, hp]
  · exact RequestXmlRpcResponse_fSourceList _ e 0 h1 hreq

/-- C12 at the example response that carries an inner document without
services. -/
theorem FillSourceList_no_services_witness :
    ProcessXmlRpcResponse exampleProxyDecls
      (exampleHandler "<?xml?><r>none</r></methodResponse>" kHLT []) =
      some (1, exampleHandler "<?xml?><r>none</r></methodResponse>" kHLT []) ∧
    FillSourceList exampleProxyDecls ctor
      (exampleProxyEnv ["<?xml?><r>none</r>", "</methodResponse>"]) [] =
      some (1, exampleHandler "<?xml?><r>none</r></methodResponse>" kHLT []) ∧
    (exampleHandler "<?xml?><r>none</r></methodResponse>" kHLT []).fSourceList = [] ∧
    (1 : Int) ≠ 0 ∧ ¬ ((1 : Int) < 0) :=
  FillSourceList_no_services exampleProxyDecls ctor
    (exampleHandler "<?xml?><r>none</r></methodResponse>" kHLT [])
    (exampleProxyEnv ["<?xml?><r>none</r>", "</methodResponse>"]) []
    (TXMLNode.mk "services" "" [])
    (by set_option maxRecDepth 10000 in decide)
    (by set_option maxRecDepth 10000 in rfl) rfl

/-! ## Hostname of an added source (C13) -/

/-- C13 at its failing input: in the home realm `kHLT` a complete service
entry with address `cn101` is added with the hostname of the proxy node,
`portal-dcs0.internal`; the test of line 373 holds for every realm. -/
theorem AddService_overrides_hostname_in_home_realm :
    AddService exampleProxyDecls kHLT (TXMLNode.mk "address" "cn101" [])
      [ TXMLNode.mk "port" "49152" [], TXMLNode.mk "dataorigin" "TPC" [],
        TXMLNode.mk "datatype" "CLUSTERS" [], TXMLNode.mk "dataspecification" "0" [] ] =
      some (0, some { hostname := "portal-dcs0.internal", port := 49152, dataOrigin := "TPC",
                      dataType := "CLUSTERS", dataSpecification := "0" }) ∧
    (∀ fRealm : Int, fRealm ≠ kHLT ∨ fRealm ≠ kHLT + kHOMERRealmsMax) := by
  refine ⟨by set_option maxRecDepth 10000 in decide, fun fRealm => ?_⟩
  simp only [kHLT, kHOMERRealmsMax]
  omega

/-! ## Realm of the local host (C14) -/

/-- C14, refuted as stated: the address `110.162.0.1` does not begin with
`10.162.` and is put in the realm `kHLT`, because it contains `10.162.`. -/
theorem IdentifyRealm_inner_match :
    "110.162.0.1".toList.take 7 ≠ "10.162.".toList ∧
    (ctor.IdentifyRealm "110.162.0.1").fRealm = kHLT := by
  decide

/-- C14, amended: `IdentifyRealm` classifies the host address by the first of
these tests that holds: it contains `10.162.` (HLT); it contains `10.160.` or
`10.161.` (ACR); it contains `129.206.` (KIP); none of them (GPN).  It changes
nothing but `fRealm`. -/
theorem IdentifyRealm_by_contains (h : AliHLTHOMERProxyHandler) (hostIP : String) :
    ((h.IdentifyRealm hostIP).fRealm = kHLT ↔
      containsChars "10.162.".toList hostIP.toList = true) ∧
    ((h.IdentifyRealm hostIP).fRealm = kACR ↔
      containsChars "10.162.".toList hostIP.toList = false ∧
      (containsChars "10.160.".toList hostIP.toList = true ∨
        containsChars "10.161.".toList hostIP.toList = true)) ∧
    ((h.IdentifyRealm hostIP).fRealm = kKIP ↔
      containsChars "10.162.".toList hostIP.toList = false ∧
      containsChars "10.160.".toList hostIP.toList = false ∧
      containsChars "10.161.".toList hostIP.toList = false ∧
      containsChars "129.206.".toList hostIP.toList = true) ∧
    ((h.IdentifyRealm hostIP).fRealm = kGPN ↔
      containsChars "10.162.".toList hostIP.toList = false ∧
      containsChars "10.160.".toList hostIP.toList = false ∧
      containsChars "10.161.".toList hostIP.toList = false ∧
      containsChars "129.206.".toList hostIP.toList = false) ∧
    (h.IdentifyRealm hostIP).fXmlRpcResponse = h.fXmlRpcResponse ∧
    (h.IdentifyRealm hostIP).fSourceList = h.fSourceList := by
  unfold IdentifyRealm
  cases containsChars "10.162.".toList hostIP.toList <;>
    cases containsChars "10.160.".toList hostIP.toList <;>
    cases containsChars "10.161.".toList hostIP.toList <;>
    cases containsChars "129.206.".toList hostIP.toList <;>
    simp [kHLT, kACR, kGPN, kKIP]

/-! ## Repeated discovery (C18) -/

/-- C18 at its failing inputs, from the realm `kHLT` that `IdentifyRealm` sets
for the address `10.162.1.1`.  After a call of `FillSourceList` in which both
sockets are invalid, `fRealm` is -1 and the next call reads the table at the
indices -1 and 3.  After a call that fell back to the secondary node, `fRealm`
is 4 and a next call in which both sockets are invalid reads the table at the
indices 4 and 8.  The table has no entry -1 and no entry 8. -/
theorem FillSourceList_repeated_leaves_table :
    (ctor.IdentifyRealm "10.162.1.1").fRealm = kHLT ∧
    FillSourceList exampleProxyDecls (ctor.IdentifyRealm "10.162.1.1")
      (exampleConnectEnv (fun _ => false)) [] = some (-1, { ctor with fRealm := -1 }) ∧
    (RequestXmlRpcResponse { ctor with fRealm := -1 }
      (exampleConnectEnv (fun _ => false))).attempts = [-1, 3] ∧
    proxyNodeAt (-1) = none ∧
    FillSourceList exampleProxyDecls (ctor.IdentifyRealm "10.162.1.1")
      { exampleProxyEnv ["<?xml?><r>none</r>", "</methodResponse>"] with
        connect := fun n => decide (n = 1) } [] =
      some (1, (exampleHandler "<?xml?><r>none</r></methodResponse>" 4 [])) ∧
    (RequestXmlRpcResponse
      (exampleHandler "<?xml?><r>none</r></methodResponse>" 4 [])
      (exampleConnectEnv (fun _ => false))).attempts = [4, 8] ∧
    proxyNodeAt 8 = none := by
  set_option maxRecDepth 10000 in decide

/-! ## Updates of the source list (C19) -/

/-- C19, refuted as stated: the response lists a complete service, one without
a port, and a complete one again.  `FillSourceList` returns -2 and the list,
empty before the call, holds the source of the first service; that source was
added by a call of `AddService` that returned 0, and the one that returned -2
added none. -/
theorem FillSourceList_partial_update :
    FillSourceList exampleProxyDecls ctor
      (exampleProxyEnv ["<?xml?><r>good-bad-good</r>", "</methodResponse>"]) [] =
      some (-2, (exampleHandler "<?xml?><r>good-bad-good</r></methodResponse>" kHLT
        [exampleSource "portal-dcs0.internal" 49152])) := by
  set_option maxRecDepth 10000 in decide

/-- C19, amended: `FillSourceList` only appends to the source list.  After a
call that returns, the list is the list passed in followed by the sources
added in the service loop.  It is the list passed in when
`RequestXmlRpcResponse` returned a non-zero value, which is then the value
returned, and when the parsing of the response failed.  `AddService` adds a
source exactly when it does not return -2. -/
theorem FillSourceList_appends (d : ProxyDecls) (h h1 : AliHLTHOMERProxyHandler)
    (e : ProxyEnv) (src : List AliHLTHOMERSourceDesc) (r : Int)
    (hfill : FillSourceList d h e src = some (r, h1)) :
    (∃ added, h1.fSourceList = src ++ added) ∧
    (∀ rq h0, (RequestXmlRpcResponse { h with fSourceList := src } e).outcome = some (rq, h0) →
      rq ≠ 0 → r = rq ∧ h1.fSourceList = src) ∧
    (∀ rc, parseResponse d h1.fXmlRpcResponse = Parsed.failed rc → h1.fSourceList = src) ∧
    (∀ (fRealm : Int) (innerNode : TXMLNode) (next : List TXMLNode) (r0 : Int)
      (o : Option AliHLTHOMERSourceDesc),
      AddService d fRealm innerNode next = some (r0, o) → (o.isSome = true ↔ r0 ≠ -2)) := by
  cases hreq : (RequestXmlRpcResponse { h with fSourceList := src } e).outcome with
  | none =>
    unfold FillSourceList at hfill
    rw [hreq] at hfill
    cases hfill
  | some p =>
    obtain ⟨rq, h0⟩ := p
    have hsrc : h0.fSourceList = src := RequestXmlRpcResponse_fSourceList _ e rq h0 hreq
    rw [FillSourceList_eq d h e src rq h0 hreq] at hfill
    refine ⟨?_, ?_, ?_, fun fRealm innerNode next r0 o ha =>
      (AddService_adds_iff d fRealm innerNode next r0 o ha).1⟩
    · split_ifs at hfill
      · obtain ⟨added, ha⟩ := ProcessXmlRpcResponse_extends d h0 h1 r hfill
        exact ⟨added, by rw [ha, hsrc]⟩
      · simp only [Option.some.injEq, Prod.mk.injEq] at hfill
        exact ⟨[], by rw [← hfill.2, hsrc]; simp⟩
    · intro rq0 h00 heq hne
      simp only [Option.some.injEq, Prod.mk.injEq] at heq
      rw [heq.1] at hfill
      rw [if_neg hne] at hfill
      simp only [Option.some.injEq, Prod.mk.injEq] at hfill
      exact ⟨hfill.1.symm, by rw [← hfill.2, hsrc]⟩
    · intro rc hparse
      split_ifs at hfill
      · unfold ProcessXmlRpcResponse at hfill
        split at hfill
        · simp only [Option.some.injEq, Prod.mk.injEq] at hfill
          rw [← hfill.2, hsrc]
        · cases hfill
        · rename_i root hroot
          split at hfill
          · simp only [Option.some.injEq, Prod.mk.injEq] at hfill
            rw [← hfill.2, hsrc]
          · simp only [Option.map_eq_some', Prod.mk.injEq] at hfill
            obtain ⟨p, _, _, hh⟩ := hfill
            rw [← hh] at hparse
            simp only at hparse
            rw [hroot] at hparse
            cases hparse
      · simp only [Option.some.injEq, Prod.mk.injEq] at hfill
        rw [← hfill.2, hsrc]

/-- C19 amended, at the response with a complete service, one without a port,
and a complete one again. -/
theorem FillSourceList_appends_witness :
    (∃ added, ((exampleHandler "<?xml?><r>good-bad-good</r></methodResponse>" kHLT
        [exampleSource "portal-dcs0.internal" 49152]) :
        AliHLTHOMERProxyHandler).fSourceList = [] ++ added) ∧
    (∀ rq h0, (RequestXmlRpcResponse { ctor with fSourceList := [] }
        (exampleProxyEnv ["<?xml?><r>good-bad-good</r>", "</methodResponse>"])).outcome =
          some (rq, h0) →
      rq ≠ 0 → (-2 : Int) = rq ∧
        (exampleHandler "<?xml?><r>good-bad-good</r></methodResponse>" kHLT
          [exampleSource "portal-dcs0.internal" 49152]).fSourceList = []) ∧
    (∀ rc, parseResponse exampleProxyDecls
        (exampleHandler "<?xml?><r>good-bad-good</r></methodResponse>" kHLT
          [exampleSource "portal-dcs0.internal" 49152]).fXmlRpcResponse = Parsed.failed rc →
        (exampleHandler "<?xml?><r>good-bad-good</r></methodResponse>" kHLT
          [exampleSource "portal-dcs0.internal" 49152]).fSourceList = []) ∧
    (∀ (fRealm : Int) (innerNode : TXMLNode) (next : List TXMLNode) (r0 : Int)
      (o : Option AliHLTHOMERSourceDesc),
      AddService exampleProxyDecls fRealm innerNode next = some (r0, o) →
        (o.isSome = true ↔ r0 ≠ -2)) :=
  FillSourceList_appends exampleProxyDecls ctor _
    (exampleProxyEnv ["<?xml?><r>good-bad-good</r>", "</methodResponse>"]) [] (-2)
    (by set_option maxRecDepth 10000 in decide)

end HLT

/-! # Statements on `AliDAQ` (C21, C22, C29) -/

namespace AliDAQ

theorem shiftLeft_eight (d : Int) : d <<< (8 : Int) = d * 256 := by
  have h := Int.shiftLeft_eq_mul_pow d 8
  simpa using h

theorem shiftRight_eight (x : Int) : x >>> (8 : Nat) = x / 256 := by
  have h := Int.shiftRight_eq_div_pow x 8
  simpa using h

theorem land_255 (x : Int) (hx : 0 ≤ x) : Int.land x 0xFF = x % 256 := by
  obtain ⟨n, rfl⟩ := Int.eq_ofNat_of_zero_le hx
  show ((n &&& 255 : Nat) : Int) = _
  have := Nat.and_pow_two_sub_one_eq_mod n 8
  norm_num at this
  rw [this]; norm_cast

theorem NumberOfDdls_le (d : Int) (hd : 0 ≤ d) (hd2 : d < kNDetectors) :
    NumberOfDdls d = fgkNumberOfDdls.getD d.toNat 0 ∧ 0 < NumberOfDdls d ∧ NumberOfDdls d ≤ 216 := by
  unfold kNDetectors at hd2
  interval_cases d <;> decide

theorem DdlIDOffset_valid (d : Int) (hd : 0 ≤ d) (hd2 : d < kNDetectors) :
    DdlIDOffset d = d * 256 := by
  unfold DdlIDOffset
  rw [if_neg (by omega), shiftLeft_eight]

theorem DdlID_valid (d i : Int) (hd : 0 ≤ d) (hd2 : d < kNDetectors)
    (hi2 : i < NumberOfDdls d) : DdlID d i = d * 256 + i := by
  have h := NumberOfDdls_le d hd hd2
  unfold DdlID
  simp only [DdlIDOffset_valid d hd hd2]
  rw [if_neg (by omega), if_neg (by omega)]

theorem DetectorIDFromDdlID_valid (d i : Int) (hd : 0 ≤ d) (hd2 : d < kNDetectors)
    (hi : 0 ≤ i) (hi2 : i < NumberOfDdls d) : DetectorIDFromDdlID (d * 256 + i) = d := by
  have h := NumberOfDdls_le d hd hd2
  have h1 : (d * 256 + i) >>> (8 : Nat) = d := by rw [shiftRight_eight]; omega
  have h2 : Int.land (d * 256 + i) 0xFF = i := by rw [land_255 _ (by omega)]; omega
  unfold DetectorIDFromDdlID
  simp only [h1, h2]
  rw [if_neg (by omega), if_neg (by omega)]

/-- C21: for a detector index `d` with `0 ≤ d < kNDetectors` and a DDL index
`i` with `0 ≤ i < NumberOfDdls d`, `DdlID d i` is `(d << 8) + i`, which is
`DdlIDOffset d + i`; `DetectorIDFromDdlID` gives `d` back and the low byte gives
`i` back; and `DdlID` takes different values on different valid pairs. -/
theorem DdlID_round_trip (d i : Int) (hd : 0 ≤ d) (hd2 : d < kNDetectors)
    (hi : 0 ≤ i) (hi2 : i < NumberOfDdls d) :
    DdlID d i = d <<< (8 : Int) + i ∧ DdlID d i = DdlIDOffset d + i ∧
    DetectorIDFromDdlID (DdlID d i) = d ∧ Int.land (DdlID d i) 0xFF = i ∧
    ∀ d2 i2 : Int, 0 ≤ d2 → d2 < kNDetectors → 0 ≤ i2 → i2 < NumberOfDdls d2 →
      DdlID d2 i2 = DdlID d i → d2 = d ∧ i2 = i := by
  have h := NumberOfDdls_le d hd hd2
  have hv := DdlID_valid d i hd hd2 hi2
  refine ⟨by rw [hv, shiftLeft_eight], by rw [hv, DdlIDOffset_valid d hd hd2], ?_, ?_, ?_⟩
  · rw [hv]; exact DetectorIDFromDdlID_valid d i hd hd2 hi hi2
  · rw [hv, land_255 _ (by omega)]; omega
  · intro d2 i2 hd3 hd4 hi3 hi4 heq
    have h2 := NumberOfDdls_le d2 hd3 hd4
    rw [hv, DdlID_valid d2 i2 hd3 hd4 hi4] at heq
    omega

/-- C21 at the last DDL of the TPC, detector 3 and index 215. -/
theorem DdlID_round_trip_witness :
    DdlID 3 215 = 983 ∧ DetectorIDFromDdlID (DdlID 3 215) = 3 ∧ Int.land (DdlID 3 215) 0xFF = 215 :=
  have h := DdlID_round_trip 3 215 (by decide) (by decide) (by decide) (by decide)
  ⟨h.1.trans (by decide), h.2.2.1, h.2.2.2.1⟩

/-- C29: `DdlID` accepts a negative DDL index.  `DdlID 3 (-1)` is 767, not -1,
and 767 does not decode to a detector at all; `DdlID 4 (-41)` is 983, the ID
of DDL 215 of detector 3, and decodes to detector 3, not 4.  Line 231 tests
the index against the upper bound only, while its own message gives the valid
range as starting at 0. -/
theorem DdlID_negative_index_accepted :
    DdlID 3 (-1) = 767 ∧ NumberOfDdls 3 = 216 ∧ DetectorIDFromDdlID (DdlID 3 (-1)) = -1 ∧
    DdlID 4 (-41) = 983 ∧ DetectorIDFromDdlID (DdlID 4 (-41)) = 3 := by
  decide

theorem CompareToIgnoreCase_eq_zero (a b : List Char) :
    CompareToIgnoreCase a b = 0 ↔ a.map Char.toLower = b.map Char.toLower := by
  induction a generalizing b with
  | nil => cases b <;> simp [CompareToIgnoreCase]
  | cons c1 cs1 ih =>
    cases b with
    | nil => simp [CompareToIgnoreCase]
    | cons c2 cs2 =>
      by_cases hc : c1.toLower = c2.toLower
      · simp [CompareToIgnoreCase, hc, ih]
      · have : (if c1.toLower > c2.toLower then (1 : Int) else -1) ≠ 0 := by split_ifs <;> decide
        simp [CompareToIgnoreCase, hc, this]

theorem detectorLoop_none (s : String) (names : List String) (iDet : Int)
    (h : ∀ name ∈ names, s.toList.map Char.toLower ≠ name.toList.map Char.toLower) :
    detectorLoop s names iDet = iDet + names.length := by
  induction names generalizing iDet with
  | nil => simp [detectorLoop]
  | cons name rest ih =>
    have h1 : ¬ CompareToIgnoreCase s.toList name.toList = 0 := by
      rw [CompareToIgnoreCase_eq_zero]; exact h name (List.mem_cons_self _ _)
    rw [detectorLoop, if_neg h1, ih _ (fun n hn => h n (List.mem_cons_of_mem _ hn))]
    simp only [List.length_cons, Nat.cast_add, Nat.cast_one]; omega

theorem detectorLoop_eq_lower (s : String) (names : List String) (iDet : Int) :
    detectorLoop s names iDet = detectorLoopLower (s.toList.map Char.toLower) names iDet := by
  induction names generalizing iDet with
  | nil => rfl
  | cons name rest ih =>
    rw [detectorLoop, detectorLoopLower, ih]
    simp only [CompareToIgnoreCase_eq_zero]

/-- C22: for a detector index `d` with `0 ≤ d < kNDetectors`, `DetectorID`
maps the name of `d` back to `d`, and so it does for every string that equals
that name up to the case of its letters; `DetectorID` is -1 for every string
that equals no table entry up to case; `DetectorName` is the empty string for
every index below 0 or from `kNDetectors` on. -/
theorem DetectorID_DetectorName_round_trip (d : Int) (hd : 0 ≤ d) (hd2 : d < kNDetectors) :
    DetectorID (DetectorName d) = d ∧
    (∀ s : String, s.toList.map Char.toLower = (DetectorName d).toList.map Char.toLower →
      DetectorID s = d) ∧
    (∀ s : String, (∀ name ∈ fgkDetectorName,
        s.toList.map Char.toLower ≠ name.toList.map Char.toLower) → DetectorID s = -1) ∧
    (∀ i : Int, i < 0 ∨ kNDetectors ≤ i → DetectorName i = "") := by
  have key : ∀ s : String,
      s.toList.map Char.toLower = (DetectorName d).toList.map Char.toLower →
      DetectorID s = d := by
    intro s hs
    unfold DetectorID
    simp only [detectorLoop_eq_lower, hs]
    unfold kNDetectors at hd2
    interval_cases d <;> decide
  refine ⟨key _ rfl, key, ?_, ?_⟩
  · intro s hs
    unfold DetectorID
    simp only [detectorLoop_none s _ 0 hs]
    decide
  · intro i hi
    unfold DetectorName
    rw [if_pos (by omega)]

/-- C22 at detector 3, the TPC. -/
theorem DetectorID_DetectorName_round_trip_witness :
    DetectorID "TPC" = 3 ∧ DetectorID "tPc" = 3 ∧ DetectorID "TPX" = -1 ∧
    DetectorName 20 = "" :=
  have h := DetectorID_DetectorName_round_trip 3 (by decide) (by decide)
  ⟨h.1, h.2.1 "tPc" (by decide), h.2.2.1 "TPX" (by decide), h.2.2.2 20 (by decide)⟩

end AliDAQ

namespace IceGOM

/-- C23, as stated, fails: a module that inherits from `IceAOM` and has unique
ID 682 gets string number 0, which is not negative. -/
theorem GetString_IceAOM_682 :
    omidOf 682 = 682 ∧ GetString 682 true = 0 := by
  decide

/-- C23, amended: for a module whose unique ID, read as `Int_t`, is `omid`:
if `omid ≤ 0` the result is 0; if `1 ≤ omid ≤ 681` and the module inherits from
`IceAOM` the result is negative, between -19 and -1; if `omid > 681` and the
module inherits from `IceAOM` the result is 0. -/
theorem GetString_amanda (fUniqueID : Nat) (aom : Bool) :
    (omidOf fUniqueID ≤ 0 → GetString fUniqueID aom = 0) ∧
    (1 ≤ omidOf fUniqueID → omidOf fUniqueID ≤ 681 → aom = true →
      -19 ≤ GetString fUniqueID aom ∧ GetString fUniqueID aom ≤ -1) ∧
    (681 < omidOf fUniqueID → aom = true → GetString fUniqueID aom = 0) := by
  refine ⟨?_, ?_, ?_⟩
  · intro h
    unfold GetString
    simp only [h, if_true]
  · intro h1 h2 ha
    subst ha
    suffices h : ∀ x, x = GetString fUniqueID true → -19 ≤ x ∧ x ≤ -1 from h _ rfl
    intro x hx
    unfold GetString at hx
    simp only [if_true] at hx
    revert h1 h2 hx
    generalize omidOf fUniqueID = omid
    intro h1 h2 hx
    rw [if_neg (by omega)] at hx
    by_cases h681 : omid = 681
    · rw [if_pos h681] at hx; omega
    rw [if_neg h681] at hx
    by_cases c20 : omid ≤ 20
    · rw [if_pos c20] at hx; omega
    rw [if_neg c20] at hx
    by_cases c40 : omid ≤ 40
    · rw [if_pos ⟨by omega, c40⟩] at hx; omega
    rw [if_neg (fun hc => c40 hc.2)] at hx
    by_cases c60 : omid ≤ 60
    · rw [if_pos ⟨by omega, c60⟩] at hx; omega
    rw [if_neg (fun hc => c60 hc.2)] at hx
    by_cases c86 : omid ≤ 86
    · rw [if_pos ⟨by omega, c86⟩] at hx; omega
    rw [if_neg (fun hc => c86 hc.2)] at hx
    by_cases c122 : omid ≤ 122
    · rw [if_pos ⟨by omega, c122⟩] at hx; omega
    rw [if_neg (fun hc => c122 hc.2)] at hx
    by_cases c158 : omid ≤ 158
    · rw [if_pos ⟨by omega, c158⟩] at hx; omega
    rw [if_neg (fun hc => c158 hc.2)] at hx
    by_cases c194 : omid ≤ 194
    · rw [if_pos ⟨by omega, c194⟩] at hx; omega
    rw [if_neg (fun hc => c194 hc.2)] at hx
    by_cases c230 : omid ≤ 230
    · rw [if_pos ⟨by omega, c230⟩] at hx; omega
    rw [if_neg (fun hc => c230 hc.2)] at hx
    by_cases c266 : omid ≤ 266
    · rw [if_pos ⟨by omega, c266⟩] at hx; omega
    rw [if_neg (fun hc => c266 hc.2)] at hx
    by_cases c302 : omid ≤ 302
    · rw [if_pos ⟨by omega, c302⟩] at hx; omega
    rw [if_neg (fun hc => c302 hc.2)] at hx
    by_cases c344 : omid ≤ 344
    · rw [if_pos ⟨by omega, c344⟩] at hx; omega
    rw [if_neg (fun hc => c344 hc.2)] at hx
    by_cases c386 : omid ≤ 386
    · rw [if_pos ⟨by omega, c386⟩] at hx; omega
    rw [if_neg (fun hc => c386 hc.2)] at hx
    by_cases c428 : omid ≤ 428
    · rw [if_pos ⟨by omega, c428⟩] at hx; omega
    rw [if_neg (fun hc => c428 hc.2)] at hx
    by_cases c470 : omid ≤ 470
    · rw [if_pos ⟨by omega, c470⟩] at hx; omega
    rw [if_neg (fun hc => c470 hc.2)] at hx
    by_cases c512 : omid ≤ 512
    · rw [if_pos ⟨by omega, c512⟩] at hx; omega
    rw [if_neg (fun hc => c512 hc.2)] at hx
    by_cases c554 : omid ≤ 554
    · rw [if_pos ⟨by omega, c554⟩] at hx; omega
    rw [if_neg (fun hc => c554 hc.2)] at hx
    by_cases c596 : omid ≤ 596
    · rw [if_pos ⟨by omega, c596⟩] at hx; omega
    rw [if_neg (fun hc => c596 hc.2)] at hx
    by_cases c638 : omid ≤ 638
    · rw [if_pos ⟨by omega, c638⟩] at hx; omega
    rw [if_neg (fun hc => c638 hc.2)] at hx
    by_cases c680 : omid ≤ 680
    · rw [if_pos ⟨by omega, c680⟩] at hx; omega
    rw [if_neg (fun hc => c680 hc.2)] at hx
    omega
  · intro h1 ha
    subst ha
    unfold GetString
    simp only [if_true]
    revert h1
    generalize omidOf fUniqueID = omid
    intro h1
    rw [if_neg (by omega), if_neg (by omega)]
    rw [if_neg (by omega)]
    rw [if_neg (by omega)]
    rw [if_neg (by omega)]
    rw [if_neg (by omega)]
    rw [if_neg (by omega)]
    rw [if_neg (by omega)]
    rw [if_neg (by omega)]
    rw [if_neg (by omega)]
    rw [if_neg (by omega)]
    rw [if_neg (by omega)]
    rw [if_neg (by omega)]
    rw [if_neg (by omega)]
    rw [if_neg (by omega)]
    rw [if_neg (by omega)]
    rw [if_neg (by omega)]
    rw [if_neg (by omega)]
    rw [if_neg (by omega)]
    rw [if_neg (by omega)]
    rw [if_neg (by omega)]

end IceGOM

namespace AliLumiTools

/-- C27: run 146810 lies in the row of line 219 (146808 to 146814, class
`CINT1-B-NOPF-ALL`), but the result carries the class of the row of line 218
(145289 to 146860), which comes first in the chain and covers the whole of the
rows of lines 219-222.  Likewise run 222000 lies in the row of line 252 (sigma
30, class `C0TVX-B-NOPF-ALLNOTRD`) and gets the values of the row of line 251. -/
theorem GetLumiCTPRefClass_shadowed_rows :
    GetLumiCTPRefClass 146810 = (true, "CINT1-B-NOPF-ALLNOTRD", 57) ∧
    GetLumiCTPRefClass 146857 = (true, "CINT1-B-NOPF-ALLNOTRD", 57) ∧
    GetLumiCTPRefClass 222000 = (true, "CADAND-B-NOPF-ALLNOTRD", 16.8) ∧
    GetLumiCTPRefClass 178062 = (true, "C0TVX-B-NOPF-ALL", 25) := by
  refine ⟨?_, ?_, ?_, ?_⟩ <;> norm_num [GetLumiCTPRefClass, lumiRefTable] <;> decide

/-- C30: for 32-bit counts the reference count is `(counts2 - counts1) mod 2^32`
whichever branch is taken; it is 0 when the counts are equal and the plain
difference when `counts2 > counts1`. -/
theorem refCounts_wraps (counts1 counts2 : Nat) (h1 : counts1 < 2 ^ 32)
    (h2 : counts2 < 2 ^ 32) :
    (refCounts counts1 counts2 : Int) = ((counts2 : Int) - counts1) % 2 ^ 32 ∧
    (counts2 = counts1 → refCounts counts1 counts2 = 0) ∧
    (counts2 > counts1 → refCounts counts1 counts2 = counts2 - counts1) := by
  unfold refCounts subUInt addUInt
  refine ⟨?_, ?_, ?_⟩
  · split_ifs <;> omega
  · intro h; subst h; rw [if_neg (lt_irrefl _)]; omega
  · intro h; rw [if_pos h]; omega

/-- C30 at `counts1 = 2^32 - 6`, `counts2 = 4`, a counter that wrapped: the
reference count is 10. -/
theorem refCounts_wraps_witness :
    refCounts 4294967290 4 = 10 ∧ refCounts 7 7 = 0 ∧ refCounts 3 10 = 7 :=
  have h := refCounts_wraps 4294967290 4 (by decide) (by decide)
  ⟨by have := h.1; omega,
    (refCounts_wraps 7 7 (by decide) (by decide)).2.1 rfl,
    (refCounts_wraps 3 10 (by decide) (by decide)).2.2 (by decide)⟩

end AliLumiTools

namespace AliHLTSimulation

/-- C28: with `specificObjects` the two items `HLT/ConfigHLT/SolenoidBzX` and
`HLT/ConfigHLT/SolenoidBz`, the entry `HLT/ConfigHLT/SolenoidBz` is one of the
blank-separated items, yet a specific storage is set for it: `strstr` stops at
the first occurrence, inside the first item, where the next character is `X`.
With the single item `XHLT/ConfigHLT/esdLayout` the entry
`HLT/ConfigHLT/esdLayout` is not an item, yet no storage is set for it. -/
theorem AliHLTSimulationSetup_first_occurrence_only :
    "HLT/ConfigHLT/SolenoidBz".toList ∈
      blankSeparatedItems (some "HLT/ConfigHLT/SolenoidBzX HLT/ConfigHLT/SolenoidBz") ∧
    AliHLTSimulationSetup "/tmp" (some [])
        (some "HLT/ConfigHLT/SolenoidBzX HLT/ConfigHLT/SolenoidBz") =
      (0, some [("HLT/ConfigHLT/SolenoidBz", "local:///tmp"),
        ("HLT/ConfigHLT/esdLayout", "local:///tmp")]) ∧
    "HLT/ConfigHLT/esdLayout".toList ∉
      blankSeparatedItems (some "XHLT/ConfigHLT/esdLayout") ∧
    AliHLTSimulationSetup "/tmp" (some []) (some "XHLT/ConfigHLT/esdLayout") =
      (0, some [("HLT/ConfigHLT/SolenoidBz", "local:///tmp")]) := by
  set_option maxRecDepth 100000 in decide

end AliHLTSimulation
